import Mathlib

/-!
# Word clock firmware: connectivity controller

A shallow embedding of `NetworkManager` (NetworkManager.cpp / NetworkManager.h) and of the
parts of `WebConfigServer` it drives.

Conventions of the embedding

* The controller object, the flash key/value storage it reaches through `Preferences`, and two
  ghost components (`trace`, the list of calls made to hardware and library primitives, and
  `tick`, the number of readings taken from the environment so far) form one record,
  `NetworkManager`.
* Everything the firmware reads from outside (the clock, the radio, the button pin) comes from
  an `Env`: a family of readings indexed by `tick`.  Each reading uses the current tick and
  advances it, so every sequence of readings is produced by some `Env`.
* `unsigned long` is 32 bits wide on the ESP32; timestamps are naturals below `2^32` and
  differences are taken modulo `2^32` (`sub32`).
* `Preferences` is the Arduino-ESP32 library over NVS flash.  It is modelled as an ideal store:
  every write succeeds, strings are stored as written, a missing key or a key of another type
  reads as the default.
* Serial output, watchdog resets (`esp_task_wdt_reset`) and `yield()` are omitted.
* A wait loop whose exit depends on the clock takes a bound `fuel` on the passes through its
  body; when the bound is reached the call ends as `Outcome.running` with the state reached.
-/

namespace WordClock

/-! ## Persistent store -/

/-- A stored value: a string entry or a numeric entry (`putLong`, `putInt`). -/
inductive Value where
  | str (s : String)
  | num (n : Int)
deriving DecidableEq, Repr

/-- One namespace of the store: its keys with their values. -/
abbrev Section := List (String × Value)

/-- The flash store: namespaces by name. -/
abbrev Nvs := List (String × Section)

/-- Drop every entry stored under `k`. -/
def assocRemove {β : Type} (k : String) (l : List (String × β)) : List (String × β) :=
  l.filter (fun e => e.1 != k)

/-- Store `v` under `k`, replacing what was there. -/
def assocPut {β : Type} (k : String) (v : β) (l : List (String × β)) : List (String × β) :=
  (k, v) :: assocRemove k l

/-- The section stored under the namespace `ns`; a namespace never written has no keys. -/
def nvsSection (nvs : Nvs) (ns : String) : Section :=
  (nvs.lookup ns).getD []

/-- Replace the section of the namespace `ns`. -/
def nvsSetSection (nvs : Nvs) (ns : String) (sec : Section) : Nvs :=
  assocPut ns sec nvs

/-- An open `Preferences` handle: the result of `preferences.begin(name, readOnly)`. -/
structure Preferences where
  name : String
  readOnly : Bool
deriving DecidableEq, Repr

namespace Preferences

/-- Model of `getString(key, defaultValue)`. -/
def getString (p : Preferences) (nvs : Nvs) (key dflt : String) : String :=
  match (nvsSection nvs p.name).lookup key with
  | some (Value.str v) => v
  | _ => dflt

/-- Model of `getLong(key, defaultValue)`. -/
def getLong (p : Preferences) (nvs : Nvs) (key : String) (dflt : Int) : Int :=
  match (nvsSection nvs p.name).lookup key with
  | some (Value.num v) => v
  | _ => dflt

/-- Model of `isKey(key)`. -/
def isKey (p : Preferences) (nvs : Nvs) (key : String) : Bool :=
  ((nvsSection nvs p.name).lookup key).isSome

/-- Model of `putString(key, value)`; refused on a read-only handle. -/
def putString (p : Preferences) (nvs : Nvs) (key value : String) : Nvs :=
  if p.readOnly then nvs
  else nvsSetSection nvs p.name (assocPut key (Value.str value) (nvsSection nvs p.name))

/-- Model of `remove(key)`; refused on a read-only handle. -/
def remove (p : Preferences) (nvs : Nvs) (key : String) : Nvs :=
  if p.readOnly then nvs
  else nvsSetSection nvs p.name (assocRemove key (nvsSection nvs p.name))

/-- Model of `clear()`; refused on a read-only handle. -/
def clear (p : Preferences) (nvs : Nvs) : Nvs :=
  if p.readOnly then nvs else nvsSetSection nvs p.name []

end Preferences

/-! ## Hardware and library calls, environment -/

/-- Radio modes passed to `WiFi.mode`. -/
inductive WifiMode where
  | WIFI_OFF
  | WIFI_STA
  | WIFI_AP_STA
deriving DecidableEq, Repr

/-- `ServerMode` of WebConfigServer.h. -/
inductive ServerMode where
  | MODE_SETUP
  | MODE_NORMAL
deriving DecidableEq, Repr

/-- Calls the firmware makes to the store, the radio, the platform and the web server. -/
inductive Event where
  | nvsGet (ns key : String)
  | nvsIsKey (ns key : String)
  | nvsPut (ns key : String)
  | nvsRemove (ns key : String)
  | nvsClear (ns : String)
  | wifiMode (m : WifiMode)
  | wifiSetAutoReconnect (b : Bool)
  | wifiBegin (ssid password : String)
  | wifiDisconnect (wifiOff : Bool)
  | softAP (ssid : String)
  | softAPdisconnect (wifiOff : Bool)
  | scanNetworks
  | scanDelete
  | configTime
  | setTZ (tz : String)
  | delay (ms : Nat)
  | espRestart
  | serverNew
  | serverStart (mode : ServerMode)
  | serverStop
  | serverDelete
  | dnsProcess
deriving DecidableEq, Repr

/-- One entry of the radio's scan result table: `WiFi.SSID(i)`, `WiFi.RSSI(i)`,
`WiFi.encryptionType(i)`. -/
structure ScanEntry where
  ssid : String
  rssi : Int
  encryption : Nat
deriving DecidableEq, Repr

/-- The environment: what each primitive answers when it is the reading number `tick`. -/
structure Env where
  /-- Reading of `millis()` (taken modulo `2^32`). -/
  clock : Nat → Nat
  /-- Reading of `WiFi.scanComplete()`. -/
  scanComplete : Nat → Int
  /-- Reading of `WiFi.scanNetworks(true, false, false, 500)`. -/
  scanNetworks : Nat → Int
  /-- The scan result table at the time of the reading. -/
  scanTable : Nat → Nat → ScanEntry
  /-- Reading of `WiFi.status() == WL_CONNECTED`. -/
  wifiConnected : Nat → Bool
  /-- Reading of `digitalRead(resetButtonPin) == LOW`. -/
  buttonLow : Nat → Bool
  /-- Reading of `getLocalTime(&timeinfo)`. -/
  localTime : Nat → Bool

/-- Width of `unsigned long`. -/
def U32 : Nat := 4294967296

/-- Difference `a - b` of two `unsigned long` values. -/
def sub32 (a b : Nat) : Nat := (a % U32 + U32 - b % U32) % U32

def WIFI_SCAN_RUNNING : Int := -1
def WIFI_SCAN_FAILED : Int := -2

/-! ## WebConfigServer -/

/-- The fields of `WebConfigServer` the controller depends on (`server` and `dnsServer` record
whether the pointer is set). -/
structure WebConfigServer where
  server : Bool
  dnsServer : Bool
  running : Bool
  shouldReboot : Bool
  mode : ServerMode
deriving DecidableEq, Repr

/-! ## Controller state -/

/-- The controller (fields of NetworkManager.h) together with the flash store and the ghost
components `trace` and `tick`. -/
structure NetworkManager where
  nvs : Nvs
  trace : List Event
  tick : Nat
  tzString : String
  gmtOffset_sec : Int
  daylightOffset_sec : Int
  defaultGmtOffset_sec : Int
  defaultDaylightOffset_sec : Int
  lastSyncTime : Nat
  lastConnectionAttempt : Nat
  apModeStartTime : Nat
  webConfigServer : Option WebConfigServer
  apModeActive : Bool
  storedSSID : String
  storedPassword : String
  scanInProgress : Bool
  cachedNetworksJSON : String
  lastScanTime : Nat
  scanStartTime : Nat
  scanRetryCount : Int
  resetButtonPin : Int
  buttonPressStart : Nat
  buttonPressed : Bool
deriving Repr

namespace NetworkManager

def syncInterval : Nat := 86400000
def connectionTimeout : Nat := 20000
def retryInterval : Nat := 60000
def apModeTimeout : Nat := 600000
def AP_SSID : String := "WordClock"
def DEFAULT_TZ : String := "CET-1CEST,M3.5.0,M10.5.0/3"
def KEEP_WIFI : String := "__KEEP_WIFI__"
def KEEP_TZ : String := "__KEEP_TZ__"
def JSON_SCANNING : String := "\x7b\"status\":\"scanning\"\x7d"
def JSON_RETRYING : String := "\x7b\"status\":\"retrying\"\x7d"
def JSON_EMPTY : String := "\x7b\"networks\":[]\x7d"
def JSON_NO_INSTANCE : String := "\x7b\"error\":\"No instance\"\x7d"

/-- The constructor `NetworkManager::NetworkManager`, on a device whose flash holds `nvs` and
whose environment has already given `tick` readings. -/
def construct (defaultGmtOffset_sec defaultDaylightOffset_sec : Int) (nvs : Nvs) (tick : Nat) :
    NetworkManager :=
  { nvs := nvs
    trace := []
    tick := tick
    tzString := ""
    gmtOffset_sec := defaultGmtOffset_sec
    daylightOffset_sec := defaultDaylightOffset_sec
    defaultGmtOffset_sec := defaultGmtOffset_sec
    defaultDaylightOffset_sec := defaultDaylightOffset_sec
    lastSyncTime := 0
    lastConnectionAttempt := 0
    apModeStartTime := 0
    webConfigServer := none
    apModeActive := false
    storedSSID := ""
    storedPassword := ""
    scanInProgress := false
    cachedNetworksJSON := ""
    lastScanTime := 0
    scanStartTime := 0
    scanRetryCount := 0
    resetButtonPin := -1
    buttonPressStart := 0
    buttonPressed := false }

/-- A reboot: the flash store survives, the controller is constructed afresh. -/
def restarted (s : NetworkManager) : NetworkManager :=
  construct s.defaultGmtOffset_sec s.defaultDaylightOffset_sec s.nvs s.tick

/-- Record a call in the trace. -/
def log (s : NetworkManager) (e : Event) : NetworkManager :=
  { s with trace := s.trace ++ [e] }

/-- Advance past one reading of the environment. -/
def next (s : NetworkManager) : NetworkManager :=
  { s with tick := s.tick + 1 }

/-- The value `millis()` returns at the current reading. -/
def millis (env : Env) (s : NetworkManager) : Nat :=
  env.clock s.tick % U32

/-! ### Credential and timezone store -/

/-- `NetworkManager::loadCredentials`. -/
def loadCredentials (s : NetworkManager) : Bool × NetworkManager :=
  let p : Preferences := ⟨"wifi", true⟩
  let ssid := p.getString s.nvs "ssid" ""
  let s := s.log (Event.nvsGet "wifi" "ssid")
  let password := p.getString s.nvs "password" ""
  let s := s.log (Event.nvsGet "wifi" "password")
  let s := { s with storedSSID := ssid, storedPassword := password }
  (decide (s.storedSSID.length > 0), s)

/-- `NetworkManager::saveCredentials`. -/
def saveCredentials (s : NetworkManager) (ssid password : String) : NetworkManager :=
  let p : Preferences := ⟨"wifi", false⟩
  let s := { s with nvs := p.putString s.nvs "ssid" ssid }
  let s := s.log (Event.nvsPut "wifi" "ssid")
  let s := { s with nvs := p.putString s.nvs "password" password }
  let s := s.log (Event.nvsPut "wifi" "password")
  { s with storedSSID := ssid, storedPassword := password }

/-- The body of the `if (preferences.isKey("gmtOffset"))` block of `loadTimezoneSettings`. -/
def removeLegacyKeys (p : Preferences) (s : NetworkManager) : NetworkManager :=
  let s := s.log (Event.nvsGet "timezone" "gmtOffset")
  let s := { s with nvs := p.remove s.nvs "gmtOffset" }
  let s := s.log (Event.nvsRemove "timezone" "gmtOffset")
  let s := { s with nvs := p.remove s.nvs "dstOffset" }
  s.log (Event.nvsRemove "timezone" "dstOffset")

/-- `NetworkManager::loadTimezoneSettings`. -/
def loadTimezoneSettings (s : NetworkManager) : Bool × NetworkManager :=
  let p : Preferences := ⟨"timezone", false⟩
  let s := { s with tzString := p.getString s.nvs "tzString" "" }
  let s := s.log (Event.nvsGet "timezone" "tzString")
  if s.tzString.length = 0 then
    let hasOld := p.isKey s.nvs "gmtOffset"
    let s := s.log (Event.nvsIsKey "timezone" "gmtOffset")
    let s := if hasOld then removeLegacyKeys p s else s
    let s := { s with tzString := DEFAULT_TZ }
    let s := { s with nvs := p.putString s.nvs "tzString" s.tzString }
    let s := s.log (Event.nvsPut "timezone" "tzString")
    (true, s)
  else
    (true, s)

/-- `NetworkManager::saveTimezoneSettings`. -/
def saveTimezoneSettings (s : NetworkManager) (newTzString : String) : NetworkManager :=
  let p : Preferences := ⟨"timezone", false⟩
  let hasGmt := p.isKey s.nvs "gmtOffset"
  let s := s.log (Event.nvsIsKey "timezone" "gmtOffset")
  let s := if hasGmt then
      ({ s with nvs := p.remove s.nvs "gmtOffset" }).log (Event.nvsRemove "timezone" "gmtOffset")
    else s
  let hasDst := p.isKey s.nvs "dstOffset"
  let s := s.log (Event.nvsIsKey "timezone" "dstOffset")
  let s := if hasDst then
      ({ s with nvs := p.remove s.nvs "dstOffset" }).log (Event.nvsRemove "timezone" "dstOffset")
    else s
  let s := { s with nvs := p.putString s.nvs "tzString" newTzString }
  let s := s.log (Event.nvsPut "timezone" "tzString")
  { s with tzString := newTzString }

/-- `NetworkManager::clearAllSettings`. -/
def clearAllSettings (s : NetworkManager) : NetworkManager :=
  let pw : Preferences := ⟨"wifi", false⟩
  let s := { s with nvs := pw.clear s.nvs }
  let s := s.log (Event.nvsClear "wifi")
  let pt : Preferences := ⟨"timezone", false⟩
  let s := { s with nvs := pt.clear s.nvs }
  let s := s.log (Event.nvsClear "timezone")
  { s with
    storedSSID := ""
    storedPassword := ""
    gmtOffset_sec := s.defaultGmtOffset_sec
    daylightOffset_sec := s.defaultDaylightOffset_sec }

/-- `NetworkManager::onWebSaveConfig`.  The static `instance` pointer is the first argument;
the result is the controller it points to afterwards. -/
def onWebSaveConfig (inst : Option NetworkManager) (ssid password tzString : String) :
    Option NetworkManager :=
  match inst with
  | some s =>
    let s := if ssid ≠ KEEP_WIFI ∧ ssid.length > 0 then s.saveCredentials ssid password else s
    let s := if tzString ≠ KEEP_TZ ∧ tzString.length > 0 then s.saveTimezoneSettings tzString
      else s
    some s
  | none => none

/-! ### Outcomes of calls that may reboot or wait -/

end NetworkManager

/-- How a call ends: it returns, it reaches the restart primitive (control never comes back),
or it is still inside a wait loop after the allowed number of iterations.  Each case carries
the state reached. -/
inductive Outcome (α : Type) where
  | ret (a : α) (s : NetworkManager)
  | reboot (s : NetworkManager)
  | running (s : NetworkManager)

namespace Outcome

/-- The state an outcome carries. -/
def state {α : Type} : Outcome α → NetworkManager
  | ret _ s => s
  | reboot s => s
  | running s => s

/-- Sequencing: the continuation runs only after a normal return. -/
def bind {α β : Type} (o : Outcome α) (k : α → NetworkManager → Outcome β) : Outcome β :=
  match o with
  | ret a s => k a s
  | reboot s => reboot s
  | running s => running s

end Outcome

namespace WebConfigServer

/-- The constructor `WebConfigServer::WebConfigServer`. -/
def construct : WebConfigServer :=
  { server := false, dnsServer := false, running := false, shouldReboot := false,
    mode := ServerMode.MODE_SETUP }

/-- `WebConfigServer::start`. -/
def start (w : WebConfigServer) (serverMode : ServerMode) : WebConfigServer :=
  if w.running then w
  else
    let w := { w with mode := serverMode }
    let w := if w.mode = ServerMode.MODE_SETUP then { w with dnsServer := true } else w
    let w := { w with server := true }
    { w with running := true, shouldReboot := false }

/-- `WebConfigServer::stop`. -/
def stop (w : WebConfigServer) : WebConfigServer :=
  if ¬ w.running then w
  else
    let w := if w.dnsServer then { w with dnsServer := false } else w
    let w := if w.server then { w with server := false } else w
    { w with running := false }

/-- `WebConfigServer::update`, run on the server `w` owned by the controller `s`. -/
def update (w : WebConfigServer) (s : NetworkManager) : Outcome Unit :=
  if w.running then
    let s := if w.dnsServer ∧ w.mode = ServerMode.MODE_SETUP then s.log Event.dnsProcess else s
    if w.shouldReboot then
      let s := s.log (Event.delay 2000)
      let s := s.log (Event.wifiDisconnect true)
      let s := s.log (Event.delay 100)
      let s := s.log (Event.wifiMode WifiMode.WIFI_OFF)
      let s := s.log (Event.delay 100)
      Outcome.reboot (s.log Event.espRestart)
    else Outcome.ret () s
  else Outcome.ret () s

end WebConfigServer

namespace NetworkManager

/-! ### Reset button -/

/-- `NetworkManager::setResetButtonPin`. -/
def setResetButtonPin (s : NetworkManager) (pin : Int) : NetworkManager :=
  { s with resetButtonPin := pin }

/-- `NetworkManager::checkResetButton`. -/
def checkResetButton (env : Env) (s : NetworkManager) : Bool × NetworkManager :=
  if s.resetButtonPin < 0 then (false, s)
  else
    let low := env.buttonLow s.tick
    let s := s.next
    if low then
      if ¬ s.buttonPressed then
        let s := { s with buttonPressed := true, buttonPressStart := millis env s }
        (false, s.next)
      else
        let pressDuration := sub32 (millis env s) s.buttonPressStart
        let s := s.next
        if pressDuration ≥ 3000 then (true, s.clearAllSettings) else (false, s)
    else
      if s.buttonPressed then
        -- `millis()` is read for the printout only
        let s := s.next
        (false, { s with buttonPressed := false })
      else (false, s)

/-! ### Network scan -/

/-- Lines 570-623 of `startNetworkScan`: the scan is really started. -/
def beginScan (env : Env) (s : NetworkManager) : NetworkManager :=
  let scanStatus := env.scanComplete s.tick
  let s := s.next
  let s := if scanStatus ≠ WIFI_SCAN_FAILED then s.log Event.scanDelete else s
  let s := s.log (Event.wifiMode WifiMode.WIFI_AP_STA)
  let s := s.log (Event.delay 100)
  let connected := env.wifiConnected s.tick
  let s := s.next
  let s := if connected then (s.log (Event.wifiDisconnect false)).log (Event.delay 200) else s
  let s := { s with scanInProgress := true, scanStartTime := millis env s }
  let s := s.next
  let result := env.scanNetworks s.tick
  let s := (s.log Event.scanNetworks).next
  if result = WIFI_SCAN_FAILED then
    let s := { s with scanInProgress := false }
    if s.apModeActive ∧ s.scanRetryCount < 3 then
      let s := { s with scanRetryCount := s.scanRetryCount + 1 }
      let s := { s with cachedNetworksJSON := JSON_RETRYING }
      let s := { s with lastScanTime := millis env s }
      s.next
    else
      { s with cachedNetworksJSON := JSON_EMPTY, scanRetryCount := 0 }
  else
    { s with cachedNetworksJSON := JSON_SCANNING }

/-- `NetworkManager::startNetworkScan`.  In `apModeActive && (millis() - apModeStartTime < 2000)`
the clock is read only in AP mode. -/
def startNetworkScan (env : Env) (s : NetworkManager) : NetworkManager :=
  if s.scanInProgress then s
  else if s.apModeActive then
    let now := millis env s
    let s := s.next
    if sub32 now s.apModeStartTime < 2000 then { s with cachedNetworksJSON := JSON_SCANNING }
    else beginScan env s
  else beginScan env s

/-- One pass of the `for` loop of `buildNetworksJSON`, on the JSON text and the count
`addedNetworks`. -/
def buildNetworksStep (table : Nat → ScanEntry) (acc : String × Nat) (i : Nat) : String × Nat :=
  let ssid := (table i).ssid
  if ssid.length = 0 then acc
  else
    let json := if acc.2 > 0 then acc.1 ++ "," else acc.1
    let json := json ++ "\x7b"
    let json := json ++ ("\"ssid\":\"" ++ ssid ++ "\",")
    let json := json ++ ("\"rssi\":" ++ toString (table i).rssi ++ ",")
    let json := json ++ ("\"encryption\":" ++ toString (table i).encryption)
    let json := json ++ "\x7d"
    (json, acc.2 + 1)

/-- `NetworkManager::buildNetworksJSON`, reading the scan result table `table`. -/
def buildNetworksJSON (table : Nat → ScanEntry) (n : Int) : String :=
  ((List.range n.toNat).foldl (buildNetworksStep table) ("\x7b\"networks\":[", 0)).1 ++ "]\x7d"

/-- `NetworkManager::getNetworksJSON`. -/
def getNetworksJSON (env : Env) (s : NetworkManager) : String × NetworkManager :=
  let n := env.scanComplete s.tick
  let table := env.scanTable s.tick
  let s := s.next
  if n < 0 then (JSON_EMPTY, s) else (buildNetworksJSON table n, s)

/-- Lines 77-144 of `update`: the result of a running scan is collected. -/
def updateScan (env : Env) (s : NetworkManager) : NetworkManager :=
  if s.scanInProgress then
    let currentMillis := millis env s
    let s := s.next
    let n := env.scanComplete s.tick
    let s := s.next
    if n ≥ 0 then
      let r := getNetworksJSON env s
      let s := { r.2 with cachedNetworksJSON := r.1 }
      let s := { s with scanInProgress := false }
      let s := { s with lastScanTime := millis env s }
      let s := s.next
      let s := { s with scanRetryCount := 0 }
      s.log Event.scanDelete
    else if n = WIFI_SCAN_FAILED then
      let s := s.log Event.scanDelete
      let s := { s with scanInProgress := false }
      let s := { s with lastScanTime := millis env s }
      let s := s.next
      if s.apModeActive ∧ s.scanRetryCount < 3 then
        let s := { s with scanRetryCount := s.scanRetryCount + 1 }
        { s with cachedNetworksJSON := JSON_RETRYING }
      else
        { s with cachedNetworksJSON := JSON_EMPTY, scanRetryCount := 0 }
    else if n = WIFI_SCAN_RUNNING then
      if sub32 currentMillis s.scanStartTime > 30000 then
        let s := s.log Event.scanDelete
        let s := { s with scanInProgress := false }
        let s := { s with lastScanTime := millis env s }
        let s := s.next
        let s := { s with cachedNetworksJSON := JSON_RETRYING }
        if s.scanRetryCount < 3 then { s with scanRetryCount := s.scanRetryCount + 1 } else s
      else s
    else s
  else s

/-- Lines 146-156 of `update`: a scheduled retry is started after the backoff. -/
def updateRetry (env : Env) (s : NetworkManager) : NetworkManager :=
  if s.apModeActive ∧ s.scanRetryCount > 0 ∧ s.scanRetryCount ≤ 3 ∧ ¬ s.scanInProgress then
    let currentMillis := millis env s
    let s := s.next
    if sub32 currentMillis s.lastScanTime > 2000 then startNetworkScan env s else s
  else s

/-- The last branch of `onWebGetNetworks` and the one before it. -/
def getNetworksUncached (env : Env) (s : NetworkManager) : String × NetworkManager :=
  if s.scanInProgress then (JSON_SCANNING, s)
  else
    let s := startNetworkScan env s
    (s.cachedNetworksJSON, s)

/-- `NetworkManager::onWebGetNetworks`; the clock is read only when the first three conjuncts
of the condition hold. -/
def onWebGetNetworks (env : Env) (inst : Option NetworkManager) :
    String × Option NetworkManager :=
  match inst with
  | some s =>
    if s.cachedNetworksJSON.length > 0 ∧ s.cachedNetworksJSON ≠ JSON_RETRYING ∧
        s.cachedNetworksJSON ≠ JSON_SCANNING then
      let now := millis env s
      let s := s.next
      if sub32 now s.lastScanTime < 30000 then (s.cachedNetworksJSON, some s)
      else
        let r := getNetworksUncached env s
        (r.1, some r.2)
    else
      let r := getNetworksUncached env s
      (r.1, some r.2)
  | none => (JSON_NO_INSTANCE, none)

/-- `NetworkManager::onWebStartScan`. -/
def onWebStartScan (env : Env) (inst : Option NetworkManager) : Option NetworkManager :=
  match inst with
  | some s => some (startNetworkScan env s)
  | none => none

/-! ### Time sync and status server -/

/-- The wait loop of `syncTimeWithNTP` with `remaining` attempts left; the flag tells whether
the time was obtained (`retry < maxRetries` at the exit). -/
def ntpWait (env : Env) : Nat → NetworkManager → Bool × NetworkManager
  | 0, s => (false, s)
  | remaining + 1, s =>
    let ok := env.localTime s.tick
    let s := s.next
    if ok then (true, s) else ntpWait env remaining (s.log (Event.delay 500))

/-- `NetworkManager::syncTimeWithNTP`. -/
def syncTimeWithNTP (env : Env) (s : NetworkManager) : NetworkManager :=
  let s := s.log Event.configTime
  let r := ntpWait env 20 s
  let s := r.2
  if ¬ r.1 then
    ({ s with lastSyncTime := millis env s }).next
  else
    let s := s.log (Event.setTZ s.tzString)
    let s := s.log (Event.delay 100)
    -- `getLocalTime` is read once more for the printout
    let s := s.next
    ({ s with lastSyncTime := millis env s }).next

/-- `NetworkManager::isInAPMode`. -/
def isInAPMode (s : NetworkManager) : Bool := s.apModeActive

/-- `NetworkManager::isConnected`; the radio status is read only outside AP mode. -/
def isConnected (env : Env) (s : NetworkManager) : Bool × NetworkManager :=
  if s.apModeActive then (false, s) else (env.wifiConnected s.tick, s.next)

/-- `NetworkManager::startNormalModeWebServer`. -/
def startNormalModeWebServer (env : Env) (s : NetworkManager) : NetworkManager :=
  let alreadyRunning := match s.webConfigServer with
    | some w => w.running
    | none => false
  if alreadyRunning then s
  else
    let c := isConnected env s
    let s := c.2
    if ¬ c.1 then s
    else
      let s := s.log Event.serverNew
      let w := WebConfigServer.construct.start ServerMode.MODE_NORMAL
      let s := s.log (Event.serverStart ServerMode.MODE_NORMAL)
      { s with webConfigServer := some w }

/-! ### Association -/

/-- The `while` loop of `connectToWiFi`; `fuel` bounds the number of passes through its body.
The `lastPrint` progress dots are omitted. -/
def connectWait (env : Env) (startAttempt : Nat) (fuel : Nat) (s : NetworkManager) :
    Outcome Unit :=
  let connected := env.wifiConnected s.tick
  let s := s.next
  if connected then Outcome.ret () s
  else
    let now := millis env s
    let s := s.next
    if ¬ (sub32 now startAttempt < connectionTimeout) then Outcome.ret () s
    else
      match fuel with
      | 0 => Outcome.running s
      | fuel + 1 =>
        let s := s.log (Event.delay 100)
        let r := checkResetButton env s
        if r.1 then
          let s := r.2.log (Event.delay 1000)
          Outcome.reboot (s.log Event.espRestart)
        else connectWait env startAttempt fuel r.2

/-- `NetworkManager::connectToWiFi`. -/
def connectToWiFi (env : Env) (fuel : Nat) (s : NetworkManager) : Outcome Bool :=
  if s.storedSSID.length = 0 then Outcome.ret false s
  else
    let s := if ¬ s.apModeActive then s.log (Event.wifiMode WifiMode.WIFI_STA) else s
    let s := s.log (Event.wifiBegin s.storedSSID s.storedPassword)
    let startAttempt := millis env s
    let s := s.next
    (connectWait env startAttempt fuel s).bind fun _ s =>
      let connected := env.wifiConnected s.tick
      Outcome.ret connected s.next

/-! ### Access point mode -/

/-- The `while` loop of `startAPMode` that waits for the initial scan; `fuel` bounds the number
of passes through its body. -/
def initialScanWait (env : Env) (scanStart : Nat) (fuel : Nat) (s : NetworkManager) :
    Outcome Unit :=
  if ¬ s.scanInProgress then Outcome.ret () s
  else
    let now := millis env s
    let s := s.next
    if ¬ (sub32 now scanStart < 15000) then Outcome.ret () s
    else
      match fuel with
      | 0 => Outcome.running s
      | fuel + 1 =>
        let s := s.log (Event.delay 100)
        let result := env.scanComplete s.tick
        let table := env.scanTable s.tick
        let s := s.next
        if result ≥ 0 ∨ result = WIFI_SCAN_FAILED then
          let s := if result ≥ 0 then
              let s := { s with cachedNetworksJSON := buildNetworksJSON table result }
              ({ s with lastScanTime := millis env s }).next
            else s
          Outcome.ret () { s with scanInProgress := false }
        else initialScanWait env scanStart fuel s

/-- `NetworkManager::startAPMode`.  A server object held before is overwritten, not deleted. -/
def startAPMode (env : Env) (fuel : Nat) (s : NetworkManager) : Outcome Unit :=
  let s := { s with apModeActive := true }
  let s := { s with apModeStartTime := millis env s }
  let s := s.next
  let s := { s with lastConnectionAttempt := millis env s }
  let s := s.next
  let s := s.log (Event.wifiDisconnect true)
  let s := s.log (Event.delay 100)
  let s := s.log (Event.wifiMode WifiMode.WIFI_AP_STA)
  let s := s.log (Event.delay 100)
  let s := s.log (Event.softAP AP_SSID)
  let s := s.log (Event.delay 100)
  let s := startNetworkScan env s
  let scanStart := millis env s
  let s := s.next
  (initialScanWait env scanStart fuel s).bind fun _ s =>
    let s := if s.scanInProgress then { s.log Event.scanDelete with scanInProgress := false }
      else s
    let s := s.log Event.serverNew
    let w := WebConfigServer.construct.start ServerMode.MODE_SETUP
    let s := s.log (Event.serverStart ServerMode.MODE_SETUP)
    Outcome.ret () { s with webConfigServer := some w }

/-! ### The poll function and startup -/

/-- Lines 159-163 of `update`. -/
def updateServer (s : NetworkManager) : Outcome Unit :=
  match s.webConfigServer with
  | some w => w.update s
  | none => Outcome.ret () s

/-- Lines 189-214 of `update`: the reconnect from AP mode succeeded. -/
def leaveAPMode (env : Env) (s : NetworkManager) : NetworkManager :=
  let s := match s.webConfigServer with
    | some _ => { (s.log Event.serverStop).log Event.serverDelete with webConfigServer := none }
    | none => s
  -- `scanInProgress || WiFi.scanComplete() != WIFI_SCAN_FAILED`
  let s := if s.scanInProgress then s.log Event.scanDelete
    else
      let status := env.scanComplete s.tick
      let s := s.next
      if status ≠ WIFI_SCAN_FAILED then s.log Event.scanDelete else s
  let s := { s with scanInProgress := false }
  let s := { s with cachedNetworksJSON := "" }
  let s := s.log (Event.softAPdisconnect true)
  let s := s.log (Event.wifiMode WifiMode.WIFI_STA)
  let s := { s with apModeActive := false }
  let s := syncTimeWithNTP env s
  startNormalModeWebServer env s

/-- Lines 166-217 of `update`: AP mode. -/
def updateAP (env : Env) (fuel : Nat) (s : NetworkManager) : Outcome Unit :=
  let currentMillis := millis env s
  let s := s.next
  if sub32 currentMillis s.apModeStartTime ≥ apModeTimeout then
    let s := s.log (Event.delay 1000)
    Outcome.reboot (s.log Event.espRestart)
  else if s.storedSSID.length > 0 ∧
      sub32 currentMillis s.lastConnectionAttempt ≥ retryInterval then
    let s := { s with lastConnectionAttempt := currentMillis }
    (connectToWiFi env fuel s).bind fun ok s =>
      if ok then Outcome.ret () (leaveAPMode env s) else Outcome.ret () s
  else Outcome.ret () s

/-- Lines 218-239 of `update`: normal mode. -/
def updateStation (env : Env) (fuel : Nat) (s : NetworkManager) : Outcome Unit :=
  let currentMillis := millis env s
  let s := s.next
  let s := if sub32 currentMillis s.lastSyncTime ≥ syncInterval then syncTimeWithNTP env s
    else s
  let connected := env.wifiConnected s.tick
  let s := s.next
  if ¬ connected then
    (connectToWiFi env fuel s).bind fun ok s =>
      if ¬ ok then startAPMode env fuel s else Outcome.ret () s
  else Outcome.ret () s

/-- `NetworkManager::update`. -/
def update (env : Env) (fuel : Nat) (s : NetworkManager) : Outcome Unit :=
  let s := updateScan env s
  let s := updateRetry env s
  (updateServer s).bind fun _ s =>
    if s.apModeActive then updateAP env fuel s else updateStation env fuel s

/-- `NetworkManager::setup`. -/
def setup (env : Env) (fuel : Nat) (s : NetworkManager) : Outcome Unit :=
  let s := s.log (Event.wifiMode WifiMode.WIFI_STA)
  let s := s.log (Event.wifiSetAutoReconnect false)
  let s := (loadTimezoneSettings s).2
  let r := loadCredentials s
  let s := r.2
  if r.1 ∧ s.storedSSID.length > 0 then
    (connectToWiFi env fuel s).bind fun ok s =>
      if ok then
        let s := syncTimeWithNTP env s
        let s := { s with apModeActive := false }
        Outcome.ret () (startNormalModeWebServer env s)
      else startAPMode env fuel s
  else startAPMode env fuel s

/-! ### Notions used in the statements -/

/-- The ssid held in flash: what `getString("ssid", "")` reads in the namespace `wifi`. -/
def persistedSSID (s : NetworkManager) : String :=
  (⟨"wifi", true⟩ : Preferences).getString s.nvs "ssid" ""

/-- The password held in flash. -/
def persistedPassword (s : NetworkManager) : String :=
  (⟨"wifi", true⟩ : Preferences).getString s.nvs "password" ""

/-- The timezone rule held in flash: what `getString("tzString", "")` reads in the namespace
`timezone` (empty when the key is absent). -/
def persistedTz (s : NetworkManager) : String :=
  (⟨"timezone", false⟩ : Preferences).getString s.nvs "tzString" ""

/-- Whether the namespace `timezone` holds the key `key`. -/
def timezoneHasKey (s : NetworkManager) (key : String) : Bool :=
  (⟨"timezone", false⟩ : Preferences).isKey s.nvs key

/-- The state after `n` calls of `loadTimezoneSettings` in a row. -/
def loadTimezoneRepeated : Nat → NetworkManager → NetworkManager
  | 0, s => s
  | n + 1, s => (loadTimezoneSettings (loadTimezoneRepeated n s)).2

/-- The operations of the controller's interface that are not `clearAllSettings` and do not
poll the reset button. -/
inductive Op where
  | saveConfig (ssid password tzString : String)
  | loadCredentials
  | loadTimezoneSettings
  | scanHandling
  | getNetworks
  | startScan

/-- Run one operation on the controller that `instance` points to; `scanHandling` is
lines 77-156 of `update`. -/
def Op.run (env : Env) : Op → NetworkManager → NetworkManager
  | Op.saveConfig ssid password tzString, s =>
    (onWebSaveConfig (some s) ssid password tzString).getD s
  | Op.loadCredentials, s => s.loadCredentials.2
  | Op.loadTimezoneSettings, s => s.loadTimezoneSettings.2
  | Op.scanHandling, s => updateRetry env (updateScan env s)
  | Op.getNetworks, s => ((onWebGetNetworks env (some s)).2).getD s
  | Op.startScan, s => (onWebStartScan env (some s)).getD s

/-- The bound on the retry counter: `0 <= scanRetryCount <= 3`. -/
def RetryInv (s : NetworkManager) : Prop :=
  0 ≤ s.scanRetryCount ∧ s.scanRetryCount ≤ 3

/-! ### Sample data -/

/-- A flash store holding credentials, a timezone rule and both legacy keys. -/
def sampleNvs : Nvs :=
  [("wifi", [("ssid", Value.str "HomeNet"), ("password", Value.str "hunter2")]),
   ("timezone", [("tzString", Value.str "EST5EDT,M3.2.0,M11.1.0"),
                 ("gmtOffset", Value.num 3600), ("dstOffset", Value.num 3600)])]

/-- A flash store from before the timezone rule existed: both legacy keys, no `tzString`. -/
def legacyNvs : Nvs :=
  [("timezone", [("gmtOffset", Value.num 3600), ("dstOffset", Value.num 3600)])]

/-- A flash store whose timezone section holds only the legacy key `dstOffset`. -/
def dstOnlyNvs : Nvs :=
  [("timezone", [("dstOffset", Value.num 3600)])]

/-- A controller just constructed over `sampleNvs`. -/
def sampleState : NetworkManager := construct 3600 3600 sampleNvs 0

/-- A controller in normal operation with the rule for US Eastern time configured. -/
def configuredState : NetworkManager :=
  { sampleState with
    tzString := "EST5EDT,M3.2.0,M11.1.0"
    storedSSID := "HomeNet"
    storedPassword := "hunter2" }

/-- The controller after the two loads that open `setup()`, on a device whose flash is
`sampleNvs`. -/
def bootedState : NetworkManager :=
  (loadCredentials (loadTimezoneSettings sampleState).2).2

/-- A controller in AP mode with a scan in flight and all three retries used. -/
def scanningState : NetworkManager :=
  { sampleState with
    apModeActive := true
    scanInProgress := true
    scanRetryCount := 3
    cachedNetworksJSON := JSON_SCANNING }

/-- An environment in which every scan fails, the radio never associates, the button is
released and the clock advances by 100 ms per reading. -/
def failingEnv : Env :=
  { clock := fun k => 100 * k
    scanComplete := fun _ => WIFI_SCAN_FAILED
    scanNetworks := fun _ => WIFI_SCAN_FAILED
    scanTable := fun _ _ => ⟨"", 0, 0⟩
    wifiConnected := fun _ => false
    buttonLow := fun _ => false
    localTime := fun _ => false }

/-! ### Counting calls in the trace -/

end NetworkManager

namespace Event

/-- The association primitive `WiFi.begin`. -/
@[simp]
def isWifiBegin : Event → Bool
  | wifiBegin _ _ => true
  | _ => false

/-- The start of a time sync (`configTime`). -/
@[simp]
def isConfigTime : Event → Bool
  | configTime => true
  | _ => false

/-- The scan primitive `WiFi.scanNetworks`. -/
@[simp]
def isScanStart : Event → Bool
  | scanNetworks => true
  | _ => false

/-- The restart primitive (`ESP.restart`, `esp_restart`). -/
@[simp]
def isRestart : Event → Bool
  | espRestart => true
  | _ => false

/-- The creation of a server object (`new WebConfigServer()`). -/
@[simp]
def isServerNew : Event → Bool
  | serverNew => true
  | _ => false

/-- A server going live (`WebConfigServer::start` on a server that was not running). -/
@[simp]
def isServerStart : Event → Bool
  | serverStart _ => true
  | _ => false

/-- An association attempt, the start of a time sync, a server creation or a server start. -/
@[simp]
def isCounted (e : Event) : Bool :=
  e.isWifiBegin || e.isConfigTime || e.isServerNew || e.isServerStart

end Event

namespace NetworkManager

/-- How many calls of the kind `p` the trace holds. -/
def cnt (p : Event → Bool) (s : NetworkManager) : Nat :=
  s.trace.countP p

/-- The state after `n` calls of `update` in a row (the state reached by each call, whether it
returned or not). -/
def updateRepeated (env : Env) (fuel : Nat) : Nat → NetworkManager → NetworkManager
  | 0, s => s
  | n + 1, s => (update env fuel (updateRepeated env fuel n s)).state

/-- An environment in which every scan starts and then never completes: the primitive keeps
answering "running".  The clock shows 31 s at the first reading and advances by 3 s per
reading; the radio is not associated and the button is released. -/
def timeoutEnv : Env :=
  { clock := fun k => 31000 + 3000 * k
    scanComplete := fun _ => WIFI_SCAN_RUNNING
    scanNetworks := fun _ => WIFI_SCAN_RUNNING
    scanTable := fun _ _ => ⟨"", 0, 0⟩
    wifiConnected := fun _ => false
    buttonLow := fun _ => false
    localTime := fun _ => false }

/-- An environment in which every scan starts and is then reported as failed; clock, radio and
button as in `timeoutEnv`. -/
def scanFailEnv : Env :=
  { timeoutEnv with scanComplete := fun _ => WIFI_SCAN_FAILED }

/-- A controller without credentials in AP mode, its first scan in flight since time 0 and no
retry used yet. -/
def apScanState : NetworkManager :=
  { construct 0 0 [] 0 with
    apModeActive := true
    scanInProgress := true
    cachedNetworksJSON := JSON_SCANNING }

/-- As `apScanState`, with all three retries used: the fourth attempt is in flight. -/
def lastRetryState : NetworkManager :=
  { apScanState with scanRetryCount := 3 }

/-- A controller in normal (station) mode with a scan in flight. -/
def stationScanState : NetworkManager :=
  { apScanState with apModeActive := false }

/-- A controller in AP mode since time 0, no scan running, holding a cached scan result. -/
def cachedListState : NetworkManager :=
  { construct 0 0 [] 0 with
    apModeActive := true
    cachedNetworksJSON :=
      "\x7b\"networks\":[\x7b\"ssid\":\"HomeNet\",\"rssi\":-40,\"encryption\":3\x7d]\x7d" }

/-! ### Shapes of the scan cache, reachable states -/

/-- The text is an object `{"networks":[...]}`. -/
def NetworksShape (j : String) : Prop :=
  ∃ body : String, j = "\x7b\"networks\":[" ++ body ++ "]\x7d"

/-- The three shapes of a scan cache that holds something: `{"status":"scanning"}`,
`{"status":"retrying"}` or an object `{"networks":[...]}`. -/
def ThreeShapes (j : String) : Prop :=
  j = JSON_SCANNING ∨ j = JSON_RETRYING ∨ NetworksShape j

/-- The scan cache is empty or has one of the three shapes. -/
def CacheInv (s : NetworkManager) : Prop :=
  s.cachedNetworksJSON = "" ∨ ThreeShapes s.cachedNetworksJSON

/-- The states the controller can be in: it is constructed at boot, and then `main.cpp` and the
web server call its public functions and callbacks.  A call of `setup` or `update` contributes
the state it reaches however it ends, and a reboot constructs the controller afresh over the
flash store. -/
inductive Reachable : NetworkManager → Prop where
  | boot (g d : Int) (nvs : Nvs) (tick : Nat) : Reachable (construct g d nvs tick)
  | pin (s : NetworkManager) (p : Int) : Reachable s → Reachable (s.setResetButtonPin p)
  | setup (env : Env) (fuel : Nat) (s : NetworkManager) :
      Reachable s → Reachable (NetworkManager.setup env fuel s).state
  | update (env : Env) (fuel : Nat) (s : NetworkManager) :
      Reachable s → Reachable (NetworkManager.update env fuel s).state
  | button (env : Env) (s : NetworkManager) :
      Reachable s → Reachable (checkResetButton env s).2
  | clearAll (s : NetworkManager) : Reachable s → Reachable s.clearAllSettings
  | saveConfig (s t : NetworkManager) (ssid password tz : String) :
      Reachable s → onWebSaveConfig (some s) ssid password tz = some t → Reachable t
  | getNetworks (env : Env) (s t : NetworkManager) :
      Reachable s → (onWebGetNetworks env (some s)).2 = some t → Reachable t
  | startScan (env : Env) (s t : NetworkManager) :
      Reachable s → onWebStartScan env (some s) = some t → Reachable t
  | reboot (s : NetworkManager) : Reachable s → Reachable s.restarted

/-! ### Polling the reset button -/

/-- What one `checkResetButton()` poll reads in the state `s`: whether the pin is LOW, and the
clock value of the reading that follows the pin reading (the timestamp of the poll). -/
def pollReading (env : Env) (s : NetworkManager) : Bool × Nat :=
  (env.buttonLow s.tick, env.clock (s.tick + 1) % U32)

/-- The readings of `n` polls in a row. -/
def pollReadings (env : Env) : Nat → NetworkManager → List (Bool × Nat)
  | 0, _ => []
  | n + 1, s => pollReading env s :: pollReadings env n (checkResetButton env s).2

/-- The values returned by `n` polls in a row. -/
def pollResults (env : Env) : Nat → NetworkManager → List Bool
  | 0, _ => []
  | n + 1, s => (checkResetButton env s).1 :: pollResults env n (checkResetButton env s).2

/-- The state after `n` polls in a row. -/
def pollState (env : Env) : Nat → NetworkManager → NetworkManager
  | 0, s => s
  | n + 1, s => pollState env n (checkResetButton env s).2

/-- A finished run of LOW readings, given by its first and last timestamp, spans less than
3000 ms; `none` stands for no run. -/
def runSpanOk : Option (Nat × Nat) → Bool
  | none => true
  | some (first, last) => decide (last - first < 3000)

/-- In the sequence of readings `(low, timestamp)`, every maximal run of consecutive LOW
readings spans less than 3000 ms from its first to its last reading.  The first argument
describes the run in progress where the sequence starts: its first and its latest timestamp,
or `none` when the reading before was HIGH or there was none. -/
def runsShort : Option (Nat × Nat) → List (Bool × Nat) → Bool
  | cur, [] => runSpanOk cur
  | none, (true, t) :: rest => runsShort (some (t, t)) rest
  | some (first, _), (true, t) :: rest => runsShort (some (first, t)) rest
  | cur, (false, _) :: rest => runSpanOk cur && runsShort none rest

/-- The state `t` differs from `s` at most in the debounce fields `buttonPressed` and
`buttonPressStart` (and in the number of readings taken). -/
def ButtonOnly (s t : NetworkManager) : Prop :=
  t = { s with
        tick := t.tick, buttonPressed := t.buttonPressed, buttonPressStart := t.buttonPressStart }

/-- An environment whose button is held for three polls (2 s) and released for one, over and
over; the clock advances by 500 ms per reading. -/
def shortPressEnv : Env :=
  { failingEnv with
    clock := fun k => 500 * k
    buttonLow := fun k => decide (k % 8 < 6) }

/-- An environment whose button is held all the time; the clock advances by 500 ms per
reading. -/
def heldEnv : Env :=
  { failingEnv with
    clock := fun k => 500 * k
    buttonLow := fun _ => true }

/-- A controller just constructed over `sampleNvs`, with the reset button on pin 0. -/
def buttonState : NetworkManager := sampleState.setResetButtonPin 0

/-! ### Notions used for startup and the AP timeout -/

/-- The kinds of call that are counted per controller session: association attempts, time
syncs, server creations and server starts. -/
def Counted (p : Event → Bool) : Prop :=
  p = Event.isWifiBegin ∨ p = Event.isConfigTime ∨ p = Event.isServerNew ∨
    p = Event.isServerStart

/-- The state in which `setup()` reaches line 48, the test of the loaded credentials: the
radio has been put in station mode and both loads have run. -/
def setupLoaded (s : NetworkManager) : NetworkManager :=
  (loadCredentials (loadTimezoneSettings
    ((s.log (Event.wifiMode WifiMode.WIFI_STA)).log (Event.wifiSetAutoReconnect false))).2).2

/-- Lines 488-511 of `startAPMode`: the access point is brought up and the initial scan is
requested; the state is the one in which `scanStart = millis()` is then read. -/
def apPrepared (env : Env) (s : NetworkManager) : NetworkManager :=
  let s := { s with apModeActive := true }
  let s := { s with apModeStartTime := millis env s }
  let s := s.next
  let s := { s with lastConnectionAttempt := millis env s }
  let s := s.next
  let s := s.log (Event.wifiDisconnect true)
  let s := s.log (Event.delay 100)
  let s := s.log (Event.wifiMode WifiMode.WIFI_AP_STA)
  let s := s.log (Event.delay 100)
  let s := s.log (Event.softAP AP_SSID)
  let s := s.log (Event.delay 100)
  startNetworkScan env s

/-- Lines 536-548 of `startAPMode`: what follows the wait for the initial scan. -/
def apFinish (s : NetworkManager) : NetworkManager :=
  let s := if s.scanInProgress then { s.log Event.scanDelete with scanInProgress := false }
    else s
  let s := s.log Event.serverNew
  let w := WebConfigServer.construct.start ServerMode.MODE_SETUP
  let s := s.log (Event.serverStart ServerMode.MODE_SETUP)
  { s with webConfigServer := some w }

/-- The clock never runs backwards from one reading to the next, and over any two readings
it advances by at least 100 ms (the `delay(100)` of a wait loop) and by at most an hour. -/
def SteadyClock (env : Env) : Prop :=
  ∀ k, env.clock k ≤ env.clock (k + 1) ∧ env.clock k + 100 ≤ env.clock (k + 2) ∧
    env.clock (k + 2) ≤ env.clock k + 3600000

/-- An environment in which the radio associates at once and stays associated, NTP answers,
the button is released and the clock advances by 100 ms per reading. -/
def onlineEnv : Env :=
  { failingEnv with
    wifiConnected := fun _ => true
    localTime := fun _ => true }

/-- A controller that has been in AP mode since time 0, read when the clock (100 ms per
reading in `failingEnv`) shows 700 s. -/
def oldSessionState : NetworkManager :=
  { construct 0 0 [] 7000 with apModeActive := true }

/-! ### The serialized network list -/

/-- The value the counter `addedNetworks` of `getNetworksJSON` holds after the loop over `n`
results: the number of objects written. -/
def addedNetworks (table : Nat → ScanEntry) (n : Int) : Nat :=
  ((List.range n.toNat).foldl (buildNetworksStep table) ("\x7b\"networks\":[", 0)).2

/-- The results `0 .. n-1` of a scan, in scan order. -/
def scanResults (table : Nat → ScanEntry) (n : Int) : List ScanEntry :=
  (List.range n.toNat).map table

/-- The entries of a result list whose SSID is not empty, in the order of the list. -/
def listedNetworks (l : List ScanEntry) : List ScanEntry :=
  l.filter fun e => e.ssid.length ≠ 0

/-- The object describing one network: the text `"ssid":"S","rssi":R,"encryption":T` between
braces, with the numbers in decimal. -/
def networkObject (e : ScanEntry) : String :=
  "\x7b" ++ "\"ssid\":\"" ++ e.ssid ++ "\"," ++ "\"rssi\":" ++ toString e.rssi ++ "," ++
    "\"encryption\":" ++ toString e.encryption ++ "\x7d"

/-- The document the specification describes for a result list: the objects of the entries
with a non-empty SSID, in order, separated by single commas, inside the `networks` array. -/
def networksJSONSpec (l : List ScanEntry) : String :=
  "\x7b\"networks\":[" ++ ",".intercalate ((listedNetworks l).map networkObject) ++ "]\x7d"

/-- A scan table with two named networks and a hidden one in between. -/
def sampleTable : Nat → ScanEntry := fun i =>
  [(⟨"home", -40, 3⟩ : ScanEntry), ⟨"", -50, 0⟩, ⟨"cafe", -60, 0⟩].getD i ⟨"", 0, 0⟩

/-- A scan table in which every network is hidden. -/
def hiddenTable : Nat → ScanEntry := fun _ => ⟨"", -70, 4⟩

/-- An environment whose radio reports a finished scan with the three results of
`sampleTable`; clock, association and button as in `failingEnv`. -/
def resultsEnv : Env :=
  { failingEnv with
    scanComplete := fun _ => 3
    scanTable := fun _ => sampleTable }

/-- An environment in which the radio is associated for the first eight readings and lost from
then on; NTP answers, scans fail, the button is released and the clock advances by 25 s per
reading. -/
def dropEnv : Env :=
  { failingEnv with
    clock := fun k => 25000 * k
    wifiConnected := fun k => decide (k < 8)
    localTime := fun _ => true }

/-- The controller over `sampleNvs` after `setup()` in `dropEnv`: associated, in normal mode,
serving the status page. -/
def stationState : NetworkManager := (setup dropEnv 5 sampleState).state

end NetworkManager

namespace Event

/-- The call is `webConfigServer->stop()`. -/
@[simp] def isServerStop : Event → Bool
  | serverStop => true
  | _ => false

/-- The call is `delete webConfigServer`. -/
@[simp] def isServerDelete : Event → Bool
  | serverDelete => true
  | _ => false

end Event

namespace NetworkManager

/-- The number of server objects created and not deleted so far. -/
def liveServers (s : NetworkManager) : Nat :=
  cnt Event.isServerNew s - cnt Event.isServerDelete s

/-! ### Notions used for the association attempt -/

/-- Lines 439-452 of `connectToWiFi`, taken with a non-empty SSID: the radio mode is set
(outside AP mode) and the association is begun; the state is the one in which
`startAttempt = millis()` is then read. -/
def connectEntry (s : NetworkManager) : NetworkManager :=
  let s := if ¬ s.apModeActive then s.log (Event.wifiMode WifiMode.WIFI_STA) else s
  s.log (Event.wifiBegin s.storedSSID s.storedPassword)

/-- The clock values read by the condition of the wait loop of `connectToWiFi`, one per poll
tick, in a run of `connectWait` with the same arguments (the condition reads the clock only
while the radio is not associated). -/
def connectReadings (env : Env) (startAttempt : Nat) (fuel : Nat) (s : NetworkManager) :
    List Nat :=
  let connected := env.wifiConnected s.tick
  let s := s.next
  if connected then []
  else
    let now := millis env s
    let s := s.next
    if ¬ (sub32 now startAttempt < connectionTimeout) then [now]
    else
      match fuel with
      | 0 => [now]
      | fuel + 1 =>
        let s := s.log (Event.delay 100)
        let r := checkResetButton env s
        if r.1 then [now] else now :: connectReadings env startAttempt fuel r.2

/-- An environment in which the radio never associates and scans fail; the first clock reading
shows 599 s and the clock advances by 100 ms per reading. -/
def lateEnv : Env :=
  { failingEnv with clock := fun k => 599000 + 100 * k }

/-- A controller with stored credentials that has been in AP mode since time 0, serves the
setup page and made its last reconnection attempt at 530 s. -/
def waitingApState : NetworkManager :=
  { configuredState with
    apModeActive := true
    lastConnectionAttempt := 530000
    cachedNetworksJSON := JSON_EMPTY
    webConfigServer := some (WebConfigServer.construct.start ServerMode.MODE_SETUP) }

end NetworkManager

namespace Outcome

/-- The call returned to its caller. -/
def isRet {α : Type} : Outcome α → Bool
  | ret _ _ => true
  | _ => false

end Outcome

namespace NetworkManager

end NetworkManager

/-! ## The display: ClockDisplayHAL and WordClock -/

namespace ClockDisplayHAL

def WIDTH : Nat := 12
def HEIGHT : Nat := 11
def NUM_LEDS : Nat := WIDTH * HEIGHT

/-- Width of `uint16_t`. -/
def U16 : Nat := 65536

/-- An entry of the word table (`struct WordMapping`): a word and the first and the last LED
of its strip segment (the field `end` of the source is called `last` here). -/
structure WordMapping where
  word : String
  start : Nat
  last : Nat
deriving DecidableEq, Repr

/-- The table `WORDS_TO_LEDS`. -/
def WORDS_TO_LEDS : List WordMapping :=
  [⟨"HOUR_1", 20, 22⟩, ⟨"HOUR_2", 45, 47⟩, ⟨"HOUR_3", 15, 19⟩, ⟨"HOUR_4", 67, 70⟩,
   ⟨"HOUR_5", 40, 43⟩, ⟨"HOUR_6", 12, 14⟩, ⟨"HOUR_7", 55, 59⟩, ⟨"HOUR_8", 31, 35⟩,
   ⟨"HOUR_9", 36, 39⟩, ⟨"HOUR_10", 9, 11⟩, ⟨"HOUR_11", 24, 29⟩, ⟨"HOUR_12", 48, 53⟩,
   ⟨"OCLOCK", 0, 5⟩, ⟨"PAST", 60, 63⟩, ⟨"TO", 63, 64⟩, ⟨"MINUTES", 77, 83⟩,
   ⟨"THIRTY", 84, 89⟩, ⟨"TWENTY", 102, 107⟩, ⟨"TWENTYFIVE", 98, 107⟩, ⟨"FIVE", 98, 101⟩,
   ⟨"TEN", 91, 93⟩, ⟨"FIFTEEN", 110, 116⟩, ⟨"IS", 127, 128⟩, ⟨"IT", 130, 131⟩]

/-- The entry the loop of `displayWord` stops at: the first one whose word equals `word`. -/
def findMapping (word : String) : Option WordMapping :=
  WORDS_TO_LEDS.find? fun mapping => word == mapping.word

/-- `Adafruit_NeoPixel::setPixelColor` on the strip of `NUM_LEDS` pixels: an index outside the
strip is ignored. -/
def setPixelColor (pixels : Nat → Nat) (n : Nat) (color : Nat) : Nat → Nat :=
  fun i => if i = n ∧ n < NUM_LEDS then color else pixels i

/-- `ClockDisplayHAL::displayWord`, on the pixel buffer: the LEDs `start .. end` of the first
matching entry take the colour; a word that is not in the table changes nothing. -/
def displayWord (pixels : Nat → Nat) (word : String) (color : Nat) : Nat → Nat :=
  match findMapping word with
  | some mapping =>
    ((List.range (mapping.last + 1 - mapping.start)).map (· + mapping.start)).foldl
      (fun p i => setPixelColor p i color) pixels
  | none => pixels

/-- `ClockDisplayHAL::cartesianToWordClockLEDStripIndex`; `x` and `y` are `uint8_t`, the
differences are computed in `int` and stored in `uint16_t` variables. -/
def cartesianToWordClockLEDStripIndex (x y : Nat) : Nat :=
  let x := x % 256
  let y := y % 256
  let index : Int :=
    if y % 2 = 0 then
      let row_index : Int := ((NUM_LEDS : Int) - ((y * WIDTH : Nat) : Int)) % (U16 : Int)
      (row_index - ((x + 1 : Nat) : Int)) % (U16 : Int)
    else
      let row_index : Int := ((NUM_LEDS : Int) - (((y + 1) * WIDTH : Nat) : Int)) % (U16 : Int)
      (row_index + (x : Int)) % (U16 : Int)
  if index < 0 ∨ index ≥ (NUM_LEDS : Int) then 0 else index.toNat

/-- `ClockDisplayHAL::setPixel`. -/
def setPixel (pixels : Nat → Nat) (x y : Nat) (color : Nat) : Nat → Nat :=
  setPixelColor pixels (cartesianToWordClockLEDStripIndex x y) color

end ClockDisplayHAL

/-! The class `WordClock` of WordClock.cpp. -/
namespace Clock

/-- `WordClock::getMinutesWord`. -/
def getMinutesWord (minute : Int) : String :=
  if minute < 5 then "OCLOCK"
  else if minute < 10 then "FIVE"
  else if minute < 15 then "TEN"
  else if minute < 20 then "FIFTEEN"
  else if minute < 25 then "TWENTY"
  else if minute < 30 then "TWENTYFIVE"
  else if minute < 35 then "THIRTY"
  else if minute < 40 then "TWENTYFIVE"
  else if minute < 45 then "TWENTY"
  else if minute < 50 then "FIFTEEN"
  else if minute < 55 then "TEN"
  else "FIVE"

/-- The value of the local `hour` of `WordClock::displayTime` when `hourWord` is built, for
the local time `tm_hour:tm_min` (`%` of C truncates). -/
def displayHour (tm_hour tm_min : Int) : Int :=
  let hour := tm_hour.tmod 12
  let hour := if hour = 0 then 12 else hour
  let minute := tm_min
  if minute < 5 then hour
  else if minute < 35 then hour
  else
    let hour := (hour + 1).tmod 12
    if hour = 0 then 12 else hour

/-- The words `WordClock::displayTime` passes to `highlightWord`, in the order of the calls,
for the local time `tm_hour:tm_min`.  The colours, the animation at the full hour and the
call of `show()` are left out. -/
def displayTime (tm_hour tm_min : Int) : List String :=
  let minute := tm_min
  let words := ["IT", "IS"]
  let words :=
    if minute < 5 then words ++ ["OCLOCK"]
    else if minute < 35 then words ++ ["PAST", "MINUTES"]
    else words ++ ["TO", "MINUTES"]
  let hourWord := "HOUR_" ++ toString (displayHour tm_hour tm_min)
  let words := words ++ [getMinutesWord minute]
  words ++ [hourWord]

/-- The 12-hour form of an hour of the day: 0 and 12 read 12, 13 reads 1. -/
def twelveHourForm (hour : Int) : Int :=
  if hour % 12 = 0 then 12 else hour % 12

/-- The words a minute word can be. -/
def minuteWords : List String :=
  ["OCLOCK", "FIVE", "TEN", "FIFTEEN", "TWENTY", "TWENTYFIVE", "THIRTY"]

end Clock

/-! ## Facts about the store -/

theorem lookup_assocRemove_self {β : Type} (k : String) (l : List (String × β)) :
    (assocRemove k l).lookup k = none := by
  induction l with
  | nil => rfl
  | cons e l ih =>
    obtain ⟨k', v⟩ := e
    by_cases h : k' = k
    · subst h
      simpa [assocRemove, List.filter_cons] using ih
    · have hk : (k == k') = false := by simpa using fun h' => h h'.symm
      simpa [assocRemove, List.filter_cons, h, List.lookup_cons, hk] using ih

theorem lookup_assocRemove_ne {β : Type} {k k' : String} (h : k' ≠ k)
    (l : List (String × β)) : (assocRemove k l).lookup k' = l.lookup k' := by
  induction l with
  | nil => rfl
  | cons e l ih =>
    obtain ⟨k'', v⟩ := e
    by_cases h1 : k'' = k
    · subst h1
      have hk : (k' == k'') = false := by simpa using h
      simpa [assocRemove, List.filter_cons, List.lookup_cons, hk] using ih
    · by_cases h2 : k' = k''
      · subst h2
        simp [assocRemove, List.filter_cons, h1, List.lookup_cons]
      · have hk : (k' == k'') = false := by simpa using h2
        simpa [assocRemove, List.filter_cons, h1, List.lookup_cons, hk] using ih

theorem lookup_assocPut_self {β : Type} (k : String) (v : β) (l : List (String × β)) :
    (assocPut k v l).lookup k = some v := by
  simp [assocPut, List.lookup_cons]

theorem lookup_assocPut_ne {β : Type} {k k' : String} (h : k' ≠ k) (v : β)
    (l : List (String × β)) : (assocPut k v l).lookup k' = l.lookup k' := by
  have hk : (k' == k) = false := by simpa using h
  simp [assocPut, List.lookup_cons, hk, lookup_assocRemove_ne h]

theorem nvsSection_set_self (nvs : Nvs) (ns : String) (sec : Section) :
    nvsSection (nvsSetSection nvs ns sec) ns = sec := by
  simp [nvsSection, nvsSetSection, lookup_assocPut_self]

theorem nvsSection_set_ne {ns ns' : String} (h : ns' ≠ ns) (nvs : Nvs) (sec : Section) :
    nvsSection (nvsSetSection nvs ns sec) ns' = nvsSection nvs ns' := by
  simp [nvsSection, nvsSetSection, lookup_assocPut_ne h]

theorem string_length_eq_zero_iff (s : String) : s.length = 0 ↔ s = "" := by
  constructor
  · intro h
    have hd : s.data = [] := List.length_eq_zero.mp h
    exact String.ext hd
  · rintro rfl
    rfl

namespace Preferences

theorem section_putString_ne {ns : String} (p : Preferences) (h : ns ≠ p.name) (nvs : Nvs)
    (key value : String) : nvsSection (p.putString nvs key value) ns = nvsSection nvs ns := by
  unfold putString
  split
  · rfl
  · exact nvsSection_set_ne h _ _

theorem section_remove_ne {ns : String} (p : Preferences) (h : ns ≠ p.name) (nvs : Nvs)
    (key : String) : nvsSection (p.remove nvs key) ns = nvsSection nvs ns := by
  unfold remove
  split
  · rfl
  · exact nvsSection_set_ne h _ _

theorem section_clear_ne {ns : String} (p : Preferences) (h : ns ≠ p.name) (nvs : Nvs) :
    nvsSection (p.clear nvs) ns = nvsSection nvs ns := by
  unfold clear
  split
  · rfl
  · exact nvsSection_set_ne h _ _

theorem getString_congr (p : Preferences) {nvs nvs' : Nvs}
    (h : nvsSection nvs p.name = nvsSection nvs' p.name) (key dflt : String) :
    p.getString nvs key dflt = p.getString nvs' key dflt := by
  simp [getString, h]

theorem getString_putString_self (p : Preferences) (hp : p.readOnly = false) (nvs : Nvs)
    (key value dflt : String) : p.getString (p.putString nvs key value) key dflt = value := by
  simp [getString, putString, hp, nvsSection_set_self, lookup_assocPut_self]

theorem getString_putString_ne (p : Preferences) (nvs : Nvs) {key key' : String}
    (h : key' ≠ key) (value dflt : String) :
    p.getString (p.putString nvs key value) key' dflt = p.getString nvs key' dflt := by
  unfold putString
  split
  · rfl
  · simp [getString, nvsSection_set_self, lookup_assocPut_ne h]

theorem isKey_remove_self (p : Preferences) (hp : p.readOnly = false) (nvs : Nvs)
    (key : String) : p.isKey (p.remove nvs key) key = false := by
  simp [isKey, remove, hp, nvsSection_set_self, lookup_assocRemove_self]

theorem isKey_remove_ne (p : Preferences) (nvs : Nvs) {key key' : String} (h : key' ≠ key) :
    p.isKey (p.remove nvs key) key' = p.isKey nvs key' := by
  unfold remove
  split
  · rfl
  · simp [isKey, nvsSection_set_self, lookup_assocRemove_ne h]

theorem isKey_putString_ne (p : Preferences) (nvs : Nvs) {key key' : String} (h : key' ≠ key)
    (value : String) : p.isKey (p.putString nvs key value) key' = p.isKey nvs key' := by
  unfold putString
  split
  · rfl
  · simp [isKey, nvsSection_set_self, lookup_assocPut_ne h]

end Preferences

namespace NetworkManager

/-! ## The credential and timezone store -/

theorem saveTimezoneSettings_wifi (s : NetworkManager) (tz : String) :
    nvsSection (s.saveTimezoneSettings tz).nvs "wifi" = nvsSection s.nvs "wifi" ∧
      (s.saveTimezoneSettings tz).storedSSID = s.storedSSID ∧
      (s.saveTimezoneSettings tz).storedPassword = s.storedPassword := by
  have hne : "wifi" ≠ (⟨"timezone", false⟩ : Preferences).name := by decide
  refine ⟨?_, ?_, ?_⟩
  · simp only [saveTimezoneSettings, log]
    split <;> split <;>
      simp [Preferences.section_putString_ne _ hne, Preferences.section_remove_ne _ hne]
  · simp only [saveTimezoneSettings, log]
    split <;> split <;> rfl
  · simp only [saveTimezoneSettings, log]
    split <;> split <;> rfl

theorem saveCredentials_timezone (s : NetworkManager) (ssid password : String) :
    nvsSection (s.saveCredentials ssid password).nvs "timezone" = nvsSection s.nvs "timezone" ∧
      (s.saveCredentials ssid password).tzString = s.tzString := by
  have hne : "timezone" ≠ (⟨"wifi", false⟩ : Preferences).name := by decide
  constructor
  · simp [saveCredentials, log, Preferences.section_putString_ne _ hne]
  · rfl

theorem saveCredentials_stored (s : NetworkManager) (ssid password : String) :
    (⟨"wifi", true⟩ : Preferences).getString (s.saveCredentials ssid password).nvs "ssid" ""
        = ssid ∧
      (⟨"wifi", true⟩ : Preferences).getString (s.saveCredentials ssid password).nvs
        "password" "" = password := by
  have hro : (⟨"wifi", false⟩ : Preferences).readOnly = false := rfl
  have hk : ("ssid" : String) ≠ "password" := by decide
  have e : ∀ (nvs : Nvs) (k d : String), (⟨"wifi", true⟩ : Preferences).getString nvs k d
      = (⟨"wifi", false⟩ : Preferences).getString nvs k d := fun _ _ _ => rfl
  constructor
  · simp only [saveCredentials, log, e]
    rw [Preferences.getString_putString_ne _ _ hk, Preferences.getString_putString_self _ hro]
  · simp only [saveCredentials, log, e]
    rw [Preferences.getString_putString_self _ hro]

theorem loadCredentials_eq (s : NetworkManager) :
    (loadCredentials s).1
        = decide (((⟨"wifi", true⟩ : Preferences).getString s.nvs "ssid" "").length > 0) ∧
      (loadCredentials s).2.storedSSID
        = (⟨"wifi", true⟩ : Preferences).getString s.nvs "ssid" "" ∧
      (loadCredentials s).2.storedPassword
        = (⟨"wifi", true⟩ : Preferences).getString s.nvs "password" "" ∧
      (loadCredentials s).2.nvs = s.nvs :=
  ⟨rfl, rfl, rfl, rfl⟩

/-- C1. Credential round trip: after `onWebSaveConfig(ssid, password, tz)` with a non-empty
ssid other than `"__KEEP_WIFI__"`, a restart (the controller constructed afresh over the same
flash store) followed by `loadCredentials()` returns true and yields `storedSSID = ssid` and
`storedPassword = password`, for every password and every timezone argument. -/
theorem onWebSaveConfig_credentials_round_trip (s : NetworkManager)
    (ssid password tz : String) (hne : ssid ≠ "") (hkeep : ssid ≠ "__KEEP_WIFI__") :
    ∃ s', onWebSaveConfig (some s) ssid password tz = some s' ∧
      (loadCredentials s'.restarted).1 = true ∧
      (loadCredentials s'.restarted).2.storedSSID = ssid ∧
      (loadCredentials s'.restarted).2.storedPassword = password := by
  have hlen : ssid.length > 0 := by
    rcases Nat.eq_zero_or_pos ssid.length with h | h
    · exact absurd ((string_length_eq_zero_iff ssid).mp h) hne
    · exact h
  have hcond : ssid ≠ KEEP_WIFI ∧ ssid.length > 0 := ⟨hkeep, hlen⟩
  obtain ⟨h1, h2⟩ := saveCredentials_stored s ssid password
  refine ⟨_, rfl, ?_⟩
  simp only [if_pos hcond]
  have key : ∀ t : NetworkManager,
      nvsSection t.nvs "wifi" = nvsSection (s.saveCredentials ssid password).nvs "wifi" →
      (loadCredentials t.restarted).1 = true ∧
      (loadCredentials t.restarted).2.storedSSID = ssid ∧
      (loadCredentials t.restarted).2.storedPassword = password := by
    intro t ht
    obtain ⟨e1, e2, e3, -⟩ := loadCredentials_eq t.restarted
    have hs : (⟨"wifi", true⟩ : Preferences).getString t.restarted.nvs "ssid" "" = ssid :=
      (Preferences.getString_congr _ ht _ _).trans h1
    have hp : (⟨"wifi", true⟩ : Preferences).getString t.restarted.nvs "password" ""
        = password := (Preferences.getString_congr _ ht _ _).trans h2
    refine ⟨?_, e2.trans hs, e3.trans hp⟩
    rw [e1, hs]
    exact decide_eq_true hlen
  split
  · exact key _ (saveTimezoneSettings_wifi _ tz).1
  · exact key _ rfl

theorem onWebSaveConfig_credentials_round_trip_witness :
    ∃ s', onWebSaveConfig (some sampleState) "Office" "pass word" "__KEEP_TZ__" = some s' ∧
      (loadCredentials s'.restarted).1 = true ∧
      (loadCredentials s'.restarted).2.storedSSID = "Office" ∧
      (loadCredentials s'.restarted).2.storedPassword = "pass word" :=
  onWebSaveConfig_credentials_round_trip sampleState "Office" "pass word" "__KEEP_TZ__"
    (by decide) (by decide)

/-- C2. `onWebSaveConfig` called with the ssid `"__KEEP_WIFI__"` or with the empty ssid leaves
the persisted credentials section (the whole namespace `wifi`) and the in-memory `storedSSID`
and `storedPassword` unchanged, for every controller state, password and timezone argument. -/
theorem onWebSaveConfig_keeps_credentials (s : NetworkManager) (ssid password tz : String)
    (h : ssid = "__KEEP_WIFI__" ∨ ssid = "") :
    ∃ s', onWebSaveConfig (some s) ssid password tz = some s' ∧
      nvsSection s'.nvs "wifi" = nvsSection s.nvs "wifi" ∧
      s'.storedSSID = s.storedSSID ∧ s'.storedPassword = s.storedPassword := by
  have hcond : ¬ (ssid ≠ KEEP_WIFI ∧ ssid.length > 0) := by
    rcases h with h | h
    · exact fun hc => hc.1 h
    · subst h
      exact fun hc => absurd hc.2 (by decide)
  refine ⟨_, rfl, ?_⟩
  simp only [if_neg hcond]
  split
  · exact saveTimezoneSettings_wifi s tz
  · exact ⟨rfl, rfl, rfl⟩

theorem onWebSaveConfig_keeps_credentials_witness :
    ∃ s', onWebSaveConfig (some configuredState) "__KEEP_WIFI__" "" "JST-9" = some s' ∧
      nvsSection s'.nvs "wifi" = nvsSection configuredState.nvs "wifi" ∧
      s'.storedSSID = configuredState.storedSSID ∧
      s'.storedPassword = configuredState.storedPassword :=
  onWebSaveConfig_keeps_credentials configuredState "__KEEP_WIFI__" "" "JST-9"
    (Or.inl rfl)

/-- C3. `onWebSaveConfig` called with the timezone rule `"__KEEP_TZ__"` or with the empty rule
leaves the whole persisted timezone section (the namespace `timezone`) and the in-memory rule
`tzString` unchanged, for every controller state and every ssid and password, also those that
update the credentials. -/
theorem onWebSaveConfig_keeps_timezone (s : NetworkManager) (ssid password tz : String)
    (h : tz = "__KEEP_TZ__" ∨ tz = "") :
    ∃ s', onWebSaveConfig (some s) ssid password tz = some s' ∧
      nvsSection s'.nvs "timezone" = nvsSection s.nvs "timezone" ∧
      s'.tzString = s.tzString := by
  have hcond : ¬ (tz ≠ KEEP_TZ ∧ tz.length > 0) := by
    rcases h with h | h
    · exact fun hc => hc.1 h
    · subst h
      exact fun hc => absurd hc.2 (by decide)
  refine ⟨_, rfl, ?_⟩
  simp only [if_neg hcond]
  split
  · exact saveCredentials_timezone s ssid password
  · exact ⟨rfl, rfl⟩

theorem onWebSaveConfig_keeps_timezone_witness :
    ∃ s', onWebSaveConfig (some configuredState) "Office" "pass word" "__KEEP_TZ__" = some s' ∧
      nvsSection s'.nvs "timezone" = nvsSection configuredState.nvs "timezone" ∧
      s'.tzString = configuredState.tzString :=
  onWebSaveConfig_keeps_timezone configuredState "Office" "pass word" "__KEEP_TZ__"
    (Or.inl rfl)

/-- C4. After `clearAllSettings()`, whatever the state before, the namespaces `wifi` and
`timezone` hold no keys, the in-memory ssid and password are empty, and a following
`loadCredentials()` returns false and leaves them empty. -/
theorem clearAllSettings_empties (s : NetworkManager) :
    nvsSection s.clearAllSettings.nvs "wifi" = [] ∧
      nvsSection s.clearAllSettings.nvs "timezone" = [] ∧
      s.clearAllSettings.storedSSID = "" ∧ s.clearAllSettings.storedPassword = "" ∧
      (loadCredentials s.clearAllSettings).1 = false ∧
      (loadCredentials s.clearAllSettings).2.storedSSID = "" ∧
      (loadCredentials s.clearAllSettings).2.storedPassword = "" := by
  have hne : "wifi" ≠ (⟨"timezone", false⟩ : Preferences).name := by decide
  have hw : nvsSection s.clearAllSettings.nvs "wifi" = [] := by
    simp only [clearAllSettings, log]
    rw [Preferences.section_clear_ne _ hne]
    simp [Preferences.clear, nvsSection_set_self]
  have ht : nvsSection s.clearAllSettings.nvs "timezone" = [] := by
    simp only [clearAllSettings, log]
    simp [Preferences.clear, nvsSection_set_self]
  have hg : ∀ k, (⟨"wifi", true⟩ : Preferences).getString s.clearAllSettings.nvs k "" = "" := by
    intro k
    simp [Preferences.getString, hw]
  obtain ⟨e1, e2, e3, -⟩ := loadCredentials_eq s.clearAllSettings
  refine ⟨hw, ht, rfl, rfl, ?_, ?_, ?_⟩
  · rw [e1, hg]
    rfl
  · rw [e2, hg]
  · rw [e3, hg]

/-- C5 (the code at the failing input). `clearAllSettings()` never assigns `tzString`: the
in-memory rule after the call is the one before it.  On the controller that has loaded the
rule `"EST5EDT,M3.2.0,M11.1.0"` from flash at startup, the rule after the call is still that
one, which is neither the empty string nor the default rule, while the credentials in memory
and both flash sections have been emptied and the legacy offsets are back at their defaults. -/
theorem clearAllSettings_keeps_tzString :
    (∀ s : NetworkManager, s.clearAllSettings.tzString = s.tzString) ∧
      bootedState.tzString = "EST5EDT,M3.2.0,M11.1.0" ∧
      bootedState.clearAllSettings.tzString = "EST5EDT,M3.2.0,M11.1.0" ∧
      bootedState.clearAllSettings.tzString ≠ "" ∧
      bootedState.clearAllSettings.tzString ≠ "CET-1CEST,M3.5.0,M10.5.0/3" ∧
      bootedState.clearAllSettings.storedSSID = "" ∧
      bootedState.clearAllSettings.gmtOffset_sec
        = bootedState.clearAllSettings.defaultGmtOffset_sec ∧
      nvsSection bootedState.clearAllSettings.nvs "timezone" = [] := by
  refine ⟨fun s => rfl, by decide, by decide, by decide, by decide, by decide, by decide,
    by decide⟩

theorem beginScan_nvs (env : Env) (s : NetworkManager) : (beginScan env s).nvs = s.nvs := by
  simp only [beginScan, log, next]
  split_ifs <;> rfl

theorem startNetworkScan_nvs (env : Env) (s : NetworkManager) :
    (startNetworkScan env s).nvs = s.nvs := by
  simp only [startNetworkScan]
  split_ifs <;> first | rfl | exact beginScan_nvs env _

theorem getNetworksJSON_nvs (env : Env) (s : NetworkManager) :
    (getNetworksJSON env s).2.nvs = s.nvs := by
  simp only [getNetworksJSON, next]
  split_ifs <;> rfl

theorem updateScan_nvs (env : Env) (s : NetworkManager) : (updateScan env s).nvs = s.nvs := by
  simp only [updateScan, log, next]
  split_ifs <;> first | rfl | exact getNetworksJSON_nvs env _

theorem updateRetry_nvs (env : Env) (s : NetworkManager) : (updateRetry env s).nvs = s.nvs := by
  simp only [updateRetry]
  split_ifs <;> first | rfl | exact startNetworkScan_nvs env _

theorem getNetworksUncached_nvs (env : Env) (s : NetworkManager) :
    (getNetworksUncached env s).2.nvs = s.nvs := by
  simp only [getNetworksUncached]
  split_ifs <;> first | rfl | exact startNetworkScan_nvs env _

theorem onWebGetNetworks_nvs (env : Env) (s : NetworkManager) :
    (((onWebGetNetworks env (some s)).2).getD s).nvs = s.nvs := by
  simp only [onWebGetNetworks]
  split_ifs <;> first | rfl | exact getNetworksUncached_nvs env _

theorem persistedSSID_congr {s t : NetworkManager}
    (h : nvsSection t.nvs "wifi" = nvsSection s.nvs "wifi") :
    persistedSSID t = persistedSSID s :=
  Preferences.getString_congr _ h _ _

theorem loadTimezoneSettings_wifi (s : NetworkManager) :
    nvsSection (loadTimezoneSettings s).2.nvs "wifi" = nvsSection s.nvs "wifi" := by
  have hne : "wifi" ≠ (⟨"timezone", false⟩ : Preferences).name := by decide
  simp only [loadTimezoneSettings, removeLegacyKeys, log]
  split_ifs <;>
    simp [Preferences.section_putString_ne _ hne, Preferences.section_remove_ne _ hne]

/-- C6. Only `clearAllSettings` removes credentials: from every state whose persisted ssid is
non-empty, each other operation of the interface (`onWebSaveConfig` with any arguments,
`loadCredentials`, `loadTimezoneSettings`, the scan handling of `update`, `onWebGetNetworks`,
`onWebStartScan`) ends in a state whose persisted ssid is non-empty, for every reading of the
environment. -/
theorem persisted_ssid_survives (env : Env) (op : Op) (s : NetworkManager)
    (h : persistedSSID s ≠ "") : persistedSSID (op.run env s) ≠ "" := by
  cases op with
  | saveConfig ssid password tz =>
    have hsave : ∀ t : NetworkManager, persistedSSID t ≠ "" →
        persistedSSID (if tz ≠ KEEP_TZ ∧ tz.length > 0 then t.saveTimezoneSettings tz else t)
          ≠ "" := by
      intro t ht
      split
      · rw [persistedSSID_congr (saveTimezoneSettings_wifi t tz).1]
        exact ht
      · exact ht
    simp only [Op.run, onWebSaveConfig, Option.getD_some]
    apply hsave
    split
    · rename_i hc
      have e : persistedSSID (s.saveCredentials ssid password) = ssid :=
        (saveCredentials_stored s ssid password).1
      rw [e]
      intro h0
      rw [h0] at hc
      exact absurd hc.2 (by decide)
    · exact h
  | loadCredentials => exact h
  | loadTimezoneSettings =>
    simp only [Op.run]
    rw [persistedSSID_congr (loadTimezoneSettings_wifi s)]
    exact h
  | scanHandling =>
    have e : (updateRetry env (updateScan env s)).nvs = s.nvs :=
      (updateRetry_nvs env _).trans (updateScan_nvs env s)
    simp only [Op.run]
    rw [persistedSSID_congr (congrArg (fun n => nvsSection n "wifi") e)]
    exact h
  | getNetworks =>
    simp only [Op.run]
    rw [persistedSSID_congr (congrArg (fun n => nvsSection n "wifi") (onWebGetNetworks_nvs env s))]
    exact h
  | startScan =>
    simp only [Op.run, onWebStartScan, Option.getD_some]
    rw [persistedSSID_congr
      (congrArg (fun n => nvsSection n "wifi") (startNetworkScan_nvs env s))]
    exact h

theorem persisted_ssid_survives_witness :
    persistedSSID ((Op.saveConfig "" "" "JST-9").run failingEnv sampleState) ≠ "" :=
  persisted_ssid_survives failingEnv (Op.saveConfig "" "" "JST-9") sampleState (by decide)

theorem DEFAULT_TZ_ne_empty : DEFAULT_TZ ≠ "" := by decide

/-- What `loadTimezoneSettings` does when flash holds no rule. -/
theorem loadTimezoneSettings_of_empty (s : NetworkManager) (h : persistedTz s = "") :
    (loadTimezoneSettings s).1 = true ∧
      (loadTimezoneSettings s).2.tzString = DEFAULT_TZ ∧
      persistedTz (loadTimezoneSettings s).2 = DEFAULT_TZ := by
  have hro : (⟨"timezone", false⟩ : Preferences).readOnly = false := rfl
  have h0 : ((⟨"timezone", false⟩ : Preferences).getString s.nvs "tzString" "").length = 0 := by
    have h' : (⟨"timezone", false⟩ : Preferences).getString s.nvs "tzString" "" = "" := h
    rw [h']
    rfl
  simp only [loadTimezoneSettings, log, h0, if_true, persistedTz]
  refine ⟨trivial, trivial, ?_⟩
  exact Preferences.getString_putString_self _ hro _ _ _ _

/-- What `loadTimezoneSettings` does when flash holds a rule: only the in-memory rule and the
trace change. -/
theorem loadTimezoneSettings_of_nonempty (s : NetworkManager) (h : persistedTz s ≠ "") :
    (loadTimezoneSettings s).1 = true ∧
    (loadTimezoneSettings s).2 =
      { s with tzString := persistedTz s
               trace := s.trace ++ [Event.nvsGet "timezone" "tzString"] } := by
  have h0 : ¬ ((⟨"timezone", false⟩ : Preferences).getString s.nvs "tzString" "").length = 0 :=
    fun hl => h ((string_length_eq_zero_iff _).mp hl)
  simp only [loadTimezoneSettings, log, h0, if_false, persistedTz]
  exact ⟨trivial, trivial⟩

/-- C7. Migration on load: when `tzString` is absent or empty in flash, `loadTimezoneSettings()`
sets the in-memory rule to `"CET-1CEST,M3.5.0,M10.5.0/3"` and persists it under `tzString`;
any two stores without a rule, whatever their legacy `gmtOffset`/`dstOffset` entries, give the
same in-memory and persisted rule; when `tzString` is present and non-empty the stored rule
becomes the in-memory rule and the flash store is left unchanged. -/
theorem loadTimezoneSettings_migration :
    (∀ s : NetworkManager, persistedTz s = "" →
      (loadTimezoneSettings s).2.tzString = "CET-1CEST,M3.5.0,M10.5.0/3" ∧
      persistedTz (loadTimezoneSettings s).2 = "CET-1CEST,M3.5.0,M10.5.0/3") ∧
    (∀ s t : NetworkManager, persistedTz s = "" → persistedTz t = "" →
      (loadTimezoneSettings s).2.tzString = (loadTimezoneSettings t).2.tzString ∧
      persistedTz (loadTimezoneSettings s).2 = persistedTz (loadTimezoneSettings t).2) ∧
    (∀ s : NetworkManager, persistedTz s ≠ "" →
      (loadTimezoneSettings s).2.tzString = persistedTz s ∧
      (loadTimezoneSettings s).2.nvs = s.nvs) := by
  refine ⟨fun s h => (loadTimezoneSettings_of_empty s h).2, fun s t hs ht => ?_, fun s h => ?_⟩
  · obtain ⟨-, a1, a2⟩ := loadTimezoneSettings_of_empty s hs
    obtain ⟨-, b1, b2⟩ := loadTimezoneSettings_of_empty t ht
    exact ⟨a1.trans b1.symm, a2.trans b2.symm⟩
  · rw [(loadTimezoneSettings_of_nonempty s h).2]
    exact ⟨rfl, rfl⟩

theorem loadTimezoneSettings_migration_witness :
    ((loadTimezoneSettings (construct 0 0 legacyNvs 0)).2.tzString
        = "CET-1CEST,M3.5.0,M10.5.0/3" ∧
      persistedTz (loadTimezoneSettings (construct 0 0 legacyNvs 0)).2
        = "CET-1CEST,M3.5.0,M10.5.0/3") ∧
    ((loadTimezoneSettings (construct 0 0 legacyNvs 0)).2.tzString
        = (loadTimezoneSettings (construct 0 0 dstOnlyNvs 0)).2.tzString ∧
      persistedTz (loadTimezoneSettings (construct 0 0 legacyNvs 0)).2
        = persistedTz (loadTimezoneSettings (construct 0 0 dstOnlyNvs 0)).2) ∧
    ((loadTimezoneSettings sampleState).2.tzString = persistedTz sampleState ∧
      (loadTimezoneSettings sampleState).2.nvs = sampleState.nvs) :=
  ⟨loadTimezoneSettings_migration.1 (construct 0 0 legacyNvs 0) (by decide),
   loadTimezoneSettings_migration.2.1 (construct 0 0 legacyNvs 0) (construct 0 0 dstOnlyNvs 0)
     (by decide) (by decide),
   loadTimezoneSettings_migration.2.2 sampleState (by decide)⟩

/-- C8 (the code at the failing input). On a flash store whose timezone section holds the
legacy key `dstOffset` but neither `gmtOffset` nor `tzString`, one `loadTimezoneSettings()`
persists the default rule and leaves `dstOffset` in the section: the removal of both legacy
keys is guarded by `isKey("gmtOffset")` alone. -/
theorem loadTimezoneSettings_keeps_lone_dstOffset :
    persistedTz (construct 0 0 dstOnlyNvs 0) = "" ∧
      timezoneHasKey (construct 0 0 dstOnlyNvs 0) "gmtOffset" = false ∧
      timezoneHasKey (construct 0 0 dstOnlyNvs 0) "dstOffset" = true ∧
      timezoneHasKey (loadTimezoneSettings (construct 0 0 dstOnlyNvs 0)).2 "dstOffset" = true ∧
      persistedTz (loadTimezoneSettings (construct 0 0 dstOnlyNvs 0)).2
        = "CET-1CEST,M3.5.0,M10.5.0/3" := by
  refine ⟨by decide, by decide, by decide, by decide, by decide⟩

/-- When flash holds no rule and the legacy key `gmtOffset` is present, one load removes both
legacy keys. -/
theorem loadTimezoneSettings_removes_legacy (s : NetworkManager) (h : persistedTz s = "")
    (hg : timezoneHasKey s "gmtOffset" = true) :
    timezoneHasKey (loadTimezoneSettings s).2 "gmtOffset" = false ∧
      timezoneHasKey (loadTimezoneSettings s).2 "dstOffset" = false := by
  have hro : (⟨"timezone", false⟩ : Preferences).readOnly = false := rfl
  have h0 : ((⟨"timezone", false⟩ : Preferences).getString s.nvs "tzString" "").length = 0 := by
    have h' : (⟨"timezone", false⟩ : Preferences).getString s.nvs "tzString" "" = "" := h
    rw [h']
    rfl
  have hg' : (⟨"timezone", false⟩ : Preferences).isKey s.nvs "gmtOffset" = true := hg
  have n1 : ("gmtOffset" : String) ≠ "tzString" := by decide
  have n2 : ("dstOffset" : String) ≠ "tzString" := by decide
  have n3 : ("gmtOffset" : String) ≠ "dstOffset" := by decide
  simp only [loadTimezoneSettings, removeLegacyKeys, log, h0, hg', if_true, timezoneHasKey]
  constructor
  · rw [Preferences.isKey_putString_ne _ _ n1, Preferences.isKey_remove_ne _ _ n3,
      Preferences.isKey_remove_self _ hro]
  · rw [Preferences.isKey_putString_ne _ _ n2, Preferences.isKey_remove_self _ hro]

/-- After a load the in-memory rule is the persisted one, and it is not empty. -/
theorem loadTimezoneSettings_settled (s : NetworkManager) :
    (loadTimezoneSettings s).2.tzString = persistedTz (loadTimezoneSettings s).2 ∧
      persistedTz (loadTimezoneSettings s).2 ≠ "" := by
  by_cases h : persistedTz s = ""
  · obtain ⟨-, a1, a2⟩ := loadTimezoneSettings_of_empty s h
    rw [a1, a2]
    exact ⟨rfl, DEFAULT_TZ_ne_empty⟩
  · rw [(loadTimezoneSettings_of_nonempty s h).2]
    exact ⟨rfl, h⟩

/-- C9. `loadTimezoneSettings()` is idempotent: for every flash store and every `n`, the load
that follows `n + 1` earlier loads changes neither the flash store nor the in-memory rule nor
any other field of the controller; its only access to the store is the read of `tzString`, so
no legacy key is tested, read or removed again. -/
theorem loadTimezoneSettings_idempotent (s : NetworkManager) (n : Nat) :
    (loadTimezoneSettings (loadTimezoneRepeated (n + 1) s)).2 =
      { loadTimezoneRepeated (n + 1) s with
        trace := (loadTimezoneRepeated (n + 1) s).trace ++
          [Event.nvsGet "timezone" "tzString"] } := by
  obtain ⟨h1, h2⟩ := loadTimezoneSettings_settled (loadTimezoneRepeated n s)
  have e : loadTimezoneRepeated (n + 1) s = (loadTimezoneSettings (loadTimezoneRepeated n s)).2 :=
    rfl
  rw [e, (loadTimezoneSettings_of_nonempty _ h2).2, ← h1]

end NetworkManager

namespace Outcome

/-- A property of states that holds of an outcome's state and is kept by the continuation holds
of the state of the sequenced call. -/
theorem bind_state {α β : Type} {P : NetworkManager → Prop} (o : Outcome α)
    (k : α → NetworkManager → Outcome β) (ho : P o.state)
    (hk : ∀ a s, P s → P (k a s).state) : P (o.bind k).state := by
  cases o with
  | ret a s => exact hk a s ho
  | reboot s => exact ho
  | running s => exact ho

end Outcome

namespace NetworkManager

/-! ## The retry counter -/

theorem beginScan_retry (env : Env) (s : NetworkManager) (h : RetryInv s) :
    RetryInv (beginScan env s) := by
  simp only [RetryInv] at h
  simp only [beginScan, log, next, RetryInv]
  split_ifs <;> (try dsimp only at *) <;> omega

theorem startNetworkScan_retry (env : Env) (s : NetworkManager) (h : RetryInv s) :
    RetryInv (startNetworkScan env s) := by
  simp only [startNetworkScan]
  split_ifs <;> first | exact h | exact beginScan_retry env _ h

theorem getNetworksJSON_retry (env : Env) (s : NetworkManager) (h : RetryInv s) :
    RetryInv (getNetworksJSON env s).2 := by
  simp only [getNetworksJSON, next]
  split_ifs <;> exact h

theorem updateScan_retry (env : Env) (s : NetworkManager) (h : RetryInv s) :
    RetryInv (updateScan env s) := by
  simp only [RetryInv] at h
  simp only [updateScan, log, next, RetryInv]
  split_ifs <;> (try dsimp only at *) <;> omega

theorem updateRetry_retry (env : Env) (s : NetworkManager) (h : RetryInv s) :
    RetryInv (updateRetry env s) := by
  simp only [updateRetry]
  split_ifs <;> first | exact h | exact startNetworkScan_retry env _ h

theorem getNetworksUncached_retry (env : Env) (s : NetworkManager) (h : RetryInv s) :
    RetryInv (getNetworksUncached env s).2 := by
  simp only [getNetworksUncached]
  split_ifs <;> first | exact h | exact startNetworkScan_retry env _ h

theorem ntpWait_retry (env : Env) (n : Nat) (s : NetworkManager) (h : RetryInv s) :
    RetryInv (ntpWait env n s).2 := by
  induction n generalizing s with
  | zero => exact h
  | succ n ih =>
    simp only [ntpWait]
    split_ifs
    · exact h
    · exact ih _ h

theorem syncTimeWithNTP_retry (env : Env) (s : NetworkManager) (h : RetryInv s) :
    RetryInv (syncTimeWithNTP env s) := by
  have h1 : RetryInv (ntpWait env 20 (s.log Event.configTime)).2 := ntpWait_retry env 20 _ h
  simp only [syncTimeWithNTP]
  split_ifs <;> exact h1

theorem startNormalModeWebServer_retry (env : Env) (s : NetworkManager) (h : RetryInv s) :
    RetryInv (startNormalModeWebServer env s) := by
  simp only [startNormalModeWebServer, isConnected]
  split_ifs <;> exact h

theorem checkResetButton_retry (env : Env) (s : NetworkManager) (h : RetryInv s) :
    RetryInv (checkResetButton env s).2 := by
  simp only [checkResetButton]
  split_ifs <;> exact h

theorem connectWait_retry (env : Env) (start fuel : Nat) (s : NetworkManager)
    (h : RetryInv s) : RetryInv (connectWait env start fuel s).state := by
  induction fuel generalizing s with
  | zero =>
    simp only [connectWait]
    split_ifs <;> exact h
  | succ fuel ih =>
    rw [connectWait]
    dsimp only
    split_ifs
    all_goals
      first
        | exact h
        | exact checkResetButton_retry env _ h
        | exact ih _ (checkResetButton_retry env _ h)

theorem connectToWiFi_retry (env : Env) (fuel : Nat) (s : NetworkManager) (h : RetryInv s) :
    RetryInv (connectToWiFi env fuel s).state := by
  simp only [connectToWiFi]
  split_ifs
  · exact h
  · exact Outcome.bind_state _ _ (connectWait_retry env _ fuel _ h) (fun _ _ ht => ht)
  · exact Outcome.bind_state _ _ (connectWait_retry env _ fuel _ h) (fun _ _ ht => ht)

theorem initialScanWait_retry (env : Env) (start fuel : Nat) (s : NetworkManager)
    (h : RetryInv s) : RetryInv (initialScanWait env start fuel s).state := by
  induction fuel generalizing s with
  | zero =>
    simp only [initialScanWait]
    split_ifs <;> exact h
  | succ fuel ih =>
    rw [initialScanWait]
    dsimp only
    split_ifs
    all_goals first | exact h | exact ih _ h

theorem startAPMode_retry (env : Env) (fuel : Nat) (s : NetworkManager) (h : RetryInv s) :
    RetryInv (startAPMode env fuel s).state := by
  simp only [startAPMode]
  refine Outcome.bind_state _ _ (initialScanWait_retry env _ fuel _ ?_) ?_
  · exact startNetworkScan_retry env _ h
  · intro _ t ht
    dsimp only
    split_ifs <;> exact ht

theorem updateServer_retry (s : NetworkManager) (h : RetryInv s) :
    RetryInv (updateServer s).state := by
  simp only [updateServer]
  split
  · simp only [WebConfigServer.update]
    split_ifs <;> exact h
  · exact h

theorem leaveAPMode_retry (env : Env) (s : NetworkManager) (h : RetryInv s) :
    RetryInv (leaveAPMode env s) := by
  simp only [leaveAPMode]
  apply startNormalModeWebServer_retry
  apply syncTimeWithNTP_retry
  repeat' split
  all_goals exact h

theorem updateAP_retry (env : Env) (fuel : Nat) (s : NetworkManager) (h : RetryInv s) :
    RetryInv (updateAP env fuel s).state := by
  simp only [updateAP]
  split_ifs
  · exact h
  · refine Outcome.bind_state _ _ (connectToWiFi_retry env fuel _ h) ?_
    intro ok t ht
    cases ok
    · exact ht
    · exact leaveAPMode_retry env t ht
  · exact h

theorem updateStation_retry (env : Env) (fuel : Nat) (s : NetworkManager) (h : RetryInv s) :
    RetryInv (updateStation env fuel s).state := by
  have hk : ∀ (ok : Bool) (t : NetworkManager), RetryInv t →
      RetryInv (if ¬ ok then startAPMode env fuel t else Outcome.ret () t).state := by
    intro ok t ht
    split_ifs
    all_goals first | exact ht | exact startAPMode_retry env fuel t ht
  simp only [updateStation]
  split_ifs
  all_goals
    first
      | exact h
      | exact syncTimeWithNTP_retry env _ h
      | exact Outcome.bind_state _ _ (connectToWiFi_retry env fuel _ h) hk
      | exact Outcome.bind_state _ _
          (connectToWiFi_retry env fuel _ (syncTimeWithNTP_retry env _ h)) hk

theorem update_retry (env : Env) (fuel : Nat) (s : NetworkManager) (h : RetryInv s) :
    RetryInv (update env fuel s).state := by
  simp only [update]
  refine Outcome.bind_state _ _
    (updateServer_retry _ (updateRetry_retry env _ (updateScan_retry env s h))) ?_
  intro _ t ht
  dsimp only
  split_ifs
  · exact updateAP_retry env fuel t ht
  · exact updateStation_retry env fuel t ht

/-- C10. The bound `0 <= scanRetryCount <= 3` holds after construction and is kept by every
operation that touches the scan state (`update`, `startNetworkScan`, `startAPMode`,
`onWebGetNetworks`, `onWebStartScan`), for every environment, that is for every outcome of the
scan primitive and every clock value; for `update` and `startAPMode` it holds of the state
reached whether the call returns, reboots or is still inside a wait loop. -/
theorem scanRetryCount_bounded :
    (∀ (g d : Int) (nvs : Nvs) (tick : Nat), RetryInv (construct g d nvs tick)) ∧
    ∀ (env : Env) (fuel : Nat) (s : NetworkManager), RetryInv s →
      RetryInv (update env fuel s).state ∧
      RetryInv (startNetworkScan env s) ∧
      RetryInv (startAPMode env fuel s).state ∧
      (∃ s', (onWebGetNetworks env (some s)).2 = some s' ∧ RetryInv s') ∧
      (∃ s', onWebStartScan env (some s) = some s' ∧ RetryInv s') := by
  refine ⟨fun g d nvs tick => ⟨le_refl (0 : Int), (by decide : (0 : Int) ≤ 3)⟩,
    fun env fuel s h => ?_⟩
  refine ⟨update_retry env fuel s h, startNetworkScan_retry env s h,
    startAPMode_retry env fuel s h, ?_, ⟨_, rfl, startNetworkScan_retry env s h⟩⟩
  simp only [onWebGetNetworks]
  split_ifs
  · exact ⟨_, rfl, h⟩
  · exact ⟨_, rfl, getNetworksUncached_retry env _ h⟩
  · exact ⟨_, rfl, getNetworksUncached_retry env _ h⟩

theorem scanRetryCount_bounded_witness :
    RetryInv (update failingEnv 5 scanningState).state ∧
      RetryInv (startNetworkScan failingEnv scanningState) ∧
      RetryInv (startAPMode failingEnv 5 scanningState).state ∧
      (∃ s', (onWebGetNetworks failingEnv (some scanningState)).2 = some s' ∧ RetryInv s') ∧
      (∃ s', onWebStartScan failingEnv (some scanningState) = some s' ∧ RetryInv s') :=
  scanRetryCount_bounded.2 failingEnv 5 scanningState ⟨by decide, by decide⟩

/-! ## Scan retries: failure and timeout -/

set_option maxRecDepth 100000 in
/-- C11 (the code at the failing input). In AP mode, starting from `scanRetryCount = 0` with the
first scan in flight: when `update()` observes every attempt as failed, the fourth failure
settles the cache to the empty network list with `scanRetryCount = 0` and later calls start no
further scan (three scans started by `update()` in all); when `update()` observes every
attempt as timed out, the fourth timeout (observed by the 13th call) leaves
`scanRetryCount = 3` with a cache that is not the empty list, and `update()` goes on starting
scans: a fifth attempt is in flight after that call and a sixth after the 17th. -/
theorem timeouts_never_give_up :
    ((updateRepeated scanFailEnv 5 4 apScanState).cachedNetworksJSON = JSON_EMPTY ∧
      (updateRepeated scanFailEnv 5 4 apScanState).scanRetryCount = 0 ∧
      (updateRepeated scanFailEnv 5 4 apScanState).scanInProgress = false ∧
      cnt Event.isScanStart (updateRepeated scanFailEnv 5 4 apScanState) = 3 ∧
      cnt Event.isScanStart (updateRepeated scanFailEnv 5 8 apScanState) = 3) ∧
    (cnt Event.isScanStart (updateRepeated timeoutEnv 5 12 apScanState) = 3 ∧
      (updateRepeated timeoutEnv 5 12 apScanState).scanInProgress = true ∧
      (updateRepeated timeoutEnv 5 13 apScanState).scanRetryCount = 3 ∧
      (updateRepeated timeoutEnv 5 13 apScanState).cachedNetworksJSON ≠ JSON_EMPTY ∧
      (updateRepeated timeoutEnv 5 13 apScanState).scanInProgress = true ∧
      cnt Event.isScanStart (updateRepeated timeoutEnv 5 13 apScanState) = 4 ∧
      cnt Event.isScanStart (updateRepeated timeoutEnv 5 17 apScanState) = 5) := by
  decide

/-- C12 (the code at the failing input). The scan-result handling of `update()` treats a
timeout and a failure differently outside the case "AP mode with retries left".  With all
three retries used in AP mode, a failure gives `scanRetryCount = 0` and the empty network
list, a timeout gives `scanRetryCount = 3` and `"retrying"`; in station mode with
`scanRetryCount = 0`, a failure gives `0` and the empty list, a timeout gives `1` and
`"retrying"`.  In AP mode with `scanRetryCount = 0` the two agree. -/
theorem timeout_differs_from_failure :
    ((updateScan scanFailEnv lastRetryState).scanRetryCount = 0 ∧
      (updateScan scanFailEnv lastRetryState).cachedNetworksJSON = JSON_EMPTY ∧
      (updateScan timeoutEnv lastRetryState).scanRetryCount = 3 ∧
      (updateScan timeoutEnv lastRetryState).cachedNetworksJSON = JSON_RETRYING) ∧
    ((updateScan scanFailEnv stationScanState).scanRetryCount = 0 ∧
      (updateScan scanFailEnv stationScanState).cachedNetworksJSON = JSON_EMPTY ∧
      (updateScan timeoutEnv stationScanState).scanRetryCount = 1 ∧
      (updateScan timeoutEnv stationScanState).cachedNetworksJSON = JSON_RETRYING) ∧
    ((updateScan scanFailEnv apScanState).scanRetryCount
        = (updateScan timeoutEnv apScanState).scanRetryCount ∧
      (updateScan scanFailEnv apScanState).cachedNetworksJSON
        = (updateScan timeoutEnv apScanState).cachedNetworksJSON ∧
      (updateScan scanFailEnv apScanState).scanInProgress
        = (updateScan timeoutEnv apScanState).scanInProgress) := by
  decide

/-! ## Refused scans -/

/-- C13. A scan already running is never doubled: with `scanInProgress = true`,
`startNetworkScan()`, also when called through `onWebStartScan`, returns the state it was
given, trace included, so the scan primitive is not invoked; hence whenever
`startNetworkScan()` does invoke the scan primitive, `scanInProgress` was false before the
call. -/
theorem startNetworkScan_refused_while_running :
    (∀ (env : Env) (s : NetworkManager), s.scanInProgress = true →
      startNetworkScan env s = s ∧ onWebStartScan env (some s) = some s ∧
      cnt Event.isScanStart (startNetworkScan env s) = cnt Event.isScanStart s) ∧
    (∀ (env : Env) (s : NetworkManager),
      cnt Event.isScanStart s < cnt Event.isScanStart (startNetworkScan env s) →
      s.scanInProgress = false) := by
  have h1 : ∀ (env : Env) (s : NetworkManager), s.scanInProgress = true →
      startNetworkScan env s = s := by
    intro env s h
    simp only [startNetworkScan, h, if_true]
  refine ⟨fun env s h => ⟨h1 env s h, ?_, ?_⟩, fun env s hlt => ?_⟩
  · simp only [onWebStartScan, h1 env s h]
  · rw [h1 env s h]
  · cases hs : s.scanInProgress
    · rfl
    · rw [h1 env s hs] at hlt
      exact absurd hlt (Nat.lt_irrefl _)

theorem startNetworkScan_refused_while_running_witness :
    (startNetworkScan failingEnv scanningState = scanningState ∧
      onWebStartScan failingEnv (some scanningState) = some scanningState ∧
      cnt Event.isScanStart (startNetworkScan failingEnv scanningState)
        = cnt Event.isScanStart scanningState) ∧
    (startNetworkScan failingEnv sampleState).scanInProgress = false ∧
    sampleState.scanInProgress = false :=
  ⟨startNetworkScan_refused_while_running.1 failingEnv scanningState rfl, by decide,
    startNetworkScan_refused_while_running.2 failingEnv sampleState (by decide)⟩

/-- C14 (counterexample). In AP mode since time 0 with no scan running and a cached network
list, `startNetworkScan()` called at time 0 (session younger than 2000 ms) replaces the cache
by `"scanning"`: the cached result is not left unchanged. -/
theorem young_session_scan_replaces_cache :
    cachedListState.apModeActive = true ∧ cachedListState.scanInProgress = false ∧
      sub32 (millis failingEnv cachedListState) cachedListState.apModeStartTime < 2000 ∧
      (startNetworkScan failingEnv cachedListState).cachedNetworksJSON = JSON_SCANNING ∧
      (startNetworkScan failingEnv cachedListState).cachedNetworksJSON
        ≠ cachedListState.cachedNetworksJSON := by
  decide

/-- C14 (amended). In AP mode with no scan running and a session younger than 2000 ms,
`startNetworkScan()` does not invoke the scan primitive or any other primitive (the trace is
unchanged), leaves `scanInProgress`, `scanRetryCount`, `lastScanTime` and `scanStartTime` and
every other field unchanged, and sets the cache to `"scanning"`: the result is the state
before the call with one clock reading taken and that cache. -/
theorem startNetworkScan_young_session (env : Env) (s : NetworkManager)
    (hap : s.apModeActive = true) (hscan : s.scanInProgress = false)
    (hyoung : sub32 (millis env s) s.apModeStartTime < 2000) :
    startNetworkScan env s =
      { s with tick := s.tick + 1, cachedNetworksJSON := JSON_SCANNING } := by
  simp only [startNetworkScan, hap, hscan, next, if_true]
  have hy : sub32 (millis env s) s.apModeStartTime < 2000 := hyoung
  simp [hy]

theorem startNetworkScan_young_session_witness :
    startNetworkScan failingEnv cachedListState =
      { cachedListState with
        tick := cachedListState.tick + 1, cachedNetworksJSON := JSON_SCANNING } :=
  startNetworkScan_young_session failingEnv cachedListState rfl rfl (by decide)

/-! ## Shapes of the scan cache -/

theorem networksShape_empty : NetworksShape JSON_EMPTY :=
  ⟨"", by decide⟩

theorem not_networksShape_empty_string : ¬ NetworksShape "" := by
  rintro ⟨body, h⟩
  have hl := congrArg String.length h
  simp only [String.length_append] at hl
  have h1 : ("\x7b\"networks\":[" : String).length = 13 := by decide
  have h2 : ("" : String).length = 0 := rfl
  rw [h1, h2] at hl
  omega

theorem buildNetworksStep_extends (table : Nat → ScanEntry) (acc : String × Nat) (i : Nat) :
    ∃ b : String, (buildNetworksStep table acc i).1 = acc.1 ++ b := by
  simp only [buildNetworksStep]
  split_ifs
  · exact ⟨"", by simp⟩
  · exact ⟨_, by simp only [String.append_assoc]; rfl⟩
  · exact ⟨_, by simp only [String.append_assoc]; rfl⟩

theorem buildNetworksFold_extends (table : Nat → ScanEntry) (l : List Nat)
    (acc : String × Nat) :
    ∃ b : String, (l.foldl (buildNetworksStep table) acc).1 = acc.1 ++ b := by
  induction l generalizing acc with
  | nil => exact ⟨"", by simp⟩
  | cons i l ih =>
    obtain ⟨b1, h1⟩ := buildNetworksStep_extends table acc i
    obtain ⟨b2, h2⟩ := ih (buildNetworksStep table acc i)
    exact ⟨b1 ++ b2, by rw [List.foldl_cons, h2, h1, String.append_assoc]⟩

theorem buildNetworksJSON_shape (table : Nat → ScanEntry) (n : Int) :
    NetworksShape (buildNetworksJSON table n) := by
  obtain ⟨b, hb⟩ := buildNetworksFold_extends table (List.range n.toNat)
    ("\x7b\"networks\":[", 0)
  exact ⟨b, by rw [buildNetworksJSON, hb]⟩

theorem threeShapes_scanning : ThreeShapes JSON_SCANNING := Or.inl rfl

theorem threeShapes_retrying : ThreeShapes JSON_RETRYING := Or.inr (Or.inl rfl)

theorem threeShapes_empty_list : ThreeShapes JSON_EMPTY := Or.inr (Or.inr networksShape_empty)

theorem threeShapes_build (table : Nat → ScanEntry) (n : Int) :
    ThreeShapes (buildNetworksJSON table n) :=
  Or.inr (Or.inr (buildNetworksJSON_shape table n))

theorem beginScan_cache (env : Env) (s : NetworkManager) : CacheInv (beginScan env s) := by
  simp only [beginScan, log, next]
  split_ifs <;>
    first
      | exact Or.inr threeShapes_scanning
      | exact Or.inr threeShapes_retrying
      | exact Or.inr threeShapes_empty_list

theorem startNetworkScan_cache (env : Env) (s : NetworkManager) (h : CacheInv s) :
    CacheInv (startNetworkScan env s) := by
  simp only [startNetworkScan]
  split_ifs <;>
    first
      | exact h
      | exact Or.inr threeShapes_scanning
      | exact beginScan_cache env _

theorem getNetworksJSON_shape (env : Env) (s : NetworkManager) :
    ThreeShapes (getNetworksJSON env s).1 := by
  simp only [getNetworksJSON]
  split_ifs
  · exact threeShapes_empty_list
  · exact threeShapes_build _ _

theorem updateScan_cache (env : Env) (s : NetworkManager) (h : CacheInv s) :
    CacheInv (updateScan env s) := by
  simp only [updateScan, log, next]
  split_ifs <;>
    first
      | exact h
      | exact Or.inr threeShapes_retrying
      | exact Or.inr threeShapes_empty_list
      | exact Or.inr (getNetworksJSON_shape env _)

theorem updateRetry_cache (env : Env) (s : NetworkManager) (h : CacheInv s) :
    CacheInv (updateRetry env s) := by
  simp only [updateRetry]
  split_ifs <;> first | exact h | exact startNetworkScan_cache env _ h

theorem getNetworksUncached_cache (env : Env) (s : NetworkManager) (h : CacheInv s) :
    CacheInv (getNetworksUncached env s).2 := by
  simp only [getNetworksUncached]
  split_ifs <;> first | exact h | exact startNetworkScan_cache env _ h

theorem ntpWait_cache (env : Env) (n : Nat) (s : NetworkManager) (h : CacheInv s) :
    CacheInv (ntpWait env n s).2 := by
  induction n generalizing s with
  | zero => exact h
  | succ n ih =>
    simp only [ntpWait]
    split_ifs
    · exact h
    · exact ih _ h

theorem syncTimeWithNTP_cache (env : Env) (s : NetworkManager) (h : CacheInv s) :
    CacheInv (syncTimeWithNTP env s) := by
  have h1 : CacheInv (ntpWait env 20 (s.log Event.configTime)).2 := ntpWait_cache env 20 _ h
  simp only [syncTimeWithNTP]
  split_ifs <;> exact h1

theorem startNormalModeWebServer_cache (env : Env) (s : NetworkManager) (h : CacheInv s) :
    CacheInv (startNormalModeWebServer env s) := by
  simp only [startNormalModeWebServer, isConnected]
  split_ifs <;> exact h

theorem checkResetButton_cache (env : Env) (s : NetworkManager) (h : CacheInv s) :
    CacheInv (checkResetButton env s).2 := by
  simp only [checkResetButton]
  split_ifs <;> exact h

theorem connectWait_cache (env : Env) (start fuel : Nat) (s : NetworkManager)
    (h : CacheInv s) : CacheInv (connectWait env start fuel s).state := by
  induction fuel generalizing s with
  | zero =>
    simp only [connectWait]
    split_ifs <;> exact h
  | succ fuel ih =>
    rw [connectWait]
    dsimp only
    split_ifs
    all_goals
      first
        | exact h
        | exact checkResetButton_cache env _ h
        | exact ih _ (checkResetButton_cache env _ h)

theorem connectToWiFi_cache (env : Env) (fuel : Nat) (s : NetworkManager) (h : CacheInv s) :
    CacheInv (connectToWiFi env fuel s).state := by
  simp only [connectToWiFi]
  split_ifs
  · exact h
  · exact Outcome.bind_state _ _ (connectWait_cache env _ fuel _ h) (fun _ _ ht => ht)
  · exact Outcome.bind_state _ _ (connectWait_cache env _ fuel _ h) (fun _ _ ht => ht)

theorem initialScanWait_cache (env : Env) (start fuel : Nat) (s : NetworkManager)
    (h : CacheInv s) : CacheInv (initialScanWait env start fuel s).state := by
  induction fuel generalizing s with
  | zero =>
    simp only [initialScanWait]
    split_ifs <;> exact h
  | succ fuel ih =>
    rw [initialScanWait]
    dsimp only
    split_ifs
    all_goals
      first
        | exact h
        | exact ih _ h
        | exact Or.inr (threeShapes_build _ _)

theorem startAPMode_cache (env : Env) (fuel : Nat) (s : NetworkManager) (h : CacheInv s) :
    CacheInv (startAPMode env fuel s).state := by
  simp only [startAPMode]
  refine Outcome.bind_state _ _ (initialScanWait_cache env _ fuel _ ?_) ?_
  · exact startNetworkScan_cache env _ h
  · intro _ t ht
    dsimp only
    split_ifs <;> exact ht

theorem updateServer_cache (s : NetworkManager) (h : CacheInv s) :
    CacheInv (updateServer s).state := by
  simp only [updateServer]
  split
  · simp only [WebConfigServer.update]
    split_ifs <;> exact h
  · exact h

theorem leaveAPMode_cache (env : Env) (s : NetworkManager) :
    CacheInv (leaveAPMode env s) := by
  simp only [leaveAPMode]
  apply startNormalModeWebServer_cache
  apply syncTimeWithNTP_cache
  exact Or.inl rfl

theorem updateAP_cache (env : Env) (fuel : Nat) (s : NetworkManager) (h : CacheInv s) :
    CacheInv (updateAP env fuel s).state := by
  simp only [updateAP]
  split_ifs
  · exact h
  · refine Outcome.bind_state _ _ (connectToWiFi_cache env fuel _ h) ?_
    intro ok t ht
    cases ok
    · exact ht
    · exact leaveAPMode_cache env t
  · exact h

theorem updateStation_cache (env : Env) (fuel : Nat) (s : NetworkManager) (h : CacheInv s) :
    CacheInv (updateStation env fuel s).state := by
  have hk : ∀ (ok : Bool) (t : NetworkManager), CacheInv t →
      CacheInv (if ¬ ok then startAPMode env fuel t else Outcome.ret () t).state := by
    intro ok t ht
    split_ifs
    all_goals first | exact ht | exact startAPMode_cache env fuel t ht
  simp only [updateStation]
  split_ifs
  all_goals
    first
      | exact h
      | exact syncTimeWithNTP_cache env _ h
      | exact Outcome.bind_state _ _ (connectToWiFi_cache env fuel _ h) hk
      | exact Outcome.bind_state _ _
          (connectToWiFi_cache env fuel _ (syncTimeWithNTP_cache env _ h)) hk

theorem update_cache (env : Env) (fuel : Nat) (s : NetworkManager) (h : CacheInv s) :
    CacheInv (update env fuel s).state := by
  simp only [update]
  refine Outcome.bind_state _ _
    (updateServer_cache _ (updateRetry_cache env _ (updateScan_cache env s h))) ?_
  intro _ t ht
  dsimp only
  split_ifs
  · exact updateAP_cache env fuel t ht
  · exact updateStation_cache env fuel t ht

theorem loadTimezoneSettings_cache (s : NetworkManager) (h : CacheInv s) :
    CacheInv (loadTimezoneSettings s).2 := by
  simp only [loadTimezoneSettings, removeLegacyKeys, log]
  split_ifs <;> exact h

theorem setup_cache (env : Env) (fuel : Nat) (s : NetworkManager) (h : CacheInv s) :
    CacheInv (setup env fuel s).state := by
  have h1 : CacheInv (loadCredentials (loadTimezoneSettings
      ((s.log (Event.wifiMode WifiMode.WIFI_STA)).log
        (Event.wifiSetAutoReconnect false))).2).2 :=
    loadTimezoneSettings_cache _ h
  simp only [setup]
  split_ifs
  · refine Outcome.bind_state _ _ (connectToWiFi_cache env fuel _ h1) ?_
    intro ok t ht
    cases ok
    · exact startAPMode_cache env fuel t ht
    · exact startNormalModeWebServer_cache env _ (syncTimeWithNTP_cache env t ht)
  · exact startAPMode_cache env fuel _ h1

theorem onWebSaveConfig_cache (s t : NetworkManager) (ssid password tz : String)
    (h : CacheInv s) (ht : onWebSaveConfig (some s) ssid password tz = some t) :
    CacheInv t := by
  simp only [onWebSaveConfig, Option.some.injEq] at ht
  subst ht
  simp only [saveCredentials, saveTimezoneSettings, log]
  split_ifs <;> exact h

theorem onWebGetNetworks_cache (env : Env) (s t : NetworkManager) (h : CacheInv s)
    (ht : (onWebGetNetworks env (some s)).2 = some t) : CacheInv t := by
  simp only [onWebGetNetworks] at ht
  split_ifs at ht
  all_goals
    simp only [Option.some.injEq] at ht
    subst ht
    first | exact h | exact getNetworksUncached_cache env _ h

/-- C15 (counterexample). The controller as constructed is a reachable state, and its scan
cache is the empty string, which has none of the three shapes. -/
theorem constructed_cache_has_no_shape :
    Reachable (construct 0 0 [] 0) ∧
      (construct 0 0 [] 0).cachedNetworksJSON = "" ∧
      ¬ ThreeShapes (construct 0 0 [] 0).cachedNetworksJSON := by
  refine ⟨Reachable.boot 0 0 [] 0, rfl, ?_⟩
  rintro (h | h | h)
  · exact absurd h (by decide)
  · exact absurd h (by decide)
  · exact not_networksShape_empty_string h

/-- C15 (amended). In every state reachable from construction through `setup()`, `update()`,
the reset-button poll, `clearAllSettings()`, the web callbacks and reboots, the scan cache is
either the empty string (its value at construction and after AP mode has been left for
station mode) or has one of the three shapes `{"status":"scanning"}`,
`{"status":"retrying"}`, `{"networks":[...]}`. -/
theorem reachable_cache_shape (s : NetworkManager) (h : Reachable s) :
    s.cachedNetworksJSON = "" ∨ ThreeShapes s.cachedNetworksJSON := by
  induction h with
  | boot g d nvs tick => exact Or.inl rfl
  | pin s p _ ih => exact ih
  | setup env fuel s _ ih => exact setup_cache env fuel s ih
  | update env fuel s _ ih => exact update_cache env fuel s ih
  | button env s _ ih => exact checkResetButton_cache env s ih
  | clearAll s _ ih => exact ih
  | saveConfig s t ssid password tz _ ht ih => exact onWebSaveConfig_cache s t _ _ _ ih ht
  | getNetworks env s t _ ht ih => exact onWebGetNetworks_cache env s t ih ht
  | startScan env s t _ ht ih =>
    simp only [onWebStartScan, Option.some.injEq] at ht
    subst ht
    exact startNetworkScan_cache env s ih
  | reboot s _ ih => exact Or.inl rfl

theorem reachable_cache_shape_witness :
    (update scanFailEnv 5
        (setup scanFailEnv 200 (construct 0 0 [] 0)).state).state.cachedNetworksJSON = "" ∨
      ThreeShapes (update scanFailEnv 5
        (setup scanFailEnv 200 (construct 0 0 [] 0)).state).state.cachedNetworksJSON :=
  reachable_cache_shape _
    (Reachable.update scanFailEnv 5 _
      (Reachable.setup scanFailEnv 200 _ (Reachable.boot 0 0 [] 0)))

/-! ## The reset button -/

/-- C16. `checkResetButton()` returns true if and only if the pin is configured (`>= 0`), the
pin reads LOW, `buttonPressed` was true before the call and the elapsed time
`millis() - buttonPressStart`, computed modulo `2^32`, is at least 3000; when it returns true
the state is the one produced by `clearAllSettings()`; and a LOW reading with `buttonPressed`
false only records the press (`buttonPressed = true`, `buttonPressStart` = the clock reading)
and returns false. -/
theorem checkResetButton_spec (env : Env) (s : NetworkManager) :
    ((checkResetButton env s).1 = true ↔
      (0 ≤ s.resetButtonPin ∧ env.buttonLow s.tick = true ∧ s.buttonPressed = true ∧
        3000 ≤ sub32 (env.clock (s.tick + 1) % U32) s.buttonPressStart)) ∧
    ((checkResetButton env s).1 = true →
      (checkResetButton env s).2 = clearAllSettings { s with tick := s.tick + 2 }) ∧
    (0 ≤ s.resetButtonPin → env.buttonLow s.tick = true → s.buttonPressed = false →
      (checkResetButton env s).1 = false ∧
      (checkResetButton env s).2 =
        { s with tick := s.tick + 2, buttonPressed := true,
                 buttonPressStart := env.clock (s.tick + 1) % U32 }) := by
  refine ⟨?_, ?_, ?_⟩
  · simp only [checkResetButton, next, millis]
    split_ifs <;> simp_all
  · simp only [checkResetButton, next, millis]
    split_ifs <;> simp
  · intro hpin hlow hnot
    have hp : ¬ s.resetButtonPin < 0 := by omega
    simp [checkResetButton, next, millis, hp, hlow, hnot]

theorem checkResetButton_spec_witness :
    (checkResetButton shortPressEnv buttonState).1 = false ∧
      (checkResetButton shortPressEnv buttonState).2 =
        { buttonState with
          tick := buttonState.tick + 2, buttonPressed := true,
          buttonPressStart := shortPressEnv.clock (buttonState.tick + 1) % U32 } :=
  (checkResetButton_spec shortPressEnv buttonState).2.2 (by decide) (by decide) (by decide)

theorem sub32_of_le {a b : Nat} (hba : b ≤ a) (ha : a < U32) : sub32 a b = a - b := by
  simp only [sub32, U32] at *
  omega

theorem buttonOnly_refl (s : NetworkManager) : ButtonOnly s s := rfl

theorem buttonOnly_trans {s t u : NetworkManager} (h1 : ButtonOnly s t) (h2 : ButtonOnly t u) :
    ButtonOnly s u := by
  unfold ButtonOnly at *
  rw [h2, h1]

/-- A poll that reads HIGH returns false and leaves the button released. -/
theorem checkResetButton_high (env : Env) (s : NetworkManager) (hpin : 0 ≤ s.resetButtonPin)
    (hhigh : env.buttonLow s.tick = false) :
    (checkResetButton env s).1 = false ∧ (checkResetButton env s).2.buttonPressed = false ∧
      ButtonOnly s (checkResetButton env s).2 := by
  have hp : ¬ s.resetButtonPin < 0 := by omega
  simp only [checkResetButton, next, hhigh, ButtonOnly, hp]
  split_ifs <;> simp_all

/-- A first LOW reading records the press and returns false. -/
theorem checkResetButton_press (env : Env) (s : NetworkManager) (hpin : 0 ≤ s.resetButtonPin)
    (hlow : env.buttonLow s.tick = true) (hnot : s.buttonPressed = false) :
    (checkResetButton env s).1 = false ∧ (checkResetButton env s).2.buttonPressed = true ∧
      (checkResetButton env s).2.buttonPressStart = env.clock (s.tick + 1) % U32 ∧
      ButtonOnly s (checkResetButton env s).2 := by
  have hp : ¬ s.resetButtonPin < 0 := by omega
  simp [checkResetButton, next, millis, hp, hlow, hnot, ButtonOnly]

/-- A LOW reading less than 3000 ms into a press returns false and keeps the press. -/
theorem checkResetButton_hold (env : Env) (s : NetworkManager) (hpin : 0 ≤ s.resetButtonPin)
    (hlow : env.buttonLow s.tick = true) (hpressed : s.buttonPressed = true)
    (hshort : sub32 (env.clock (s.tick + 1) % U32) s.buttonPressStart < 3000) :
    (checkResetButton env s).1 = false ∧ (checkResetButton env s).2.buttonPressed = true ∧
      (checkResetButton env s).2.buttonPressStart = s.buttonPressStart ∧
      ButtonOnly s (checkResetButton env s).2 := by
  have hp : ¬ s.resetButtonPin < 0 := by omega
  have hs : ¬ 3000 ≤ sub32 (env.clock (s.tick + 1) % U32) s.buttonPressStart := by omega
  simp [checkResetButton, next, millis, hp, hlow, hpressed, hs, ButtonOnly]

/-- Within a run of LOW readings that ends short, the latest reading is less than 3000 ms
after the first. -/
theorem run_bound (rest : List (Bool × Nat)) (first last : Nat)
    (hruns : runsShort (some (first, last)) rest = true)
    (hchain : List.Chain' (· ≤ ·) (last :: rest.map Prod.snd)) : last - first < 3000 := by
  induction rest generalizing last with
  | nil => simpa [runsShort, runSpanOk] using hruns
  | cons r rest ih =>
    obtain ⟨low, t⟩ := r
    cases low
    · simp only [runsShort, runSpanOk, Bool.and_eq_true, decide_eq_true_eq] at hruns
      exact hruns.1
    · simp only [runsShort] at hruns
      simp only [List.map_cons, List.chain'_cons] at hchain
      have := ih t hruns hchain.2
      omega

theorem buttonOnly_pin {s t : NetworkManager} (h : ButtonOnly s t) :
    t.resetButtonPin = s.resetButtonPin := by
  unfold ButtonOnly at h
  rw [h]

/-- "No poll returns true and only the debounce fields change", for `n` polls from `s`. -/
theorem polls_quiet_step (env : Env) (n : Nat) (s : NetworkManager)
    (hret : (checkResetButton env s).1 = false)
    (hbtn : ButtonOnly s (checkResetButton env s).2)
    (hrest : (∀ r ∈ pollResults env n (checkResetButton env s).2, r = false) ∧
      ∀ k, k ≤ n → ButtonOnly (checkResetButton env s).2
        (pollState env k (checkResetButton env s).2)) :
    (∀ r ∈ pollResults env (n + 1) s, r = false) ∧
      ∀ k, k ≤ n + 1 → ButtonOnly s (pollState env k s) := by
  constructor
  · intro r hr
    simp only [pollResults, List.mem_cons] at hr
    rcases hr with hr | hr
    · rw [hr, hret]
    · exact hrest.1 r hr
  · intro k hk
    cases k with
    | zero => exact buttonOnly_refl s
    | succ k => exact buttonOnly_trans hbtn (hrest.2 k (by omega))

theorem polls_short_aux (env : Env) (n : Nat) :
    (∀ s : NetworkManager, 0 ≤ s.resetButtonPin → s.buttonPressed = false →
      List.Chain' (· ≤ ·) ((pollReadings env n s).map Prod.snd) →
      runsShort none (pollReadings env n s) = true →
      (∀ r ∈ pollResults env n s, r = false) ∧
        ∀ k, k ≤ n → ButtonOnly s (pollState env k s)) ∧
    (∀ (s : NetworkManager) (first last : Nat), 0 ≤ s.resetButtonPin →
      s.buttonPressed = true → s.buttonPressStart = first → first ≤ last → last < U32 →
      List.Chain' (· ≤ ·) (last :: (pollReadings env n s).map Prod.snd) →
      runsShort (some (first, last)) (pollReadings env n s) = true →
      (∀ r ∈ pollResults env n s, r = false) ∧
        ∀ k, k ≤ n → ButtonOnly s (pollState env k s)) := by
  induction n with
  | zero =>
    refine ⟨fun s _ _ _ _ => ⟨fun r hr => ?_, fun k hk => ?_⟩,
      fun s _ _ _ _ _ _ _ _ _ => ⟨fun r hr => ?_, fun k hk => ?_⟩⟩
    · simp [pollResults] at hr
    · obtain rfl : k = 0 := by omega
      exact buttonOnly_refl s
    · simp [pollResults] at hr
    · obtain rfl : k = 0 := by omega
      exact buttonOnly_refl s
  | succ n ih =>
    obtain ⟨ihNone, ihSome⟩ := ih
    have hlt : ∀ k, env.clock k % U32 < U32 := fun k => Nat.mod_lt _ (by decide)
    constructor
    · intro s hpin hnot hchain hruns
      simp only [pollReadings, pollReading, List.map_cons] at hchain hruns
      cases hlow : env.buttonLow s.tick
      · obtain ⟨h1, h2, h3⟩ := checkResetButton_high env s hpin hlow
        rw [hlow] at hruns
        simp only [runsShort, runSpanOk, Bool.true_and] at hruns
        exact polls_quiet_step env n s h1 h3
          (ihNone _ (by rw [buttonOnly_pin h3]; exact hpin) h2 hchain.tail hruns)
      · obtain ⟨h1, h2, h3, h4⟩ := checkResetButton_press env s hpin hlow hnot
        rw [hlow] at hruns
        simp only [runsShort] at hruns
        exact polls_quiet_step env n s h1 h4
          (ihSome _ _ _ (by rw [buttonOnly_pin h4]; exact hpin) h2 h3 (le_refl _) (hlt _)
            hchain hruns)
    · intro s first last hpin hpressed hstart hfl hlast hchain hruns
      simp only [pollReadings, pollReading, List.map_cons] at hchain hruns
      rw [List.chain'_cons] at hchain
      cases hlow : env.buttonLow s.tick
      · obtain ⟨h1, h2, h3⟩ := checkResetButton_high env s hpin hlow
        rw [hlow] at hruns
        simp only [runsShort, Bool.and_eq_true] at hruns
        exact polls_quiet_step env n s h1 h3
          (ihNone _ (by rw [buttonOnly_pin h3]; exact hpin) h2 hchain.2.tail hruns.2)
      · rw [hlow] at hruns
        simp only [runsShort] at hruns
        have hb := run_bound _ first (env.clock (s.tick + 1) % U32) hruns hchain.2
        have hle : first ≤ env.clock (s.tick + 1) % U32 := le_trans hfl hchain.1
        have hshort : sub32 (env.clock (s.tick + 1) % U32) s.buttonPressStart < 3000 := by
          rw [hstart, sub32_of_le hle (hlt _)]
          exact hb
        obtain ⟨h1, h2, h3, h4⟩ := checkResetButton_hold env s hpin hlow hpressed hshort
        exact polls_quiet_step env n s h1 h4
          (ihSome _ first _ (by rw [buttonOnly_pin h4]; exact hpin) h2 (h3.trans hstart) hle
            (hlt _) hchain.2 hruns)

/-- With no pin configured a poll reads nothing, returns false and changes nothing. -/
theorem polls_unconfigured (env : Env) (n : Nat) (s : NetworkManager)
    (hpin : s.resetButtonPin < 0) :
    (∀ r ∈ pollResults env n s, r = false) ∧ ∀ k, k ≤ n → pollState env k s = s := by
  have hstep : checkResetButton env s = (false, s) := by
    simp [checkResetButton, hpin]
  induction n with
  | zero =>
    refine ⟨fun r hr => by simp [pollResults] at hr, fun k hk => ?_⟩
    obtain rfl : k = 0 := by omega
    rfl
  | succ n ih =>
    refine ⟨fun r hr => ?_, fun k hk => ?_⟩
    · simp only [pollResults, List.mem_cons, hstep] at hr
      rcases hr with hr | hr
      · exact hr
      · exact ih.1 r hr
    · cases k with
      | zero => rfl
      | succ k =>
        simp only [pollState, hstep]
        exact ih.2 k (by omega)

/-- C17. Short presses do nothing: take any number of `checkResetButton()` polls in a row,
starting with the button not pressed, whose timestamps are non-decreasing and in which no
maximal run of consecutive LOW readings spans 3000 ms or more from its first to its last
reading.  Then no poll returns true, and after each poll the state differs from the initial
one at most in `buttonPressed` and `buttonPressStart` (and the count of readings taken): the
flash store, the credentials and the timezone rule are untouched.  Each release ends the run,
so press time does not accumulate across releases. -/
theorem short_presses_do_nothing (env : Env) (n : Nat) (s : NetworkManager)
    (hnot : s.buttonPressed = false)
    (hsorted : List.Chain' (· ≤ ·) ((pollReadings env n s).map Prod.snd))
    (hshort : runsShort none (pollReadings env n s) = true) :
    (∀ r ∈ pollResults env n s, r = false) ∧
      ∀ k, k ≤ n → ButtonOnly s (pollState env k s) := by
  by_cases hpin : 0 ≤ s.resetButtonPin
  · exact (polls_short_aux env n).1 s hpin hnot hsorted hshort
  · obtain ⟨h1, h2⟩ := polls_unconfigured env n s (by omega)
    exact ⟨h1, fun k hk => by rw [h2 k hk]; exact buttonOnly_refl s⟩

theorem shortPress_timestamps :
    (pollReadings shortPressEnv 9 buttonState).map Prod.snd
      = [500, 1500, 2500, 3500, 4500, 5500, 6500, 7500, 8500] := by
  decide

theorem short_presses_do_nothing_witness :
    runsShort none (pollReadings shortPressEnv 9 buttonState) = true ∧
      (∀ r ∈ pollResults shortPressEnv 9 buttonState, r = false) ∧
      ∀ k, k ≤ 9 → ButtonOnly buttonState (pollState shortPressEnv k buttonState) :=
  ⟨by decide,
    short_presses_do_nothing shortPressEnv 9 buttonState rfl
      (by rw [shortPress_timestamps]; simp) (by decide)⟩

/-! ## Counting calls -/

theorem counted_false {p : Event → Bool} (hp : Counted p) (e : Event)
    (he : e.isCounted = false) : p e = false := by
  simp only [Event.isCounted, Bool.or_eq_false_iff] at he
  rcases hp with rfl | rfl | rfl | rfl
  · exact he.1.1.1
  · exact he.1.1.2
  · exact he.1.2
  · exact he.2

theorem cnt_log (p : Event → Bool) (s : NetworkManager) (e : Event) :
    cnt p (s.log e) = cnt p s + (if p e = true then 1 else 0) := by
  simp [cnt, log, List.countP_append, List.countP_cons]

theorem beginScan_cnt (env : Env) (s : NetworkManager) {p : Event → Bool} (hp : Counted p) :
    cnt p (beginScan env s) = cnt p s := by
  have hq := fun e he => counted_false hp e he
  simp only [beginScan, log, next, cnt]
  split_ifs <;> simp [List.countP_append, List.countP_cons, hq]

theorem startNetworkScan_cnt (env : Env) (s : NetworkManager) {p : Event → Bool}
    (hp : Counted p) : cnt p (startNetworkScan env s) = cnt p s := by
  simp only [startNetworkScan]
  split_ifs <;> first | rfl | exact beginScan_cnt env _ hp

theorem getNetworksJSON_trace (env : Env) (s : NetworkManager) :
    (getNetworksJSON env s).2.trace = s.trace := by
  simp only [getNetworksJSON, next]
  split_ifs <;> rfl

theorem updateScan_cnt (env : Env) (s : NetworkManager) {p : Event → Bool} (hp : Counted p) :
    cnt p (updateScan env s) = cnt p s := by
  have hq := fun e he => counted_false hp e he
  simp only [updateScan, log, next, cnt]
  split_ifs <;> simp [List.countP_append, List.countP_cons, hq, getNetworksJSON_trace]

theorem updateRetry_cnt (env : Env) (s : NetworkManager) {p : Event → Bool} (hp : Counted p) :
    cnt p (updateRetry env s) = cnt p s := by
  simp only [updateRetry]
  split_ifs <;> first | rfl | exact startNetworkScan_cnt env _ hp

theorem loadTimezoneSettings_cnt (s : NetworkManager) {p : Event → Bool} (hp : Counted p) :
    cnt p (loadTimezoneSettings s).2 = cnt p s := by
  have hq := fun e he => counted_false hp e he
  simp only [loadTimezoneSettings, removeLegacyKeys, log, cnt]
  split_ifs <;> simp [List.countP_append, List.countP_cons, hq]

theorem loadCredentials_cnt (s : NetworkManager) {p : Event → Bool} (hp : Counted p) :
    cnt p (loadCredentials s).2 = cnt p s := by
  have hq := fun e he => counted_false hp e he
  simp [loadCredentials, log, cnt, List.countP_append, List.countP_cons, hq]

theorem setupLoaded_cnt (s : NetworkManager) {p : Event → Bool} (hp : Counted p) :
    cnt p (setupLoaded s) = cnt p s := by
  have hq := fun e he => counted_false hp e he
  rw [setupLoaded, loadCredentials_cnt _ hp, loadTimezoneSettings_cnt _ hp]
  simp [log, cnt, List.countP_append, List.countP_cons, hq]

theorem initialScanWait_cnt (env : Env) (start fuel : Nat) (s : NetworkManager)
    {p : Event → Bool} (hp : Counted p) :
    cnt p (initialScanWait env start fuel s).state = cnt p s := by
  have hq := fun e he => counted_false hp e he
  induction fuel generalizing s with
  | zero =>
    simp only [initialScanWait]
    split_ifs <;> rfl
  | succ fuel ih =>
    rw [initialScanWait]
    dsimp only
    split_ifs
    all_goals
      first
        | rfl
        | (rw [ih]; simp [log, next, cnt, List.countP_append, List.countP_cons, hq])
        | simp [Outcome.state, log, next, cnt, List.countP_append, List.countP_cons, hq]

/-! ## The AP timeout -/

theorem beginScan_ap (env : Env) (s : NetworkManager) :
    (beginScan env s).apModeActive = s.apModeActive ∧
      (beginScan env s).apModeStartTime = s.apModeStartTime := by
  simp only [beginScan, log, next]
  split_ifs <;> exact ⟨rfl, rfl⟩

theorem startNetworkScan_ap (env : Env) (s : NetworkManager) :
    (startNetworkScan env s).apModeActive = s.apModeActive ∧
      (startNetworkScan env s).apModeStartTime = s.apModeStartTime := by
  simp only [startNetworkScan]
  split_ifs <;> first | exact ⟨rfl, rfl⟩ | exact beginScan_ap env _

theorem getNetworksJSON_ap (env : Env) (s : NetworkManager) :
    (getNetworksJSON env s).2.apModeActive = s.apModeActive ∧
      (getNetworksJSON env s).2.apModeStartTime = s.apModeStartTime := by
  simp only [getNetworksJSON, next]
  split_ifs <;> exact ⟨rfl, rfl⟩

theorem updateScan_ap (env : Env) (s : NetworkManager) :
    (updateScan env s).apModeActive = s.apModeActive ∧
      (updateScan env s).apModeStartTime = s.apModeStartTime := by
  simp only [updateScan, log, next]
  split_ifs <;> first | exact ⟨rfl, rfl⟩ | exact getNetworksJSON_ap env _

theorem updateRetry_ap (env : Env) (s : NetworkManager) :
    (updateRetry env s).apModeActive = s.apModeActive ∧
      (updateRetry env s).apModeStartTime = s.apModeStartTime := by
  simp only [updateRetry]
  split_ifs <;> first | exact ⟨rfl, rfl⟩ | exact startNetworkScan_ap env _

/-- `WebConfigServer::update` either reboots or returns; it changes nothing but the trace, to
which it adds no counted call, and a reboot ends the trace with the restart primitive. -/
theorem updateServer_cases (s : NetworkManager) :
    (∃ t, updateServer s = Outcome.ret () t ∧ t = { s with trace := t.trace } ∧
        ∀ p, Counted p → cnt p t = cnt p s) ∨
    (∃ t, updateServer s = Outcome.reboot t ∧ (∃ evs, t.trace = evs ++ [Event.espRestart]) ∧
        ∀ p, Counted p → cnt p t = cnt p s) := by
  simp only [updateServer]
  split
  · simp only [WebConfigServer.update, log]
    split_ifs
    all_goals
      first
        | (refine Or.inl ⟨_, rfl, rfl, fun p hp => ?_⟩
           have hq := fun e he => counted_false hp e he
           simp [cnt, List.countP_append, List.countP_cons, hq])
        | (refine Or.inr ⟨_, rfl, ⟨_, rfl⟩, fun p hp => ?_⟩
           have hq := fun e he => counted_false hp e he
           simp [cnt, List.countP_append, List.countP_cons, hq])
  · exact Or.inl ⟨s, rfl, rfl, fun _ _ => rfl⟩

/-- In AP mode with no scan in flight, no retry pending and a running setup server that has no
reboot pending, `update()` polls the DNS server and is then its AP branch. -/
theorem update_ap_eq (env : Env) (fuel : Nat) (s : NetworkManager)
    (hscan : s.scanInProgress = false) (hcount : s.scanRetryCount = 0)
    (hap : s.apModeActive = true)
    (hserver : s.webConfigServer
      = some (WebConfigServer.construct.start ServerMode.MODE_SETUP)) :
    update env fuel s = updateAP env fuel (s.log Event.dnsProcess) := by
  have h1 : updateScan env s = s := by simp [updateScan, hscan]
  have h2 : updateRetry env s = s := by simp [updateRetry, hcount]
  have hu : updateServer s = Outcome.ret () (s.log Event.dnsProcess) := by
    simp [updateServer, hserver, WebConfigServer.update, WebConfigServer.start,
      WebConfigServer.construct]
  simp only [update, h1, h2, hu, Outcome.bind]
  have hlog : (s.log Event.dnsProcess).apModeActive = true := hap
  simp only [hlog, if_true]

set_option maxRecDepth 1000000 in
/-- C20 (counterexample). A controller in AP mode since time 0 calls `update()` when the clock
shows 599 s: the session age read at line 169 is 599000 ms, below the timeout, so the call
makes a reconnection attempt, which fails after 20 s.  The call returns in AP mode without
having invoked the restart primitive; the last clock reading it took shows a session of
619100 ms, and the reading that follows the call one of 619300 ms: the call leaves the
controller in AP mode with a session older than 10 minutes and no reboot. -/
theorem ap_session_outlives_timeout :
    waitingApState.apModeActive = true ∧
    sub32 (millis lateEnv waitingApState) waitingApState.apModeStartTime = 599000 ∧
    (update lateEnv 200 waitingApState).isRet = true ∧
    (update lateEnv 200 waitingApState).state.apModeActive = true ∧
    cnt Event.isRestart (update lateEnv 200 waitingApState).state = 0 ∧
    cnt Event.isWifiBegin (update lateEnv 200 waitingApState).state = 1 ∧
    (update lateEnv 200 waitingApState).state.tick = 203 ∧
    sub32 (lateEnv.clock 201 % U32) (update lateEnv 200 waitingApState).state.apModeStartTime
      = 619100 ∧
    sub32 (millis lateEnv (update lateEnv 200 waitingApState).state)
      (update lateEnv 200 waitingApState).state.apModeStartTime = 619300 ∧
    apModeTimeout ≤ 619100 := by
  rw [update_ap_eq lateEnv 200 waitingApState (by decide) (by decide) (by decide) (by decide)]
  decide

/-- C20 (amended). AP timeout: in AP mode, when the clock reading `now` that `update()` takes
at the top of its AP branch (line 169) satisfies `now - apModeStartTime >= 600000` (modulo
`2^32`), `update()` ends in the restart primitive, which is the last call it makes, and it has
made no association attempt; hence an `update()` that returns in AP mode has read a session
age below 600000 ms. -/
theorem update_ap_timeout (env : Env) (fuel : Nat) (s : NetworkManager)
    (hap : s.apModeActive = true) :
    (apModeTimeout ≤ sub32 (millis env (updateRetry env (updateScan env s))) s.apModeStartTime →
      ∃ t, update env fuel s = Outcome.reboot t ∧
        (∃ evs, t.trace = evs ++ [Event.espRestart]) ∧
        cnt Event.isWifiBegin t = cnt Event.isWifiBegin s) ∧
    (∀ t, update env fuel s = Outcome.ret () t →
      sub32 (millis env (updateRetry env (updateScan env s))) s.apModeStartTime
        < apModeTimeout) := by
  have hw : Counted Event.isWifiBegin := Or.inl rfl
  have hap1 : (updateRetry env (updateScan env s)).apModeActive = true := by
    rw [(updateRetry_ap env _).1, (updateScan_ap env s).1, hap]
  have hst1 : (updateRetry env (updateScan env s)).apModeStartTime = s.apModeStartTime := by
    rw [(updateRetry_ap env _).2, (updateScan_ap env s).2]
  have hc1 : cnt Event.isWifiBegin (updateRetry env (updateScan env s))
      = cnt Event.isWifiBegin s := by
    rw [updateRetry_cnt env _ hw, updateScan_cnt env s hw]
  have main : apModeTimeout
        ≤ sub32 (millis env (updateRetry env (updateScan env s))) s.apModeStartTime →
      ∃ t, update env fuel s = Outcome.reboot t ∧
        (∃ evs, t.trace = evs ++ [Event.espRestart]) ∧
        cnt Event.isWifiBegin t = cnt Event.isWifiBegin s := by
    intro hold
    rcases updateServer_cases (updateRetry env (updateScan env s)) with
      ⟨t, ht, hframe, hcnt⟩ | ⟨t, ht, hlast, hcnt⟩
    · have hapt : t.apModeActive = true := by rw [hframe]; exact hap1
      have hstt : t.apModeStartTime = s.apModeStartTime := by rw [hframe]; exact hst1
      have htick : millis env t = millis env (updateRetry env (updateScan env s)) := by
        rw [hframe]; rfl
      have hold' : apModeTimeout ≤ sub32 (millis env t) t.apModeStartTime := by
        rw [htick, hstt]; exact hold
      have heq : update env fuel s
          = Outcome.reboot ((t.next.log (Event.delay 1000)).log Event.espRestart) := by
        have hge : sub32 (millis env t) t.next.apModeStartTime ≥ apModeTimeout := hold'
        simp only [update, ht, Outcome.bind, hapt, if_true]
        simp only [updateAP, if_pos hge]
      refine ⟨_, heq, ⟨t.next.trace ++ [Event.delay 1000], rfl⟩, ?_⟩
      have hlog : cnt Event.isWifiBegin ((t.next.log (Event.delay 1000)).log Event.espRestart)
          = cnt Event.isWifiBegin t := by
        simp [cnt, log, next, List.countP_append, List.countP_cons]
      rw [hlog]
      exact (hcnt _ hw).trans hc1
    · refine ⟨t, ?_, hlast, (hcnt _ hw).trans hc1⟩
      simp only [update, ht, Outcome.bind]
  refine ⟨main, fun t ht => ?_⟩
  by_contra hnot
  obtain ⟨t', ht', -⟩ := main (by omega)
  rw [ht] at ht'
  cases ht'

theorem update_ap_timeout_witness :
    (∃ t, update failingEnv 5 oldSessionState = Outcome.reboot t ∧
        (∃ evs, t.trace = evs ++ [Event.espRestart]) ∧
        cnt Event.isWifiBegin t = cnt Event.isWifiBegin oldSessionState) :=
  (update_ap_timeout failingEnv 5 oldSessionState rfl).1 (by decide)

/-! ## Startup without credentials -/

theorem startAPMode_eq (env : Env) (fuel : Nat) (s : NetworkManager) :
    startAPMode env fuel s =
      (initialScanWait env (millis env (apPrepared env s)) fuel (apPrepared env s).next).bind
        fun _ t => Outcome.ret () (apFinish t) :=
  rfl

theorem apPrepared_ap (env : Env) (s : NetworkManager) :
    (apPrepared env s).apModeActive = true := by
  simp only [apPrepared]
  rw [(startNetworkScan_ap env _).1]
  rfl

theorem apPrepared_cnt (env : Env) (s : NetworkManager) {p : Event → Bool} (hp : Counted p) :
    cnt p (apPrepared env s) = cnt p s := by
  have hq := fun e he => counted_false hp e he
  simp only [apPrepared]
  rw [startNetworkScan_cnt env _ hp]
  simp [cnt, log, next, List.countP_append, List.countP_cons, hq]

theorem initialScanWait_ap (env : Env) (start fuel : Nat) (s : NetworkManager) :
    (initialScanWait env start fuel s).state.apModeActive = s.apModeActive := by
  induction fuel generalizing s with
  | zero =>
    simp only [initialScanWait]
    split_ifs <;> rfl
  | succ fuel ih =>
    rw [initialScanWait]
    dsimp only
    split_ifs
    all_goals first | rfl | (rw [ih]; rfl)

theorem initialScanWait_no_reboot (env : Env) (start fuel : Nat) (s t : NetworkManager) :
    initialScanWait env start fuel s ≠ Outcome.reboot t := by
  induction fuel generalizing s with
  | zero =>
    simp only [initialScanWait]
    split_ifs <;> simp
  | succ fuel ih =>
    rw [initialScanWait]
    dsimp only
    split_ifs
    all_goals first | exact ih _ | simp

/-- The wait for the initial scan returns once the clock has advanced by 15 s: with a steady
clock, `fuel` passes are enough when `100 * fuel` covers what is left of the 15 s. -/
theorem initialScanWait_returns (env : Env) (hc : SteadyClock env) (c0 fuel : Nat)
    (s : NetworkManager) (h0 : c0 ≤ env.clock s.tick)
    (h1 : env.clock s.tick - c0 ≤ 3615000)
    (h2 : 15000 ≤ 100 * fuel + (env.clock s.tick - c0)) :
    ∃ t, initialScanWait env (c0 % U32) fuel s = Outcome.ret () t := by
  have hsub : ∀ u : NetworkManager, c0 ≤ env.clock u.tick → env.clock u.tick - c0 ≤ 3615000 →
      sub32 (millis env u) (c0 % U32) = env.clock u.tick - c0 := by
    intro u hu0 hu1
    simp only [sub32, millis, U32]
    omega
  induction fuel generalizing s with
  | zero =>
    simp only [initialScanWait, hsub s h0 h1]
    split_ifs
    all_goals first | exact ⟨_, rfl⟩ | omega
  | succ fuel ih =>
    rw [initialScanWait]
    dsimp only
    rw [hsub s h0 h1]
    obtain ⟨-, hlo, hhi⟩ := hc s.tick
    have ht : (((s.next).log (Event.delay 100)).next).tick = s.tick + 2 := rfl
    split_ifs
    all_goals
      first
        | exact ⟨_, rfl⟩
        | (apply ih
           · rw [ht]; omega
           · rw [ht]; omega
           · rw [ht]; omega)

theorem apFinish_spec (s : NetworkManager) :
    (apFinish s).apModeActive = s.apModeActive ∧
      (apFinish s).webConfigServer
        = some { server := true, dnsServer := true, running := true, shouldReboot := false,
                 mode := ServerMode.MODE_SETUP } ∧
      (∃ evs, (apFinish s).trace
        = evs ++ [Event.serverNew, Event.serverStart ServerMode.MODE_SETUP]) ∧
      cnt Event.isWifiBegin (apFinish s) = cnt Event.isWifiBegin s ∧
      cnt Event.isServerNew (apFinish s) = cnt Event.isServerNew s + 1 ∧
      cnt Event.isServerStart (apFinish s) = cnt Event.isServerStart s + 1 := by
  simp only [apFinish, log, cnt]
  split_ifs
  · refine ⟨rfl, rfl, ⟨s.trace ++ [Event.scanDelete], by simp⟩, ?_, ?_, ?_⟩ <;>
      simp [List.countP_append, List.countP_cons]
  · refine ⟨rfl, rfl, ⟨s.trace, by simp⟩, ?_, ?_, ?_⟩ <;>
      simp [List.countP_append, List.countP_cons]

theorem setupLoaded_ssid (s : NetworkManager) :
    (setupLoaded s).storedSSID = persistedSSID s ∧
      (loadCredentials (loadTimezoneSettings
        ((s.log (Event.wifiMode WifiMode.WIFI_STA)).log
          (Event.wifiSetAutoReconnect false))).2).1 = decide ((persistedSSID s).length > 0) := by
  have h : persistedSSID (loadTimezoneSettings
      ((s.log (Event.wifiMode WifiMode.WIFI_STA)).log (Event.wifiSetAutoReconnect false))).2
      = persistedSSID s := by
    rw [persistedSSID_congr (loadTimezoneSettings_wifi _)]
    rfl
  obtain ⟨e1, e2, -, -⟩ := loadCredentials_eq (loadTimezoneSettings
      ((s.log (Event.wifiMode WifiMode.WIFI_STA)).log (Event.wifiSetAutoReconnect false))).2
  constructor
  · rw [setupLoaded, e2]
    exact h
  · rw [e1]
    exact congrArg (fun x : String => decide (x.length > 0)) h

theorem setup_eq (env : Env) (fuel : Nat) (s : NetworkManager) :
    setup env fuel s =
      if (persistedSSID s).length > 0 then
        (connectToWiFi env fuel (setupLoaded s)).bind fun ok t =>
          if ok then
            Outcome.ret ()
              (startNormalModeWebServer env { syncTimeWithNTP env t with apModeActive := false })
          else startAPMode env fuel t
      else startAPMode env fuel (setupLoaded s) := by
  obtain ⟨h1, h2⟩ := setupLoaded_ssid s
  have h3 : (loadCredentials (loadTimezoneSettings
      ((s.log (Event.wifiMode WifiMode.WIFI_STA)).log
        (Event.wifiSetAutoReconnect false))).2).2.storedSSID = persistedSSID s := h1
  simp only [setup, h2, h3, decide_eq_true_eq, and_self]
  rfl

theorem startAPMode_spec (env : Env) (fuel : Nat) (s : NetworkManager) :
    (startAPMode env fuel s).state.apModeActive = true ∧
      cnt Event.isWifiBegin (startAPMode env fuel s).state = cnt Event.isWifiBegin s ∧
      (∀ t, startAPMode env fuel s ≠ Outcome.reboot t) ∧
      (∀ t, startAPMode env fuel s = Outcome.ret () t →
        t.webConfigServer
          = some { server := true, dnsServer := true, running := true, shouldReboot := false,
                   mode := ServerMode.MODE_SETUP } ∧
        (∃ evs, t.trace = evs ++ [Event.serverNew, Event.serverStart ServerMode.MODE_SETUP]) ∧
        cnt Event.isServerNew t = cnt Event.isServerNew s + 1 ∧
        cnt Event.isServerStart t = cnt Event.isServerStart s + 1) ∧
      (SteadyClock env → 150 ≤ fuel → ∃ t, startAPMode env fuel s = Outcome.ret () t) := by
  have hw : Counted Event.isWifiBegin := Or.inl rfl
  have hn : Counted Event.isServerNew := Or.inr (Or.inr (Or.inl rfl))
  have hs : Counted Event.isServerStart := Or.inr (Or.inr (Or.inr rfl))
  have hap := initialScanWait_ap env (millis env (apPrepared env s)) fuel (apPrepared env s).next
  have hcnt := fun (p : Event → Bool) (hp : Counted p) =>
    initialScanWait_cnt env (millis env (apPrepared env s)) fuel (apPrepared env s).next hp
  have hnr := initialScanWait_no_reboot env (millis env (apPrepared env s)) fuel
    (apPrepared env s).next
  have hpre : (apPrepared env s).next.apModeActive = true := apPrepared_ap env s
  have hprecnt : ∀ p, Counted p → cnt p (apPrepared env s).next = cnt p s :=
    fun p hp => apPrepared_cnt env s hp
  rw [startAPMode_eq]
  refine ⟨?_, ?_, ?_, ?_, ?_⟩
  · cases ho : initialScanWait env (millis env (apPrepared env s)) fuel (apPrepared env s).next
    all_goals
      rw [ho] at hap
      simp only [Outcome.bind, Outcome.state] at hap ⊢
    · rw [(apFinish_spec _).1, hap, hpre]
    · rw [hap, hpre]
    · rw [hap, hpre]
  · cases ho : initialScanWait env (millis env (apPrepared env s)) fuel (apPrepared env s).next
    all_goals
      have hc := hcnt _ hw
      rw [ho] at hc
      simp only [Outcome.bind, Outcome.state] at hc ⊢
    · rw [(apFinish_spec _).2.2.2.1, hc, hprecnt _ hw]
    · rw [hc, hprecnt _ hw]
    · rw [hc, hprecnt _ hw]
  · intro t
    cases ho : initialScanWait env (millis env (apPrepared env s)) fuel (apPrepared env s).next
    · simp [Outcome.bind]
    · exact absurd ho (hnr _)
    · simp [Outcome.bind]
  · intro t ht
    cases ho : initialScanWait env (millis env (apPrepared env s)) fuel (apPrepared env s).next
    all_goals
      rw [ho] at ht
      simp only [Outcome.bind] at ht
    · have hc1 := hcnt _ hn
      have hc2 := hcnt _ hs
      rw [ho] at hc1 hc2
      simp only [Outcome.state] at hc1 hc2
      injection ht with _ ht
      subst ht
      obtain ⟨-, e1, e2, -, e3, e4⟩ := apFinish_spec ‹NetworkManager›
      exact ⟨e1, e2, by rw [e3, hc1, hprecnt _ hn], by rw [e4, hc2, hprecnt _ hs]⟩
    · cases ht
    · cases ht
  · intro hc hfuel
    obtain ⟨-, -, hhi⟩ := hc (apPrepared env s).tick
    obtain ⟨hmono, -, -⟩ := hc (apPrepared env s).tick
    obtain ⟨hmono2, -, -⟩ := hc ((apPrepared env s).tick + 1)
    rw [show (apPrepared env s).tick + 1 + 1 = (apPrepared env s).tick + 2 from rfl] at hmono2
    have ht : (apPrepared env s).next.tick = (apPrepared env s).tick + 1 := rfl
    obtain ⟨t, ht'⟩ := initialScanWait_returns env hc (env.clock (apPrepared env s).tick) fuel
      (apPrepared env s).next (by rw [ht]; exact hmono) (by rw [ht]; omega) (by omega)
    have hm : millis env (apPrepared env s) = env.clock (apPrepared env s).tick % U32 := rfl
    rw [hm, ht']
    exact ⟨_, rfl⟩

/-- C18. For every flash store whose ssid is absent or empty, `setup()` makes no association
attempt (no `WiFi.begin` is added to the trace), reaches a state with `isInAPMode() = true`
and `isConnected() = false`, never reboots, and when it returns it has created one server and
started it in captive-portal mode (`MODE_SETUP`, with the DNS server), as its last two calls.
It returns whenever the wait for the initial scan ends: with a steady clock 150 passes of
that loop are enough. -/
theorem setup_without_credentials (env : Env) (fuel : Nat) (s : NetworkManager)
    (h : persistedSSID s = "") :
    cnt Event.isWifiBegin (setup env fuel s).state = cnt Event.isWifiBegin s ∧
      (setup env fuel s).state.isInAPMode = true ∧
      (∀ env', (isConnected env' (setup env fuel s).state).1 = false) ∧
      (∀ t, setup env fuel s ≠ Outcome.reboot t) ∧
      (∀ t, setup env fuel s = Outcome.ret () t →
        t.webConfigServer
          = some { server := true, dnsServer := true, running := true, shouldReboot := false,
                   mode := ServerMode.MODE_SETUP } ∧
        (∃ evs, t.trace = evs ++ [Event.serverNew, Event.serverStart ServerMode.MODE_SETUP]) ∧
        cnt Event.isServerNew t = cnt Event.isServerNew s + 1 ∧
        cnt Event.isServerStart t = cnt Event.isServerStart s + 1) ∧
      (SteadyClock env → 150 ≤ fuel → ∃ t, setup env fuel s = Outcome.ret () t) := by
  have hlen : ¬ (persistedSSID s).length > 0 := by rw [h]; decide
  have heq : setup env fuel s = startAPMode env fuel (setupLoaded s) := by
    rw [setup_eq, if_neg hlen]
  obtain ⟨a1, a2, a3, a4, a5⟩ := startAPMode_spec env fuel (setupLoaded s)
  rw [heq]
  refine ⟨?_, a1, fun env' => ?_, a3, fun t ht => ?_, a5⟩
  · rw [a2, setupLoaded_cnt s (Or.inl rfl)]
  · simp [isConnected, a1]
  · obtain ⟨b1, b2, b3, b4⟩ := a4 t ht
    exact ⟨b1, b2, by rw [b3, setupLoaded_cnt s (Or.inr (Or.inr (Or.inl rfl)))],
      by rw [b4, setupLoaded_cnt s (Or.inr (Or.inr (Or.inr rfl)))]⟩

theorem steadyClock_failingEnv : SteadyClock failingEnv := by
  intro k
  simp only [failingEnv]
  omega

theorem setup_without_credentials_witness :
    (∃ t, setup failingEnv 200 (construct 0 0 [] 0) = Outcome.ret () t) ∧
      (setup failingEnv 200 (construct 0 0 [] 0)).state.isInAPMode = true ∧
      cnt Event.isWifiBegin (setup failingEnv 200 (construct 0 0 [] 0)).state
        = cnt Event.isWifiBegin (construct 0 0 [] 0) :=
  ⟨(setup_without_credentials failingEnv 200 (construct 0 0 [] 0) (by decide)).2.2.2.2.2
      steadyClock_failingEnv (by decide),
    (setup_without_credentials failingEnv 200 (construct 0 0 [] 0) (by decide)).2.1,
    (setup_without_credentials failingEnv 200 (construct 0 0 [] 0) (by decide)).1⟩

/-! ## Startup with credentials -/

theorem clearAllSettings_cnt (s : NetworkManager) {p : Event → Bool} (hp : Counted p) :
    cnt p s.clearAllSettings = cnt p s := by
  have hq := fun e he => counted_false hp e he
  simp [clearAllSettings, log, cnt, List.countP_append, List.countP_cons, hq]

theorem checkResetButton_cnt (env : Env) (s : NetworkManager) {p : Event → Bool}
    (hp : Counted p) : cnt p (checkResetButton env s).2 = cnt p s := by
  simp only [checkResetButton]
  split_ifs <;> first | rfl | exact clearAllSettings_cnt _ hp

theorem checkResetButton_server (env : Env) (s : NetworkManager) :
    (checkResetButton env s).2.webConfigServer = s.webConfigServer := by
  simp only [checkResetButton]
  split_ifs <;> rfl

theorem cnt_next (p : Event → Bool) (s : NetworkManager) : cnt p s.next = cnt p s := rfl

theorem connectWait_cnt (env : Env) (start fuel : Nat) (s : NetworkManager)
    {p : Event → Bool} (hp : Counted p) :
    cnt p (connectWait env start fuel s).state = cnt p s := by
  have h100 : p (Event.delay 100) = false := counted_false hp _ rfl
  have h1000 : p (Event.delay 1000) = false := counted_false hp _ rfl
  have hre : p Event.espRestart = false := counted_false hp _ rfl
  have hd : ∀ u : NetworkManager, cnt p (checkResetButton env (u.log (Event.delay 100))).2
      = cnt p u := by
    intro u
    rw [checkResetButton_cnt env _ hp, cnt_log, h100]
    rfl
  induction fuel generalizing s with
  | zero =>
    simp only [connectWait]
    split_ifs <;> rfl
  | succ fuel ih =>
    rw [connectWait]
    dsimp only
    split_ifs
    all_goals
      first
        | rfl
        | (rw [ih, hd]; rfl)
        | (simp only [Outcome.state, cnt_log, hd, h1000, hre, cnt_next]; rfl)

theorem connectWait_server (env : Env) (start fuel : Nat) (s : NetworkManager) :
    (connectWait env start fuel s).state.webConfigServer = s.webConfigServer := by
  induction fuel generalizing s with
  | zero =>
    simp only [connectWait]
    split_ifs <;> rfl
  | succ fuel ih =>
    rw [connectWait]
    dsimp only
    split_ifs
    all_goals
      first
        | rfl
        | exact checkResetButton_server env _
        | (rw [ih, checkResetButton_server]; rfl)

theorem connectToWiFi_cnt (env : Env) (fuel : Nat) (s : NetworkManager)
    (hssid : s.storedSSID.length ≠ 0) {p : Event → Bool} (hp : Counted p) :
    cnt p (connectToWiFi env fuel s).state
      = cnt p s + (if p (Event.wifiBegin s.storedSSID s.storedPassword) = true then 1 else 0) := by
  have hm : p (Event.wifiMode WifiMode.WIFI_STA) = false := counted_false hp _ rfl
  have hbind : ∀ (o : Outcome Unit),
      (o.bind fun _ t => Outcome.ret (env.wifiConnected t.tick) t.next).state.trace
        = o.state.trace := by
    intro o
    cases o <;> rfl
  have hb : ∀ u : NetworkManager, ∀ st : Nat,
      cnt p ((connectWait env st fuel u).bind fun _ t =>
        Outcome.ret (env.wifiConnected t.tick) t.next).state = cnt p u := by
    intro u st
    have := connectWait_cnt env st fuel u hp
    simp only [cnt] at this ⊢
    rw [hbind, this]
  simp only [connectToWiFi, if_neg hssid]
  by_cases ha : s.apModeActive = true
  · simp only [ha, not_true_eq_false, if_false]
    rw [hb, cnt_next, cnt_log]
  · have haf : s.apModeActive = false := by simpa using ha
    simp only [haf, Bool.false_eq_true, not_false_eq_true, if_true]
    rw [hb, cnt_next, cnt_log, cnt_log, hm]
    simp [log]

theorem connectToWiFi_server (env : Env) (fuel : Nat) (s : NetworkManager) :
    (connectToWiFi env fuel s).state.webConfigServer = s.webConfigServer := by
  have hb : ∀ u : NetworkManager, ∀ st : Nat,
      ((connectWait env st fuel u).bind fun _ t =>
        Outcome.ret (env.wifiConnected t.tick) t.next).state.webConfigServer
        = u.webConfigServer := by
    intro u st
    have := connectWait_server env st fuel u
    cases ho : connectWait env st fuel u <;> (rw [ho] at this; exact this)
  simp only [connectToWiFi]
  split_ifs
  all_goals first | rfl | (rw [hb]; rfl)

theorem ntpWait_facts (env : Env) (n : Nat) (s : NetworkManager) :
    (ntpWait env n s).2.webConfigServer = s.webConfigServer ∧
      (ntpWait env n s).2.tzString = s.tzString ∧
      s.tick ≤ (ntpWait env n s).2.tick ∧
      ∀ p, Counted p → cnt p (ntpWait env n s).2 = cnt p s := by
  induction n generalizing s with
  | zero => exact ⟨rfl, rfl, le_refl _, fun _ _ => rfl⟩
  | succ n ih =>
    simp only [ntpWait]
    split_ifs
    · exact ⟨rfl, rfl, Nat.le_succ _, fun _ _ => rfl⟩
    · obtain ⟨h1, h2, h3, h4⟩ := ih (s.next.log (Event.delay 500))
      refine ⟨h1, h2, le_trans (Nat.le_succ _) h3, fun p hp => ?_⟩
      rw [h4 p hp, cnt_log, counted_false hp (Event.delay 500) rfl]
      rfl

theorem syncTimeWithNTP_facts (env : Env) (s : NetworkManager) :
    (syncTimeWithNTP env s).webConfigServer = s.webConfigServer ∧
      s.tick ≤ (syncTimeWithNTP env s).tick ∧
      cnt Event.isConfigTime (syncTimeWithNTP env s) = cnt Event.isConfigTime s + 1 ∧
      cnt Event.isWifiBegin (syncTimeWithNTP env s) = cnt Event.isWifiBegin s ∧
      cnt Event.isServerNew (syncTimeWithNTP env s) = cnt Event.isServerNew s ∧
      cnt Event.isServerStart (syncTimeWithNTP env s) = cnt Event.isServerStart s := by
  obtain ⟨h1, -, h3, h4⟩ := ntpWait_facts env 20 (s.log Event.configTime)
  have hc := h4 _ (Or.inr (Or.inl rfl) : Counted Event.isConfigTime)
  have hw := h4 _ (Or.inl rfl : Counted Event.isWifiBegin)
  have hn := h4 _ (Or.inr (Or.inr (Or.inl rfl)) : Counted Event.isServerNew)
  have hs := h4 _ (Or.inr (Or.inr (Or.inr rfl)) : Counted Event.isServerStart)
  have ht : s.tick ≤ (ntpWait env 20 (s.log Event.configTime)).2.tick := h3
  have h1' : (ntpWait env 20 (s.log Event.configTime)).2.webConfigServer = s.webConfigServer :=
    h1
  rw [cnt_log] at hc hw hn hs
  simp only [Event.isConfigTime, Event.isWifiBegin, Event.isServerNew, Event.isServerStart,
    if_true, Bool.false_eq_true, if_false, add_zero] at hc hw hn hs
  simp only [syncTimeWithNTP]
  generalize ntpWait env 20 (s.log Event.configTime) = r at *
  split_ifs
  · refine ⟨h1', ?_, ?_, ?_, ?_, ?_⟩
    · simp only [next, log]
      omega
    · simpa [cnt, log, next, List.countP_append, List.countP_cons] using hc
    · simpa [cnt, log, next, List.countP_append, List.countP_cons] using hw
    · simpa [cnt, log, next, List.countP_append, List.countP_cons] using hn
    · simpa [cnt, log, next, List.countP_append, List.countP_cons] using hs
  · refine ⟨h1', ?_, ?_, ?_, ?_, ?_⟩
    · simp only [next, log]
      omega
    · simpa [cnt, log, next, List.countP_append, List.countP_cons] using hc
    · simpa [cnt, log, next, List.countP_append, List.countP_cons] using hw
    · simpa [cnt, log, next, List.countP_append, List.countP_cons] using hn
    · simpa [cnt, log, next, List.countP_append, List.countP_cons] using hs


theorem setupLoaded_server (s : NetworkManager) :
    (setupLoaded s).webConfigServer = s.webConfigServer := by
  simp only [setupLoaded, loadCredentials, loadTimezoneSettings, removeLegacyKeys, log]
  split_ifs <;> rfl

/-- With no server object yet, outside AP mode and with the radio connected,
`startNormalModeWebServer` creates a server and starts it in `MODE_NORMAL`. -/
theorem startNormalModeWebServer_fresh (env : Env) (s : NetworkManager)
    (hsrv : s.webConfigServer = none) (hap : s.apModeActive = false)
    (hc : env.wifiConnected s.tick = true) :
    startNormalModeWebServer env s =
      { (s.next.log Event.serverNew).log (Event.serverStart ServerMode.MODE_NORMAL) with
        webConfigServer :=
          some { server := true, dnsServer := false, running := true, shouldReboot := false,
                 mode := ServerMode.MODE_NORMAL } } := by
  simp [startNormalModeWebServer, isConnected, hsrv, hap, hc, WebConfigServer.construct,
    WebConfigServer.start]

/-- C19. For every flash store with a non-empty ssid and a controller that holds no server
object yet: when the association attempt of `setup()` succeeds (`connectToWiFi()` returns true,
in the state `s3`) and the radio reports connected from then on, `setup()` returns in station
mode (`isInAPMode() = false`).  It has started the time sync exactly once, and after the
association: when the association returned, `WiFi.begin` had been called once and no sync had
been started, and no `WiFi.begin` follows.  It has created and started exactly one server, as
its last two calls, in `MODE_NORMAL` and without the captive-portal DNS server. -/
theorem setup_with_credentials (env : Env) (fuel : Nat) (s s3 : NetworkManager)
    (hsrv : s.webConfigServer = none) (hssid : persistedSSID s ≠ "")
    (hconn : connectToWiFi env fuel (setupLoaded s) = Outcome.ret true s3)
    (hstay : ∀ k, s3.tick ≤ k → env.wifiConnected k = true) :
    ∃ t, setup env fuel s = Outcome.ret () t ∧ t.isInAPMode = false ∧
      cnt Event.isWifiBegin s3 = cnt Event.isWifiBegin s + 1 ∧
      cnt Event.isConfigTime s3 = cnt Event.isConfigTime s ∧
      cnt Event.isConfigTime t = cnt Event.isConfigTime s + 1 ∧
      cnt Event.isWifiBegin t = cnt Event.isWifiBegin s3 ∧
      cnt Event.isServerNew t = cnt Event.isServerNew s + 1 ∧
      cnt Event.isServerStart t = cnt Event.isServerStart s + 1 ∧
      (∃ evs, t.trace = evs ++ [Event.serverNew, Event.serverStart ServerMode.MODE_NORMAL]) ∧
      t.webConfigServer
        = some { server := true, dnsServer := false, running := true, shouldReboot := false,
                 mode := ServerMode.MODE_NORMAL } := by
  have hlen : (persistedSSID s).length > 0 := by
    rcases Nat.eq_zero_or_pos (persistedSSID s).length with h | h
    · exact absurd ((string_length_eq_zero_iff _).mp h) hssid
    · exact h
  have hstored : (setupLoaded s).storedSSID.length ≠ 0 := by
    rw [(setupLoaded_ssid s).1]
    omega
  have hstate : (connectToWiFi env fuel (setupLoaded s)).state = s3 := by rw [hconn]; rfl
  have hcnt : ∀ p, Counted p → cnt p s3
      = cnt p s + (if p (Event.wifiBegin (setupLoaded s).storedSSID
          (setupLoaded s).storedPassword) = true then 1 else 0) := by
    intro p hp
    rw [← hstate, connectToWiFi_cnt env fuel _ hstored hp, setupLoaded_cnt s hp]
  have hw3 := hcnt _ (Or.inl rfl : Counted Event.isWifiBegin)
  have hc3 := hcnt _ (Or.inr (Or.inl rfl) : Counted Event.isConfigTime)
  have hn3 := hcnt _ (Or.inr (Or.inr (Or.inl rfl)) : Counted Event.isServerNew)
  have hs3 := hcnt _ (Or.inr (Or.inr (Or.inr rfl)) : Counted Event.isServerStart)
  simp only [Event.isConfigTime, Event.isWifiBegin, Event.isServerNew, Event.isServerStart,
    if_true, Bool.false_eq_true, if_false, add_zero] at hw3 hc3 hn3 hs3
  have hsrv3 : s3.webConfigServer = none := by
    rw [← hstate, connectToWiFi_server, setupLoaded_server, hsrv]
  obtain ⟨f1, f2, f3, f4, f5, f6⟩ := syncTimeWithNTP_facts env s3
  have hfresh := startNormalModeWebServer_fresh env
    { syncTimeWithNTP env s3 with apModeActive := false }
    (f1.trans hsrv3) rfl (hstay _ f2)
  have heq : setup env fuel s = Outcome.ret ()
      (startNormalModeWebServer env { syncTimeWithNTP env s3 with apModeActive := false }) := by
    rw [setup_eq, if_pos hlen, hconn]
    rfl
  refine ⟨_, heq, ?_, hw3, hc3, ?_, ?_, ?_, ?_, ?_, ?_⟩
  · rw [hfresh]
    rfl
  · rw [hfresh, ← hc3, ← f3]
    simp [cnt, log, next, List.countP_append, List.countP_cons]
  · rw [hfresh, ← f4]
    simp [cnt, log, next, List.countP_append, List.countP_cons]
  · rw [hfresh, ← hn3, ← f5]
    simp [cnt, log, next, List.countP_append, List.countP_cons]
  · rw [hfresh, ← hs3, ← f6]
    simp [cnt, log, next, List.countP_append, List.countP_cons]
  · rw [hfresh]
    exact ⟨(syncTimeWithNTP env s3).trace, by simp [log, next]⟩
  · rw [hfresh]

theorem setup_with_credentials_witness :
    ∃ t, setup onlineEnv 5 sampleState = Outcome.ret () t ∧ t.isInAPMode = false ∧
      cnt Event.isWifiBegin (connectToWiFi onlineEnv 5 (setupLoaded sampleState)).state
        = cnt Event.isWifiBegin sampleState + 1 ∧
      cnt Event.isConfigTime (connectToWiFi onlineEnv 5 (setupLoaded sampleState)).state
        = cnt Event.isConfigTime sampleState ∧
      cnt Event.isConfigTime t = cnt Event.isConfigTime sampleState + 1 ∧
      cnt Event.isWifiBegin t
        = cnt Event.isWifiBegin (connectToWiFi onlineEnv 5 (setupLoaded sampleState)).state ∧
      cnt Event.isServerNew t = cnt Event.isServerNew sampleState + 1 ∧
      cnt Event.isServerStart t = cnt Event.isServerStart sampleState + 1 ∧
      (∃ evs, t.trace = evs ++ [Event.serverNew, Event.serverStart ServerMode.MODE_NORMAL]) ∧
      t.webConfigServer
        = some { server := true, dnsServer := false, running := true, shouldReboot := false,
                 mode := ServerMode.MODE_NORMAL } :=
  setup_with_credentials onlineEnv 5 sampleState
    (connectToWiFi onlineEnv 5 (setupLoaded sampleState)).state rfl (by decide) rfl
    (fun _ _ => rfl)

/-! ## The serialized network list -/
theorem intercalate_go_append (p a sep : String) (l : List String) :
    String.intercalate.go (p ++ a) sep l = p ++ String.intercalate.go a sep l := by
  induction l generalizing a with
  | nil => simp [String.intercalate.go]
  | cons b l ih =>
    simp only [String.intercalate.go]
    rw [← ih]
    simp [String.append_assoc]

theorem buildNetworksFold_go (table : Nat → ScanEntry) (l : List Nat) (json : String) (k : Nat) :
    (l.foldl (buildNetworksStep table) (json, k + 1)).1 =
      String.intercalate.go json "," ((listedNetworks (l.map table)).map networkObject) ∧
    (l.foldl (buildNetworksStep table) (json, k + 1)).2 =
      k + 1 + (listedNetworks (l.map table)).length := by
  induction l generalizing json k with
  | nil => simp [listedNetworks, String.intercalate.go]
  | cons i l ih =>
    by_cases h : (table i).ssid.length = 0
    · simp only [List.foldl_cons, buildNetworksStep, h, if_true, List.map_cons, listedNetworks,
        List.filter_cons]
      simpa [listedNetworks] using ih json k
    · have hstep : buildNetworksStep table (json, k + 1) i =
          (json ++ "," ++ networkObject (table i), k + 1 + 1) := by
        simp only [buildNetworksStep, h, if_false, gt_iff_lt, Nat.zero_lt_succ, if_true,
          networkObject, String.append_assoc]
      simp only [List.foldl_cons, hstep, List.map_cons, listedNetworks, List.filter_cons]
      have := ih (json ++ "," ++ networkObject (table i)) (k + 1)
      simp [listedNetworks] at this
      simp [h, String.intercalate.go, this]
      omega

theorem buildNetworksFold_zero (table : Nat → ScanEntry) (l : List Nat) (json : String) :
    (l.foldl (buildNetworksStep table) (json, 0)).1 =
      json ++ ",".intercalate ((listedNetworks (l.map table)).map networkObject) ∧
    (l.foldl (buildNetworksStep table) (json, 0)).2 = (listedNetworks (l.map table)).length := by
  induction l with
  | nil => simp [listedNetworks, String.intercalate]
  | cons i l ih =>
    by_cases h : (table i).ssid.length = 0
    · simp only [List.foldl_cons, buildNetworksStep, h, if_true, List.map_cons, listedNetworks,
        List.filter_cons]
      simpa [listedNetworks] using ih
    · have hstep : buildNetworksStep table (json, 0) i = (json ++ networkObject (table i), 0 + 1) := by
        simp only [buildNetworksStep, h, if_false, gt_iff_lt, Nat.lt_irrefl, networkObject,
          String.append_assoc]
      have hgo := buildNetworksFold_go table l (json ++ networkObject (table i)) 0
      rw [intercalate_go_append] at hgo
      simp only [List.foldl_cons, hstep, List.map_cons, listedNetworks, List.filter_cons]
      simp only [listedNetworks] at hgo
      simp [h, String.intercalate, hgo]
      omega

theorem buildNetworksJSON_eq_spec (table : Nat → ScanEntry) (n : Int) :
    buildNetworksJSON table n = networksJSONSpec (scanResults table n) := by
  simp only [buildNetworksJSON, networksJSONSpec, scanResults]
  rw [(buildNetworksFold_zero table (List.range n.toNat) _).1]

/-- C24. For a scan table and a count `n`, `buildNetworksJSON` produces the `networks` array
holding, in scan order and separated by single commas, the objects of exactly the results with
a non-empty SSID; the number of objects written is the number of such results; and when every
SSID is empty (in particular when `n = 0`) the document is the empty list. -/
theorem buildNetworksJSON_spec (table : Nat → ScanEntry) (n : Int) :
    buildNetworksJSON table n = networksJSONSpec (scanResults table n) ∧
    addedNetworks table n = (listedNetworks (scanResults table n)).length ∧
    ((∀ e ∈ scanResults table n, e.ssid = "") → buildNetworksJSON table n = JSON_EMPTY) ∧
    buildNetworksJSON table 0 = JSON_EMPTY := by
  refine ⟨buildNetworksJSON_eq_spec table n, ?_, ?_, ?_⟩
  · exact (buildNetworksFold_zero table (List.range n.toNat) _).2
  · intro h
    have hnone : listedNetworks (scanResults table n) = [] := by
      simp only [listedNetworks, List.filter_eq_nil_iff]
      intro e he
      simp [h e he]
    rw [buildNetworksJSON_eq_spec, networksJSONSpec, hnone]
    decide
  · rfl

theorem buildNetworksJSON_spec_witness :
    (∀ e ∈ scanResults hiddenTable 2, e.ssid = "") ∧
    buildNetworksJSON hiddenTable 2 = JSON_EMPTY ∧
    networksJSONSpec (scanResults sampleTable 3) =
      "\x7b\"networks\":[\x7b\"ssid\":\"home\",\"rssi\":-40,\"encryption\":3\x7d," ++
        "\x7b\"ssid\":\"cafe\",\"rssi\":-60,\"encryption\":0\x7d]\x7d" :=
  ⟨by decide, (buildNetworksJSON_spec hiddenTable 2).2.2.1 (by decide), by decide⟩

/-! ## Scan result handling: failure and completion -/

/-- C22. Failure step: in a state with a scan in progress, when the `scanComplete()` reading
of `update()` is `WIFI_SCAN_FAILED`, then after the scan-result handling `scanInProgress` is
false; if AP mode is active and `scanRetryCount < 3` the counter has gone up by one and the
cache is the `retrying` status, otherwise the cache is the empty list and the counter is 0. -/
theorem updateScan_failure (env : Env) (s : NetworkManager)
    (hscan : s.scanInProgress = true)
    (hfail : env.scanComplete (s.tick + 1) = WIFI_SCAN_FAILED) :
    (updateScan env s).scanInProgress = false ∧
    (if s.apModeActive = true ∧ s.scanRetryCount < 3 then
      (updateScan env s).scanRetryCount = s.scanRetryCount + 1 ∧
        (updateScan env s).cachedNetworksJSON = JSON_RETRYING
    else
      (updateScan env s).cachedNetworksJSON = JSON_EMPTY ∧
        (updateScan env s).scanRetryCount = 0) := by
  have hneg : ¬ (WIFI_SCAN_FAILED ≥ 0) := by decide
  by_cases h : s.apModeActive = true ∧ s.scanRetryCount < 3
  · simp only [updateScan, hscan, if_true, next, hfail, hneg, if_false, log, h, and_self]
  · simp only [updateScan, hscan, if_true, next, hfail, hneg, if_false, log, h, and_self]

theorem updateScan_failure_witness :
    (updateScan failingEnv apScanState).scanInProgress = false ∧
    (if apScanState.apModeActive = true ∧ apScanState.scanRetryCount < 3 then
      (updateScan failingEnv apScanState).scanRetryCount = apScanState.scanRetryCount + 1 ∧
        (updateScan failingEnv apScanState).cachedNetworksJSON = JSON_RETRYING
    else
      (updateScan failingEnv apScanState).cachedNetworksJSON = JSON_EMPTY ∧
        (updateScan failingEnv apScanState).scanRetryCount = 0) :=
  updateScan_failure failingEnv apScanState (by decide) (by decide)

/-- C23. Completion step: in a state with a scan in progress, when the `scanComplete()`
reading of `update()` is a count `n ≥ 0` (and the radio reports the same count to
`getNetworksJSON()` right after), then afterwards `scanInProgress` is false, `scanRetryCount`
is 0, `lastScanTime` is the clock reading taken in the handler, and the cache is the
serialized list of the `n` results without the entries whose SSID is empty. -/
theorem updateScan_completion (env : Env) (s : NetworkManager) (n : Int)
    (hscan : s.scanInProgress = true)
    (hn : env.scanComplete (s.tick + 1) = n) (h0 : 0 ≤ n)
    (hsame : env.scanComplete (s.tick + 2) = n) :
    (updateScan env s).scanInProgress = false ∧
    (updateScan env s).scanRetryCount = 0 ∧
    (updateScan env s).lastScanTime = env.clock (s.tick + 3) % U32 ∧
    (updateScan env s).cachedNetworksJSON =
      networksJSONSpec (scanResults (env.scanTable (s.tick + 2)) n) := by
  have hlt : ¬ n < 0 := not_lt.mpr h0
  have hge : n ≥ 0 := h0
  rw [← buildNetworksJSON_eq_spec]
  simp only [updateScan, hscan, if_true, next, hn, hge, getNetworksJSON, hsame, hlt, if_false,
    log, millis]
  simp

theorem updateScan_completion_witness :
    (updateScan resultsEnv apScanState).scanInProgress = false ∧
    (updateScan resultsEnv apScanState).scanRetryCount = 0 ∧
    (updateScan resultsEnv apScanState).lastScanTime = resultsEnv.clock (apScanState.tick + 3) % U32 ∧
    (updateScan resultsEnv apScanState).cachedNetworksJSON =
      networksJSONSpec (scanResults (resultsEnv.scanTable (apScanState.tick + 2)) 3) :=
  updateScan_completion resultsEnv apScanState 3 (by decide) (by decide) (by decide) (by decide)

/-! ## What the networks callback returns -/

theorem reachable_cacheInv (s : NetworkManager) (h : Reachable s) : CacheInv s := by
  induction h with
  | boot g d nvs tick => exact Or.inl rfl
  | pin s p _ ih => exact ih
  | setup env fuel s _ ih => exact setup_cache env fuel s ih
  | update env fuel s _ ih => exact update_cache env fuel s ih
  | button env s _ ih => exact checkResetButton_cache env s ih
  | clearAll s _ ih => exact ih
  | saveConfig s t ssid password tz _ ht ih => exact onWebSaveConfig_cache s t _ _ _ ih ht
  | getNetworks env s t _ ht ih => exact onWebGetNetworks_cache env s t ih ht
  | startScan env s t _ ht ih =>
    simp only [onWebStartScan, Option.some.injEq] at ht
    subst ht
    exact startNetworkScan_cache env s ih
  | reboot s _ ih => exact Or.inl rfl

theorem threeShapes_ne_empty (j : String) (h : ThreeShapes j) : j ≠ "" := by
  rintro rfl
  rcases h with h | h | h
  · exact absurd h (by decide)
  · exact absurd h (by decide)
  · exact not_networksShape_empty_string h

theorem beginScan_three (env : Env) (s : NetworkManager) :
    ThreeShapes (beginScan env s).cachedNetworksJSON := by
  simp only [beginScan, log, next]
  split_ifs <;>
    first
      | exact threeShapes_scanning
      | exact threeShapes_retrying
      | exact threeShapes_empty_list

theorem startNetworkScan_three (env : Env) (s : NetworkManager)
    (h : s.scanInProgress = false) :
    ThreeShapes (startNetworkScan env s).cachedNetworksJSON := by
  simp only [startNetworkScan, h]
  split_ifs <;>
    first
      | exact threeShapes_scanning
      | exact beginScan_three env _
      | simp_all

theorem getNetworksUncached_three (env : Env) (s : NetworkManager) :
    ThreeShapes (getNetworksUncached env s).1 := by
  simp only [getNetworksUncached]
  by_cases h : s.scanInProgress = true
  · simp only [h, if_true]
    exact threeShapes_scanning
  · have hf : s.scanInProgress = false := by simpa using h
    simp only [hf]
    exact startNetworkScan_three env s hf

/-- C27. In every reachable state of the controller (the instance being set), the text
returned by the networks callback is `{"status":"scanning"}`, `{"status":"retrying"}` or an
object `{"networks":[...]}`; it is never the empty string, although the cache of the
controller as constructed is the empty string. -/
theorem onWebGetNetworks_returns_shape (env : Env) (s : NetworkManager) (h : Reachable s) :
    ThreeShapes (onWebGetNetworks env (some s)).1 ∧
    (onWebGetNetworks env (some s)).1 ≠ "" ∧
    (construct 0 0 [] 0).cachedNetworksJSON = "" := by
  have key : ThreeShapes (onWebGetNetworks env (some s)).1 := by
    simp only [onWebGetNetworks]
    split_ifs with hc hfresh
    · rcases reachable_cacheInv s h with he | hs
      · rw [he] at hc
        exact absurd hc.1 (by decide)
      · exact hs
    · exact getNetworksUncached_three env _
    · exact getNetworksUncached_three env _
  exact ⟨key, threeShapes_ne_empty _ key, rfl⟩

theorem onWebGetNetworks_returns_shape_witness :
    ThreeShapes (onWebGetNetworks failingEnv (some (construct 0 0 [] 0))).1 ∧
    (onWebGetNetworks failingEnv (some (construct 0 0 [] 0))).1 ≠ "" ∧
    (construct 0 0 [] 0).cachedNetworksJSON = "" :=
  onWebGetNetworks_returns_shape failingEnv (construct 0 0 [] 0) (Reachable.boot 0 0 [] 0)

/-! ## The deferred initial scan -/

theorem clearAllSettings_scans (s : NetworkManager) :
    cnt Event.isScanStart s.clearAllSettings = cnt Event.isScanStart s := by
  simp [clearAllSettings, log, cnt, List.countP_append, List.countP_cons]

theorem checkResetButton_scans (env : Env) (s : NetworkManager) :
    cnt Event.isScanStart (checkResetButton env s).2 = cnt Event.isScanStart s := by
  simp only [checkResetButton]
  split_ifs <;> first | rfl | exact clearAllSettings_scans _

theorem connectWait_scans (env : Env) (start fuel : Nat) (s : NetworkManager) :
    cnt Event.isScanStart (connectWait env start fuel s).state = cnt Event.isScanStart s := by
  have hd : ∀ u : NetworkManager,
      cnt Event.isScanStart (checkResetButton env (u.log (Event.delay 100))).2
        = cnt Event.isScanStart u := by
    intro u
    rw [checkResetButton_scans env _, cnt_log]
    rfl
  induction fuel generalizing s with
  | zero =>
    simp only [connectWait]
    split_ifs <;> rfl
  | succ fuel ih =>
    rw [connectWait]
    dsimp only
    split_ifs
    all_goals
      first
        | rfl
        | (rw [ih, hd]; rfl)
        | (simp only [Outcome.state, cnt_log, hd, cnt_next]; rfl)

theorem connectToWiFi_scans (env : Env) (fuel : Nat) (s : NetworkManager) :
    cnt Event.isScanStart (connectToWiFi env fuel s).state = cnt Event.isScanStart s := by
  have hbind : ∀ (o : Outcome Unit),
      (o.bind fun _ t => Outcome.ret (env.wifiConnected t.tick) t.next).state.trace
        = o.state.trace := by
    intro o
    cases o <;> rfl
  have hb : ∀ u : NetworkManager, ∀ st : Nat,
      cnt Event.isScanStart ((connectWait env st fuel u).bind fun _ t =>
        Outcome.ret (env.wifiConnected t.tick) t.next).state = cnt Event.isScanStart u := by
    intro u st
    have := connectWait_scans env st fuel u
    simp only [cnt] at this ⊢
    rw [hbind, this]
  simp only [connectToWiFi]
  split_ifs
  · rfl
  · rw [hb, cnt_next, cnt_log]; rfl
  · rw [hb, cnt_next, cnt_log, cnt_log]; rfl

theorem ntpWait_scans (env : Env) (n : Nat) (s : NetworkManager) :
    cnt Event.isScanStart (ntpWait env n s).2 = cnt Event.isScanStart s := by
  induction n generalizing s with
  | zero => rfl
  | succ n ih =>
    simp only [ntpWait]
    split_ifs
    · rfl
    · rw [ih, cnt_log]; rfl

theorem syncTimeWithNTP_scans (env : Env) (s : NetworkManager) :
    cnt Event.isScanStart (syncTimeWithNTP env s) = cnt Event.isScanStart s := by
  have h := ntpWait_scans env 20 (s.log Event.configTime)
  rw [cnt_log] at h
  simp only [syncTimeWithNTP]
  generalize ntpWait env 20 (s.log Event.configTime) = r at *
  split_ifs <;> simpa [cnt, next, log, List.countP_append, List.countP_cons] using h

theorem startNormalModeWebServer_scans (env : Env) (s : NetworkManager) :
    cnt Event.isScanStart (startNormalModeWebServer env s) = cnt Event.isScanStart s := by
  simp only [startNormalModeWebServer, isConnected]
  split_ifs <;> simp [cnt, next, log, List.countP_append, List.countP_cons]

theorem leaveAPMode_scans (env : Env) (s : NetworkManager) :
    cnt Event.isScanStart (leaveAPMode env s) = cnt Event.isScanStart s := by
  simp only [leaveAPMode]
  rw [startNormalModeWebServer_scans, syncTimeWithNTP_scans]
  cases s.webConfigServer <;>
    (dsimp only; split_ifs <;> simp [cnt, next, log, List.countP_append, List.countP_cons])

theorem updateServer_scans (s : NetworkManager) :
    cnt Event.isScanStart (updateServer s).state = cnt Event.isScanStart s := by
  simp only [updateServer]
  split
  · simp only [WebConfigServer.update, log]
    split_ifs <;> simp [Outcome.state, cnt, List.countP_append, List.countP_cons]
  · rfl

theorem updateAP_scans (env : Env) (fuel : Nat) (s : NetworkManager) :
    cnt Event.isScanStart (updateAP env fuel s).state = cnt Event.isScanStart s := by
  simp only [updateAP]
  split_ifs
  · simp [Outcome.state, cnt, next, log, List.countP_append, List.countP_cons]
  · have h := connectToWiFi_scans env fuel
      { s.next with lastConnectionAttempt := millis env s }
    generalize connectToWiFi env fuel { s.next with lastConnectionAttempt := millis env s } = o
      at h ⊢
    cases o with
    | ret ok t =>
      cases ok
      · exact h
      · simp only [Outcome.bind, if_true, Outcome.state] at h ⊢
        rw [leaveAPMode_scans]; exact h
    | reboot t => exact h
    | running t => exact h
  · rfl

theorem startAPMode_young (env : Env) (fuel : Nat) (s : NetworkManager)
    (hscan : s.scanInProgress = false)
    (hyoung : sub32 (env.clock (s.tick + 2) % U32) (env.clock s.tick % U32) < 2000) :
    startAPMode env fuel s = Outcome.ret ()
      { s with
        apModeActive := true
        apModeStartTime := env.clock s.tick % U32
        lastConnectionAttempt := env.clock (s.tick + 1) % U32
        tick := s.tick + 4
        cachedNetworksJSON := JSON_SCANNING
        trace := s.trace ++ [Event.wifiDisconnect true, Event.delay 100,
          Event.wifiMode WifiMode.WIFI_AP_STA, Event.delay 100, Event.softAP AP_SSID,
          Event.delay 100, Event.serverNew, Event.serverStart ServerMode.MODE_SETUP]
        webConfigServer := some (WebConfigServer.construct.start ServerMode.MODE_SETUP) } := by
  have hy : sub32 (env.clock (s.tick + 1 + 1) % U32) (env.clock s.tick % U32) < 2000 := hyoung
  simp only [startAPMode, startNetworkScan, next, log, millis, hscan, Bool.false_eq_true,
    if_false, if_true, hy]
  rw [initialScanWait]
  simp [hscan, Outcome.bind]

theorem update_idle_scans (env : Env) (fuel : Nat) (t : NetworkManager)
    (hap : t.apModeActive = true) (hscan : t.scanInProgress = false)
    (hcount : t.scanRetryCount = 0) :
    updateRetry env (updateScan env t) = t ∧
    cnt Event.isScanStart (update env fuel t).state = cnt Event.isScanStart t := by
  have h1 : updateScan env t = t := by simp [updateScan, hscan]
  have h2 : updateRetry env t = t := by simp [updateRetry, hcount]
  refine ⟨by rw [h1, h2], ?_⟩
  simp only [update, h1, h2]
  have hs := updateServer_scans t
  rcases updateServer_cases t with ⟨u, hu, hframe, _⟩ | ⟨u, hu, _, _⟩
  · rw [hu] at hs ⊢
    have hua : u.apModeActive = true := by rw [hframe]; exact hap
    simp only [Outcome.bind, hua, if_true]
    rw [updateAP_scans]
    exact hs
  · rw [hu] at hs ⊢
    exact hs

/-- C28. When `startAPMode()` is entered with no scan in flight and the clock reading inside
its `startNetworkScan()` call is less than 2000 ms after the reading stored in
`apModeStartTime`, it returns without a pass through its wait loop (whatever the fuel), its
calls are exactly the six of bringing up the access point followed by the creation and start
of the setup server (so the scan primitive is not invoked), and it leaves the cache at
`{"status":"scanning"}`, `scanInProgress` false and `scanRetryCount` unchanged; when
`scanRetryCount` is 0, a following `update()` finds nothing to do in its scan handling and
does not invoke the scan primitive either. -/
theorem startAPMode_defers_scan (env : Env) (fuel : Nat) (s : NetworkManager)
    (hscan : s.scanInProgress = false)
    (hyoung : sub32 (env.clock (s.tick + 2) % U32) (env.clock s.tick % U32) < 2000) :
    ∃ t, startAPMode env fuel s = Outcome.ret () t ∧
      t.apModeStartTime = env.clock s.tick % U32 ∧
      t.trace = s.trace ++ [Event.wifiDisconnect true, Event.delay 100,
        Event.wifiMode WifiMode.WIFI_AP_STA, Event.delay 100, Event.softAP AP_SSID,
        Event.delay 100, Event.serverNew, Event.serverStart ServerMode.MODE_SETUP] ∧
      cnt Event.isScanStart t = cnt Event.isScanStart s ∧
      t.webConfigServer = some (WebConfigServer.construct.start ServerMode.MODE_SETUP) ∧
      t.apModeActive = true ∧
      t.cachedNetworksJSON = JSON_SCANNING ∧
      t.scanInProgress = false ∧
      t.scanRetryCount = s.scanRetryCount ∧
      (s.scanRetryCount = 0 → ∀ (env2 : Env) (fuel2 : Nat),
        updateRetry env2 (updateScan env2 t) = t ∧
        cnt Event.isScanStart (update env2 fuel2 t).state = cnt Event.isScanStart t) := by
  refine ⟨_, startAPMode_young env fuel s hscan hyoung, rfl, rfl, ?_, rfl, rfl, rfl, hscan, rfl,
    ?_⟩
  · simp [cnt, List.countP_append, List.countP_cons]
  · intro hcount env2 fuel2
    exact update_idle_scans env2 fuel2 _ rfl hscan hcount

theorem startAPMode_defers_scan_witness :
    ∃ t, startAPMode failingEnv 0 sampleState = Outcome.ret () t ∧
      t.apModeStartTime = failingEnv.clock sampleState.tick % U32 ∧
      t.trace = sampleState.trace ++ [Event.wifiDisconnect true, Event.delay 100,
        Event.wifiMode WifiMode.WIFI_AP_STA, Event.delay 100, Event.softAP AP_SSID,
        Event.delay 100, Event.serverNew, Event.serverStart ServerMode.MODE_SETUP] ∧
      cnt Event.isScanStart t = cnt Event.isScanStart sampleState ∧
      t.webConfigServer = some (WebConfigServer.construct.start ServerMode.MODE_SETUP) ∧
      t.apModeActive = true ∧
      t.cachedNetworksJSON = JSON_SCANNING ∧
      t.scanInProgress = false ∧
      t.scanRetryCount = sampleState.scanRetryCount ∧
      (sampleState.scanRetryCount = 0 → ∀ (env2 : Env) (fuel2 : Nat),
        updateRetry env2 (updateScan env2 t) = t ∧
        cnt Event.isScanStart (update env2 fuel2 t).state = cnt Event.isScanStart t) :=
  startAPMode_defers_scan failingEnv 0 sampleState (by decide) (by decide)

/-! ## The scan state and the web callbacks -/

theorem updateScan_idle (env : Env) (s : NetworkManager) (h : s.scanInProgress = false) :
    updateScan env s = s := by
  simp [updateScan, h]

theorem updateRetry_station (env : Env) (s : NetworkManager) (h : s.apModeActive = false) :
    updateRetry env s = s := by
  simp [updateRetry, h]

/-- In normal mode with no scan in flight and a running status server that has no reboot
pending, `update()` is its normal-mode branch. -/
theorem update_station_eq (env : Env) (fuel : Nat) (s : NetworkManager)
    (hscan : s.scanInProgress = false) (hap : s.apModeActive = false)
    (hserver : s.webConfigServer
      = some (WebConfigServer.construct.start ServerMode.MODE_NORMAL)) :
    update env fuel s = updateStation env fuel s := by
  have hu : updateServer s = Outcome.ret () s := by
    simp [updateServer, hserver, WebConfigServer.update, WebConfigServer.start,
      WebConfigServer.construct]
  simp only [update, updateScan_idle env s hscan, updateRetry_station env s hap, hu,
    Outcome.bind, hap]
  rfl

set_option maxRecDepth 100000 in
/-- C21 (failing input). A controller in normal mode that serves the status page loses the
radio; the `update()` call that notices it fails to reconnect and falls back to AP mode.  The
call returns with the setup server in place, and on the way it has created a second server
object without a call of `stop()` or `delete` on the first: two server objects are alive. -/
theorem station_fallback_keeps_old_server :
    stationState.apModeActive = false ∧
    stationState.webConfigServer
      = some (WebConfigServer.construct.start ServerMode.MODE_NORMAL) ∧
    liveServers stationState = 1 ∧
    (update dropEnv 5 stationState).state.apModeActive = true ∧
    (update dropEnv 5 stationState).state.webConfigServer
      = some (WebConfigServer.construct.start ServerMode.MODE_SETUP) ∧
    (update dropEnv 5 stationState).state.trace = stationState.trace ++
      [Event.wifiMode WifiMode.WIFI_STA, Event.wifiBegin "HomeNet" "hunter2",
        Event.wifiDisconnect true, Event.delay 100, Event.wifiMode WifiMode.WIFI_AP_STA,
        Event.delay 100, Event.softAP AP_SSID, Event.delay 100,
        Event.wifiMode WifiMode.WIFI_AP_STA, Event.delay 100, Event.scanNetworks,
        Event.serverNew, Event.serverStart ServerMode.MODE_SETUP] ∧
    cnt Event.isServerStop (update dropEnv 5 stationState).state = 0 ∧
    cnt Event.isServerDelete (update dropEnv 5 stationState).state = 0 ∧
    liveServers (update dropEnv 5 stationState).state = 2 := by
  rw [update_station_eq dropEnv 5 stationState (by decide) (by decide) (by decide)]
  decide

/-! ## The association attempt -/

theorem connectToWiFi_eq (env : Env) (fuel : Nat) (s : NetworkManager)
    (hssid : s.storedSSID.length ≠ 0) :
    connectToWiFi env fuel s =
      (connectWait env (millis env (connectEntry s)) fuel (connectEntry s).next).bind
        fun _ t => Outcome.ret (env.wifiConnected t.tick) t.next := by
  simp only [connectToWiFi, if_neg hssid]
  rfl

/-- The wait loop ends within `fuel` passes when the readings of its condition start at
`base` ms or more after `startAttempt`, grow by 100 ms or more from one to the next, and
`base + 100 * fuel` covers the timeout. -/
theorem connectWait_ends (env : Env) (start : Nat) (fuel : Nat)
    (s : NetworkManager) (base : Nat)
    (hhead : ∀ m, (connectReadings env start fuel s).head? = some m → start + base ≤ m)
    (hstep : List.Chain' (fun a b => a + 100 ≤ b) (connectReadings env start fuel s))
    (hfuel : connectionTimeout ≤ base + 100 * fuel) :
    ∀ t, connectWait env start fuel s ≠ Outcome.running t := by
  have hnow : ∀ u : NetworkManager, millis env u < U32 := by
    intro u
    simp only [millis, U32]
    omega
  induction fuel generalizing s base with
  | zero =>
    intro t
    by_cases hc : env.wifiConnected s.tick = true
    · simp [connectWait, hc]
    · by_cases ht : sub32 (millis env s.next) start < connectionTimeout
      · exfalso
        have h1 := hhead (millis env s.next) (by simp [connectReadings, hc, ht])
        rw [sub32_of_le (by omega) (hnow _)] at ht
        omega
      · simp [connectWait, hc, ht]
  | succ fuel ih =>
    intro t
    rw [connectWait]
    rw [connectReadings] at hhead hstep
    dsimp only at hhead hstep ⊢
    by_cases hc : env.wifiConnected s.tick = true
    · simp [hc]
    · by_cases ht : sub32 (millis env s.next) start < connectionTimeout
      · by_cases hr : (checkResetButton env (s.next.next.log (Event.delay 100))).1 = true
        · simp [hc, ht, hr]
        · simp only [hc, Bool.false_eq_true, if_false, ht, not_true_eq_false, hr] at hhead hstep ⊢
          have h1 := hhead _ rfl
          apply ih _ (base + 100)
          · intro m hm
            have h2 := List.Chain'.rel_head? hstep hm
            omega
          · exact hstep.tail
          · omega
      · simp [hc, ht]

theorem connectWait_fuel_succ (env : Env) (start fuel : Nat) (s : NetworkManager)
    (h : ∀ t, connectWait env start fuel s ≠ Outcome.running t) :
    connectWait env start (fuel + 1) s = connectWait env start fuel s := by
  induction fuel generalizing s with
  | zero =>
    by_cases hc : env.wifiConnected s.tick = true
    · simp [connectWait, hc]
    · by_cases ht : sub32 (millis env s.next) start < connectionTimeout
      · exact absurd (by simp [connectWait, hc, ht]) (h s.next.next)
      · simp [connectWait, hc, ht]
  | succ fuel ih =>
    rw [connectWait] at h
    rw [connectWait]
    conv_rhs => rw [connectWait]
    dsimp only at h ⊢
    by_cases hc : env.wifiConnected s.tick = true
    · simp [hc]
    · by_cases ht : sub32 (millis env s.next) start < connectionTimeout
      · by_cases hr : (checkResetButton env (s.next.next.log (Event.delay 100))).1 = true
        · simp [hc, ht, hr]
        · simp only [hc, Bool.false_eq_true, if_false, ht, not_true_eq_false, hr] at h ⊢
          exact ih _ h
      · simp [hc, ht]

theorem connectWait_fuel_add (env : Env) (start fuel : Nat) (s : NetworkManager)
    (h : ∀ t, connectWait env start fuel s ≠ Outcome.running t) (k : Nat) :
    connectWait env start (fuel + k) s = connectWait env start fuel s := by
  induction k with
  | zero => rfl
  | succ k ih =>
    rw [← Nat.add_assoc, connectWait_fuel_succ env start (fuel + k) s (by rw [ih]; exact h), ih]

/-- C26. With an empty stored SSID `connectToWiFi()` returns false and leaves the controller,
its call trace included, as it is.  With a non-empty SSID, when it returns, the value is the
radio status read on leaving the wait loop; and when the clock readings of the loop
condition start at or after `startAttempt` and grow by 100 ms or more from one poll tick to
the next, the wait loop ends within 200 passes (20000 ms), by leaving the loop or by the reboot of a
long button press: 200 passes of fuel never run out, and more fuel gives the same outcome. -/
theorem connectToWiFi_bounded (env : Env) (s : NetworkManager) :
    (s.storedSSID.length = 0 → ∀ fuel, connectToWiFi env fuel s = Outcome.ret false s) ∧
    (s.storedSSID.length ≠ 0 →
      (∀ fuel b t, connectToWiFi env fuel s = Outcome.ret b t →
        ∃ u, connectWait env (millis env (connectEntry s)) fuel (connectEntry s).next
            = Outcome.ret () u ∧
          t = u.next ∧ b = env.wifiConnected u.tick) ∧
      ((∀ m, (connectReadings env (millis env (connectEntry s)) 200
            (connectEntry s).next).head? = some m → millis env (connectEntry s) ≤ m) →
        List.Chain' (fun a b => a + 100 ≤ b)
          (connectReadings env (millis env (connectEntry s)) 200 (connectEntry s).next) →
        (∀ t, connectToWiFi env 200 s ≠ Outcome.running t) ∧
        ∀ fuel, 200 ≤ fuel → connectToWiFi env fuel s = connectToWiFi env 200 s)) := by
  refine ⟨fun h fuel => by simp [connectToWiFi, h], fun hssid => ⟨?_, ?_⟩⟩
  · intro fuel b t h
    rw [connectToWiFi_eq env fuel s hssid] at h
    generalize connectWait env (millis env (connectEntry s)) fuel (connectEntry s).next = o
      at h ⊢
    cases o with
    | ret a u =>
      simp only [Outcome.bind, Outcome.ret.injEq] at h
      exact ⟨u, rfl, h.2.symm, h.1.symm⟩
    | reboot u => simp [Outcome.bind] at h
    | running u => simp [Outcome.bind] at h
  · intro hhead hstep
    have hends := connectWait_ends env (millis env (connectEntry s)) 200 (connectEntry s).next 0
      (fun m hm => by simpa using hhead m hm) hstep (by decide)
    constructor
    · intro t h
      rw [connectToWiFi_eq env 200 s hssid] at h
      generalize connectWait env (millis env (connectEntry s)) 200 (connectEntry s).next = o
        at h hends
      cases o with
      | ret a u => simp [Outcome.bind] at h
      | reboot u => simp [Outcome.bind] at h
      | running u => exact hends u rfl
    · intro fuel hfuel
      obtain ⟨k, rfl⟩ := Nat.exists_eq_add_of_le hfuel
      rw [connectToWiFi_eq env _ s hssid, connectToWiFi_eq env 200 s hssid,
        connectWait_fuel_add env _ 200 _ hends k]

theorem connectReadings_sample :
    connectReadings timeoutEnv (millis timeoutEnv (connectEntry configuredState)) 200
      (connectEntry configuredState).next = [37000, 43000, 49000, 55000] := by
  decide

theorem connectToWiFi_bounded_witness :
    (∀ t, connectToWiFi timeoutEnv 200 configuredState ≠ Outcome.running t) ∧
    (∀ fuel, 200 ≤ fuel →
      connectToWiFi timeoutEnv fuel configuredState
        = connectToWiFi timeoutEnv 200 configuredState) ∧
    (∀ fuel, connectToWiFi timeoutEnv fuel sampleState = Outcome.ret false sampleState) :=
  ⟨(((connectToWiFi_bounded timeoutEnv configuredState).2 (by decide)).2
      (by rw [connectReadings_sample]; intro m hm; simp at hm; subst hm; decide)
      (by rw [connectReadings_sample]; simp)).1,
    (((connectToWiFi_bounded timeoutEnv configuredState).2 (by decide)).2
      (by rw [connectReadings_sample]; intro m hm; simp at hm; subst hm; decide)
      (by rw [connectReadings_sample]; simp)).2,
    (connectToWiFi_bounded timeoutEnv sampleState).1 (by decide)⟩

end NetworkManager

namespace ClockDisplayHAL

/-! ## The LED strip index of a grid cell -/

/-- On the grid the index is the closed form of a serpentine: row `y` occupies the block of
twelve LEDs that starts at `12 * (10 - y)`, even rows running backwards. -/
theorem cartesianToWordClockLEDStripIndex_eq (x y : Nat) (hx : x < WIDTH) (hy : y < HEIGHT) :
    cartesianToWordClockLEDStripIndex x y =
      if y % 2 = 0 then 12 * (10 - y) + (11 - x) else 12 * (10 - y) + x := by
  simp only [WIDTH, HEIGHT] at hx hy
  simp only [cartesianToWordClockLEDStripIndex, NUM_LEDS, WIDTH, HEIGHT, U16]
  have hx8 : x % 256 = x := Nat.mod_eq_of_lt (by omega)
  have hy8 : y % 256 = y := Nat.mod_eq_of_lt (by omega)
  rw [hx8, hy8]
  split_ifs <;> omega

/-- C30. For every cell `(x, y)` of the 12 x 11 grid the strip index, computed with the
16-bit wrap-around of the source, is below `NUM_LEDS = 132`; two cells of the grid with the
same index are the same cell; every index below 132 is the index of a cell of the grid; and
so `setPixel` on one cell leaves the LED of every other cell of the grid as it was. -/
theorem cartesianToWordClockLEDStripIndex_bijective :
    NUM_LEDS = 132 ∧
    (∀ x y, x < WIDTH → y < HEIGHT → cartesianToWordClockLEDStripIndex x y < NUM_LEDS) ∧
    (∀ x y x2 y2, x < WIDTH → y < HEIGHT → x2 < WIDTH → y2 < HEIGHT →
      cartesianToWordClockLEDStripIndex x y = cartesianToWordClockLEDStripIndex x2 y2 →
      x = x2 ∧ y = y2) ∧
    (∀ i, i < NUM_LEDS →
      ∃ x y, x < WIDTH ∧ y < HEIGHT ∧ cartesianToWordClockLEDStripIndex x y = i) ∧
    (∀ (pixels : Nat → Nat) (color x y x2 y2 : Nat),
      x < WIDTH → y < HEIGHT → x2 < WIDTH → y2 < HEIGHT → ¬ (x = x2 ∧ y = y2) →
      setPixel pixels x y color (cartesianToWordClockLEDStripIndex x2 y2)
        = pixels (cartesianToWordClockLEDStripIndex x2 y2)) := by
  have hinj : ∀ x y x2 y2, x < WIDTH → y < HEIGHT → x2 < WIDTH → y2 < HEIGHT →
      cartesianToWordClockLEDStripIndex x y = cartesianToWordClockLEDStripIndex x2 y2 →
      x = x2 ∧ y = y2 := by
    intro x y x2 y2 hx hy hx2 hy2 h
    rw [cartesianToWordClockLEDStripIndex_eq x y hx hy,
      cartesianToWordClockLEDStripIndex_eq x2 y2 hx2 hy2] at h
    simp only [WIDTH, HEIGHT] at hx hy hx2 hy2
    split_ifs at h <;> omega
  refine ⟨rfl, ?_, hinj, ?_, ?_⟩
  · intro x y hx hy
    rw [cartesianToWordClockLEDStripIndex_eq x y hx hy]
    simp only [WIDTH, HEIGHT, NUM_LEDS] at *
    split_ifs <;> omega
  · intro i hi
    simp only [NUM_LEDS, WIDTH, HEIGHT] at hi
    by_cases hp : (10 - i / 12) % 2 = 0
    · refine ⟨11 - i % 12, 10 - i / 12, ?_, ?_, ?_⟩
      · simp only [WIDTH]; omega
      · simp only [HEIGHT]; omega
      · rw [cartesianToWordClockLEDStripIndex_eq _ _ (by simp only [WIDTH]; omega)
          (by simp only [HEIGHT]; omega), if_pos hp]
        omega
    · refine ⟨i % 12, 10 - i / 12, ?_, ?_, ?_⟩
      · simp only [WIDTH]; omega
      · simp only [HEIGHT]; omega
      · rw [cartesianToWordClockLEDStripIndex_eq _ _ (by simp only [WIDTH]; omega)
          (by simp only [HEIGHT]; omega), if_neg hp]
        omega
  · intro pixels color x y x2 y2 hx hy hx2 hy2 hne
    have hidx : cartesianToWordClockLEDStripIndex x2 y2 ≠ cartesianToWordClockLEDStripIndex x y :=
      fun h => hne (hinj x y x2 y2 hx hy hx2 hy2 h.symm)
    simp [setPixel, setPixelColor, hidx]

theorem cartesianToWordClockLEDStripIndex_bijective_witness :
    cartesianToWordClockLEDStripIndex 3 4 < NUM_LEDS ∧
    (cartesianToWordClockLEDStripIndex 3 4 = cartesianToWordClockLEDStripIndex 5 6 →
      3 = 5 ∧ 4 = 6) ∧
    (∃ x y, x < WIDTH ∧ y < HEIGHT ∧ cartesianToWordClockLEDStripIndex x y = 131) ∧
    setPixel (fun _ => 0) 3 4 7 (cartesianToWordClockLEDStripIndex 0 0) = 0 :=
  ⟨cartesianToWordClockLEDStripIndex_bijective.2.1 3 4 (by decide) (by decide),
    cartesianToWordClockLEDStripIndex_bijective.2.2.1 3 4 5 6 (by decide) (by decide)
      (by decide) (by decide),
    cartesianToWordClockLEDStripIndex_bijective.2.2.2.1 131 (by decide),
    cartesianToWordClockLEDStripIndex_bijective.2.2.2.2 (fun _ => 0) 7 3 4 0 0 (by decide)
      (by decide) (by decide) (by decide) (by decide)⟩

end ClockDisplayHAL

namespace Clock

/-! ## The words of the time display -/

theorem ite_mem {α : Type} (l : List α) (c : Prop) [Decidable c] (a b : α) (ha : a ∈ l)
    (hb : b ∈ l) : (if c then a else b) ∈ l := by
  split_ifs <;> assumption

theorem getMinutesWord_mem (minute : Int) : getMinutesWord minute ∈ minuteWords := by
  unfold getMinutesWord
  repeat' apply ite_mem
  all_goals simp [minuteWords]

theorem minuteWords_known (w : String) (h : w ∈ minuteWords) :
    (ClockDisplayHAL.findMapping w).isSome = true := by
  simp only [minuteWords, List.mem_cons, List.mem_singleton, List.not_mem_nil, or_false] at h
  rcases h with rfl | rfl | rfl | rfl | rfl | rfl | rfl <;> decide

theorem hourWord_known (k : Int) (h1 : 1 ≤ k) (h2 : k ≤ 12) :
    (ClockDisplayHAL.findMapping ("HOUR_" ++ toString k)).isSome = true := by
  interval_cases k <;> decide

theorem getMinutesWord_bucket (m : Int) (h0 : 0 ≤ m) (h1 : m < 60) :
    getMinutesWord m = getMinutesWord (5 * (m / 5)) := by
  interval_cases m <;> rfl

theorem getMinutesWord_mirror (b : Int) (h0 : 1 ≤ b) (h1 : b ≤ 11) :
    getMinutesWord (5 * b) = getMinutesWord (5 * (12 - b)) := by
  interval_cases b <;> rfl

theorem displayHour_eq (h m : Int) (hh : 0 ≤ h ∧ h < 24) :
    displayHour h m = if m < 35 then twelveHourForm h else twelveHourForm (h + 1) := by
  obtain ⟨h0, h1⟩ := hh
  have ht : h.tmod 12 = h % 12 := Int.tmod_eq_emod h0 (by decide)
  have key : ∀ k : Int, 1 ≤ k → (k + 1).tmod 12 = (k + 1) % 12 :=
    fun k hk => Int.tmod_eq_emod (by omega) (by decide)
  simp only [displayHour, ht, twelveHourForm]
  by_cases hz : h % 12 = 0
  · simp only [hz, if_true]
    rw [key 12 (by decide)]
    by_cases h5 : m < 5
    · have h35 : m < 35 := by omega
      simp only [h5, h35, if_true]
    · by_cases h35 : m < 35
      · simp only [h5, h35, if_true, if_false]
      · have hn : ¬ (h + 1) % 12 = 0 := by omega
        simp only [h5, h35, if_false, hn]
        have e : (h + 1) % 12 = 1 := by omega
        rw [e]
        decide
  · simp only [hz, if_false]
    rw [key (h % 12) (by omega)]
    by_cases h5 : m < 5
    · have h35 : m < 35 := by omega
      simp only [h5, h35, if_true]
    · by_cases h35 : m < 35
      · simp only [h5, h35, if_true, if_false]
      · simp only [h5, h35, if_false]
        have e : (h % 12 + 1) % 12 = (h + 1) % 12 := by omega
        rw [e]

theorem twelveHourForm_range (h : Int) : 1 ≤ twelveHourForm h ∧ twelveHourForm h ≤ 12 := by
  simp only [twelveHourForm]
  by_cases hz : h % 12 = 0
  · simp only [hz, if_true]
    decide
  · simp only [hz, if_false]
    omega

theorem displayHour_range (h m : Int) (hh : 0 ≤ h ∧ h < 24) :
    1 ≤ displayHour h m ∧ displayHour h m ≤ 12 := by
  rw [displayHour_eq h m hh]
  by_cases h35 : m < 35
  · simp only [h35, if_true]
    exact twelveHourForm_range h
  · simp only [h35, if_false]
    exact twelveHourForm_range (h + 1)

/-- C29. For a local time with `tm_hour` in 0..23 and `tm_min` in 0..59, every word that
`displayTime()` highlights is a key of `WORDS_TO_LEDS`; the last word is `HOUR_h` with `h` in
1..12, the 12-hour form of the current hour when the minute is below 35 and of the following
hour otherwise; the minute word is one of the seven words of `minuteWords`; and the minute
word of a five-minute bucket `b` (from 1 to 11) is that of the bucket `12 - b`. -/
theorem displayTime_words (h m : Int) (hh : 0 ≤ h ∧ h < 24) (hm : 0 ≤ m ∧ m < 60) :
    (∀ w ∈ displayTime h m, (ClockDisplayHAL.findMapping w).isSome = true) ∧
    (displayTime h m).getLast? = some ("HOUR_" ++ toString (displayHour h m)) ∧
    (1 ≤ displayHour h m ∧ displayHour h m ≤ 12) ∧
    displayHour h m = (if m < 35 then twelveHourForm h else twelveHourForm (h + 1)) ∧
    getMinutesWord m ∈ displayTime h m ∧
    getMinutesWord m ∈ minuteWords ∧
    (∀ m2 : Int, 0 ≤ m2 ∧ m2 < 60 → 1 ≤ m / 5 → m / 5 + m2 / 5 = 12 →
      getMinutesWord m = getMinutesWord m2) := by
  have hmin := minuteWords_known _ (getMinutesWord_mem m)
  have hhour := hourWord_known _ (displayHour_range h m hh).1 (displayHour_range h m hh).2
  have hIT : (ClockDisplayHAL.findMapping "IT").isSome = true := by decide
  have hIS : (ClockDisplayHAL.findMapping "IS").isSome = true := by decide
  have hOC : (ClockDisplayHAL.findMapping "OCLOCK").isSome = true := by decide
  have hPA : (ClockDisplayHAL.findMapping "PAST").isSome = true := by decide
  have hTO : (ClockDisplayHAL.findMapping "TO").isSome = true := by decide
  have hMI : (ClockDisplayHAL.findMapping "MINUTES").isSome = true := by decide
  refine ⟨?_, ?_, displayHour_range h m hh, displayHour_eq h m hh, ?_, getMinutesWord_mem m, ?_⟩
  · intro w hw
    simp only [displayTime] at hw
    by_cases h5 : m < 5
    · simp only [h5, if_true, List.mem_append, List.mem_cons, List.mem_singleton,
        List.not_mem_nil, or_false] at hw
      rcases hw with ((((rfl | rfl) | rfl) | rfl) | rfl) <;> assumption
    · by_cases h35 : m < 35
      · simp only [h5, h35, if_true, if_false, List.mem_append, List.mem_cons,
          List.mem_singleton, List.not_mem_nil, or_false] at hw
        rcases hw with ((((rfl | rfl) | (rfl | rfl)) | rfl) | rfl) <;> assumption
      · simp only [h5, h35, if_false, List.mem_append, List.mem_cons,
          List.mem_singleton, List.not_mem_nil, or_false] at hw
        rcases hw with ((((rfl | rfl) | (rfl | rfl)) | rfl) | rfl) <;> assumption
  · simp [displayTime]
  · simp [displayTime]
  · intro m2 h2 hb hs
    rw [getMinutesWord_bucket m hm.1 hm.2, getMinutesWord_bucket m2 h2.1 h2.2,
      getMinutesWord_mirror (m / 5) hb (by omega)]
    congr 2
    omega

theorem displayTime_words_witness :
    displayTime 23 40 = ["IT", "IS", "TO", "MINUTES", "TWENTY", "HOUR_12"] ∧
    (∀ w ∈ displayTime 23 40, (ClockDisplayHAL.findMapping w).isSome = true) ∧
    displayHour 23 40 = 12 ∧
    getMinutesWord 40 = getMinutesWord 24 :=
  ⟨by decide, (displayTime_words 23 40 (by decide) (by decide)).1, by decide,
    (displayTime_words 23 40 (by decide) (by decide)).2.2.2.2.2.2 24 (by decide) (by decide)
      (by decide)⟩

end Clock

end WordClock
